import Mathlib

/-!
# LightGBM configuration normalisation (`src/io/config.cpp`)

A shallow embedding of the configuration builder: the tokenizer `KV2Map` and `Str2Map`,
the verbosity resolver, the raw-parameter helpers, the semantic enumerators, the metric
parser, the weight-matrix parser, `Config::Set` with its validation-set filter, the
ordered rule battery of `Config::CheckParamConflict` and the dump `Config::ToString`,
followed by theorems about them.

Conventions of the embedding.

* `std::string` is `String`; `std::vector<T>` is `List T`; `int` is `Int`. The only
  arithmetic on an `int` is the product `num_class * num_class` of `GetAucMuWeights`,
  which is wrapped explicitly; where the `int` range matters it is an explicit
  hypothesis.
* Functions and constants of headers that are not part of the sources are either
  parameters of the functions that call them, or definitions whose comment starts with
  "Modelled from the spec".
* `std::unordered_map<K, V>` is an association list `List (K × V)`; lookups return the
  first binding of a key.
* `double` is `Double` below: NaN, the two infinities, or an exact rational. Every
  finite `double` is a rational and IEEE comparisons of finite values are exact.
* `Log::Warning` / `Log::Info` append a message to the log of a `Run`; `Log::Fatal`
  (which throws) ends the run with `Except.error`. A message is the format string of
  the call site together with its arguments; the logging threshold is not modelled,
  a message counts as emitted when its call site is reached.
-/

namespace LightGBM

/-! ## Doubles -/

/-- An IEEE `double` as far as it is compared: NaN, `-inf`, a finite value, `+inf`. -/
inductive Double where
  | nan : Double
  | ninf : Double
  | num (q : ℚ) : Double
  | pinf : Double
  deriving DecidableEq

namespace Double

/-- IEEE `a < b` (false as soon as one side is NaN). -/
def lt : Double → Double → Bool
  | num a, num b => decide (a < b)
  | ninf, num _ => true
  | ninf, pinf => true
  | num _, pinf => true
  | _, _ => false

/-- IEEE `a == b` (false as soon as one side is NaN). -/
def eq : Double → Double → Bool
  | num a, num b => decide (a = b)
  | ninf, ninf => true
  | pinf, pinf => true
  | _, _ => false

/-- IEEE `a <= b`. -/
def le (a b : Double) : Bool := lt a b || eq a b

/-- IEEE `a > b`. -/
def gt (a b : Double) : Bool := lt b a

/-- IEEE `a >= b`. -/
def ge (a b : Double) : Bool := le b a

/-- IEEE `a != b` (true as soon as one side is NaN). -/
def ne (a b : Double) : Bool := !(eq a b)

/-- Conversion `int -> double`, exact for every 32-bit `int`. -/
def ofInt (i : Int) : Double := num (Rat.ofInt i)

/-- Conversion `static_cast<int>(double)`: truncation toward zero of a finite value.
The conversion of NaN or an infinity is undefined in C++; it is given the value 0 here
and is never reached by the code below. -/
def toInt : Double → Int
  | num q => Int.tdiv q.num (Int.ofNat q.den)
  | _ => 0

end Double

/-- The value of `std::pow(2, e)` for an `int` exponent `e`: an exact power of two in the
range of `double`, `+inf` above it, `0` below it. -/
def pow2 (e : Int) : Double :=
  if e > 1023 then Double.pinf
  else if e < -1074 then Double.num 0
  else if e ≥ 0 then Double.num (Rat.ofInt (Int.ofNat (2 ^ e.toNat)))
  else Double.num (mkRat 1 (2 ^ (-e).toNat))

/-! ## Logging and fatal errors -/

/-- An argument of a `printf`-style log call. -/
inductive LogArg where
  | str (s : String) : LogArg
  | int (i : Int) : LogArg
  | dbl (d : Double) : LogArg
  | size (n : Nat) : LogArg
  deriving DecidableEq

/-- The severities of `LightGBM::LogLevel`. -/
inductive LogLevel where
  | Fatal : LogLevel
  | Warning : LogLevel
  | Info : LogLevel
  | Debug : LogLevel
  deriving DecidableEq

/-- One call of `Log::Warning`, `Log::Info` or `Log::Fatal`: its format string and
arguments. -/
structure LogMsg where
  level : LogLevel
  fmt : String
  args : List LogArg
  deriving DecidableEq

/-- A computation that logs messages and either returns a value or stops at a
`Log::Fatal`. The log holds the messages emitted before the end of the run. -/
structure Run (α : Type) where
  log : List LogMsg
  res : Except LogMsg α

namespace Run

/-- Return a value without logging. -/
def ret {α : Type} (a : α) : Run α := ⟨[], Except.ok a⟩

/-- Sequencing: the second computation runs only if the first did not stop. -/
def andThen {α β : Type} (x : Run α) (f : α → Run β) : Run β :=
  match x.res with
  | Except.ok a => ⟨x.log ++ (f a).log, (f a).res⟩
  | Except.error e => ⟨x.log, Except.error e⟩

instance : Monad Run where
  pure := ret
  bind := andThen

end Run

namespace Log

/-- Call of `Log::Warning`. -/
def Warning (fmt : String) (args : List LogArg) : Run Unit :=
  ⟨[⟨LogLevel.Warning, fmt, args⟩], Except.ok ()⟩

/-- Call of `Log::Info`. -/
def Info (fmt : String) (args : List LogArg) : Run Unit :=
  ⟨[⟨LogLevel.Info, fmt, args⟩], Except.ok ()⟩

/-- Call of `Log::Fatal`: the message is the error the run stops with. -/
def Fatal {α : Type} (fmt : String) (args : List LogArg) : Run α :=
  ⟨[], Except.error ⟨LogLevel.Fatal, fmt, args⟩⟩

end Log

/-! ## Data model -/

/-- The enumeration `TaskType` of `config.h`, with the spelling of its constants. -/
inductive TaskType where
  | kTrain : TaskType
  | kPredict : TaskType
  | kConvertModel : TaskType
  | KRefitTree : TaskType
  | kSaveBinary : TaskType
  deriving DecidableEq

/-- The map `std::unordered_map<std::string, std::string>` of resolved parameters. -/
abbrev Params := List (String × String)

/-- The map `std::unordered_map<std::string, std::vector<std::string>>` of raw
parameters, every value a key received. -/
abbrev RawParams := List (String × List String)

/-- The fields of `Config` that `config.cpp` reads or writes in the functions below. -/
structure Config where
  task : TaskType
  boosting : String
  data_sample_strategy : String
  objective : String
  metric : List String
  device_type : String
  tree_learner : String
  data : String
  valid : List String
  is_provide_training_metric : Bool
  save_binary : Bool
  num_class : Int
  num_machines : Int
  is_parallel : Bool
  is_data_based_parallel : Bool
  histogram_pool_size : Double
  forcedsplits_filename : String
  max_depth : Int
  num_leaves : Int
  force_col_wise : Bool
  force_row_wise : Bool
  deterministic : Bool
  use_quantized_grad : Bool
  linear_tree : Bool
  zero_as_missing : Bool
  path_smooth : Double
  min_data_in_leaf : Int
  min_sum_hessian_in_leaf : Double
  monotone_constraints_method : String
  monotone_penalty : Double
  feature_fraction_bynode : Double
  bagging_by_query : Bool
  deriving DecidableEq

/-- A concrete configuration used as the starting point of the examples: a training
run on one machine with 31 leaves, no depth bound and an unbounded histogram pool. -/
def exampleConfig : Config where
  task := TaskType.kTrain
  boosting := "gbdt"
  data_sample_strategy := "bagging"
  objective := "regression"
  metric := []
  device_type := "cpu"
  tree_learner := "serial"
  data := ""
  valid := []
  is_provide_training_metric := false
  save_binary := false
  num_class := 1
  num_machines := 1
  is_parallel := false
  is_data_based_parallel := false
  histogram_pool_size := Double.num (-1)
  forcedsplits_filename := ""
  max_depth := -1
  num_leaves := 31
  force_col_wise := false
  force_row_wise := false
  deterministic := false
  use_quantized_grad := false
  linear_tree := false
  zero_as_missing := false
  path_smooth := Double.num 0
  min_data_in_leaf := 20
  min_sum_hessian_in_leaf := Double.num (mkRat 1 1000)
  monotone_constraints_method := "basic"
  monotone_penalty := Double.num 0
  feature_fraction_bynode := Double.num 1
  bagging_by_query := false

/-- A value for the constant `kEpsilon` of `meta.h` used in the examples (`1e-15`). The
theorems hold for every value of the constant. -/
def exampleEpsilon : Double := Double.num (mkRat 1 (10 ^ 15))

/-! ## `Config::CheckParamConflict` -/

/-- Source: `CheckMultiClassObjective` (config.cpp 320-322). -/
def CheckMultiClassObjective (objective : String) : Bool :=
  objective == "multiclass" || objective == "multiclassova"

/-- The flag `objective_type_multiclass` of `CheckParamConflict` (config.cpp 327). -/
def objectiveTypeMulticlass (objective : String) (num_class_check : Int) : Bool :=
  CheckMultiClassObjective objective || (objective == "custom" && decide (num_class_check > 1))

/-- The flag `metric_type_multiclass` of `CheckParamConflict` (config.cpp 339-343). -/
def metricTypeMulticlass (metric_type : String) (num_class_check : Int) : Bool :=
  CheckMultiClassObjective metric_type
    || metric_type == "multi_logloss"
    || metric_type == "multi_error"
    || metric_type == "auc_mu"
    || (metric_type == "custom" && decide (num_class_check > 1))

/-- The loop over `metric` (config.cpp 338-348): fatal at the first metric whose
multiclass flag differs from the objective's. -/
def checkMetricLoop (objective_type_multiclass : Bool) (num_class_check : Int) :
    List String → Run Unit
  | [] => pure ()
  | metric_type :: rest =>
    let metric_type_multiclass := metricTypeMulticlass metric_type num_class_check
    if (objective_type_multiclass && !metric_type_multiclass)
        || (!objective_type_multiclass && metric_type_multiclass) then
      Log.Fatal "Multiclass objective and metrics don\x27t match" []
    else
      checkMetricLoop objective_type_multiclass num_class_check rest

/-- The check that objective, metric and `num_class` match (config.cpp 325-348). It
changes no field. -/
def checkClassAndMetric (c : Config) : Run Unit :=
  let num_class_check := c.num_class
  let objective_type_multiclass := objectiveTypeMulticlass c.objective num_class_check
  Run.andThen
    (if objective_type_multiclass then
      (if num_class_check ≤ 1 then
        Log.Fatal "Number of classes should be specified and greater than 1 for multiclass training" []
      else pure ())
    else
      (if c.task = TaskType.kTrain ∧ num_class_check ≠ 1 then
        Log.Fatal "Number of classes must be 1 for non-multiclass training" []
      else pure ()))
    (fun _ => checkMetricLoop objective_type_multiclass num_class_check c.metric)

/-- The normalisation of `is_parallel`, `tree_learner` and `num_machines`
(config.cpp 350-362). -/
def normalizeParallel (c : Config) : Config :=
  let c := if c.num_machines > 1 then { c with is_parallel := true }
           else { c with is_parallel := false, tree_learner := "serial" }
  let is_single_tree_learner := c.tree_learner == "serial"
  if is_single_tree_learner then { c with is_parallel := false, num_machines := 1 } else c

/-- The classification of the tree learner as data based or not, with the reset of the
histogram pool for the `data` learner (config.cpp 364-377). `is_single_tree_learner`
was computed at line 357, from the tree learner that is still current here. -/
def classifyParallel (c : Config) : Run Config :=
  let is_single_tree_learner := c.tree_learner == "serial"
  if is_single_tree_learner || c.tree_learner == "feature" then
    pure { c with is_data_based_parallel := false }
  else if c.tree_learner == "data" || c.tree_learner == "voting" then
    let c := { c with is_data_based_parallel := true }
    if Double.ge c.histogram_pool_size (Double.ofInt 0) && c.tree_learner == "data" then
      Run.andThen
        (Log.Warning
          "Histogram LRU queue was enabled (histogram_pool_size=%f).\nWill disable this to reduce communication costs"
          [LogArg.dbl c.histogram_pool_size])
        (fun _ => pure { c with histogram_pool_size := Double.ofInt (-1) })
    else pure c
  else pure c

/-- The rejection of forced splits under data-based parallelism (config.cpp 378-383). -/
def checkForcedSplits (c : Config) : Run Config :=
  if c.is_data_based_parallel then
    if c.forcedsplits_filename ≠ "" then
      Log.Fatal "Don\x27t support forcedsplits in %s tree learner" [LogArg.str c.tree_learner]
    else pure c
  else pure c

/-- The lookup `params.count(name) == 0 || params.at(name).empty()`. -/
def absentOrEmpty (params : Params) (name : String) : Bool :=
  match params.lookup name with
  | none => true
  | some v => v == ""

/-- The coupling of `max_depth` and `num_leaves` (config.cpp 394-408). -/
def coupleDepthLeaves (params : Params) (c : Config) : Run Config :=
  if c.max_depth > 0 ∧ absentOrEmpty params "num_leaves" = true then
    let full_num_leaves := pow2 c.max_depth
    Run.andThen
      (if Double.gt full_num_leaves (Double.ofInt c.num_leaves) then
        Log.Warning
          "Provided parameters constrain tree depth (max_depth=%d) without explicitly setting \x27num_leaves\x27. This can lead to underfitting. To resolve this warning, pass \x27num_leaves\x27 (<=%.0f) in params. Alternatively, pass (max_depth=-1) and just use \x27num_leaves\x27 to constrain model complexity."
          [LogArg.int c.max_depth, LogArg.dbl full_num_leaves]
      else pure ())
      (fun _ =>
        if Double.lt full_num_leaves (Double.ofInt c.num_leaves) then
          pure { c with num_leaves := Double.toInt full_num_leaves }
        else pure c)
  else pure c

/-- The forcing of the storage layout by the device (config.cpp 409-427). -/
def forceDevice (c : Config) : Run Config :=
  if c.device_type == "gpu" then
    let c := { c with force_col_wise := true, force_row_wise := false }
    Run.andThen
      (if c.deterministic then
        Log.Warning "Although \"deterministic\" is set, the results ran by GPU may be non-deterministic." []
      else pure ())
      (fun _ =>
        if c.use_quantized_grad then
          Run.andThen
            (Log.Warning "Quantized training is not supported by GPU tree learner. Switch to full precision training." [])
            (fun _ => pure { c with use_quantized_grad := false })
        else pure c)
  else if c.device_type == "cuda" then
    let c := { c with force_col_wise := false, force_row_wise := true }
    Run.andThen
      (if c.deterministic then
        Log.Warning "Although \"deterministic\" is set, the results ran by GPU may be non-deterministic." []
      else pure ())
      (fun _ => pure c)
  else pure c

/-- The rules of the linear tree learner (config.cpp 428-444). -/
def checkLinearTree (c : Config) : Run Config :=
  if c.linear_tree then
    Run.andThen
      (if c.device_type ≠ "cpu" ∧ c.device_type ≠ "gpu" then
        Run.andThen
          (pure { c with device_type := "cpu" })
          (fun c => Run.andThen
            (Log.Warning "Linear tree learner only works with CPU and GPU. Falling back to CPU now." [])
            (fun _ => pure c))
      else pure c)
      (fun c => Run.andThen
        (if c.tree_learner ≠ "serial" then
          Run.andThen
            (pure { c with tree_learner := "serial" })
            (fun c => Run.andThen
              (Log.Warning "Linear tree learner must be serial." [])
              (fun _ => pure c))
        else pure c)
        (fun c =>
          if c.zero_as_missing then
            Log.Fatal "zero_as_missing must be false when fitting linear trees." []
          else if c.objective == "regression_l1" then
            Log.Fatal "Cannot use regression_l1 objective when fitting linear trees." []
          else pure c))
  else pure c

/-- The raise of `min_data_in_leaf` under path smoothing (config.cpp 449-452). -/
def raiseMinDataForSmoothing (kEpsilon : Double) (c : Config) : Run Config :=
  if Double.gt c.path_smooth kEpsilon && decide (c.min_data_in_leaf < 2) then
    Run.andThen
      (pure { c with min_data_in_leaf := 2 })
      (fun c => Run.andThen
        (Log.Warning "min_data_in_leaf has been increased to 2 because this is required when path smoothing is active." [])
        (fun _ => pure c))
  else pure c

/-- The downgrade of the monotone constraints method in distributed learning
(config.cpp 453-457). -/
def downgradeMonotoneParallel (c : Config) : Run Config :=
  if c.is_parallel && (c.monotone_constraints_method == "intermediate"
      || c.monotone_constraints_method == "advanced") then
    Run.andThen
      (Log.Warning "Cannot use \"intermediate\" or \"advanced\" monotone constraints in distributed learning, auto set to \"basic\" method." [])
      (fun _ => pure { c with monotone_constraints_method := "basic" })
  else pure c

/-- The downgrade of the monotone constraints method under per-node feature sampling
(config.cpp 458-463). -/
def downgradeMonotoneByNode (c : Config) : Run Config :=
  if Double.ne c.feature_fraction_bynode (Double.num 1)
      && (c.monotone_constraints_method == "intermediate"
        || c.monotone_constraints_method == "advanced") then
    Run.andThen
      (Log.Warning "Cannot use \"intermediate\" or \"advanced\" monotone constraints with feature fraction different from 1, auto set monotone constraints to \"basic\" method." [])
      (fun _ => pure { c with monotone_constraints_method := "basic" })
  else pure c

/-- The warning about a monotone penalty that reaches the depth bound
(config.cpp 464-466). -/
def warnMonotonePenalty (c : Config) : Run Config :=
  if decide (c.max_depth > 0) && Double.ge c.monotone_penalty (Double.ofInt c.max_depth) then
    Run.andThen
      (Log.Warning "Monotone penalty greater than tree depth. Monotone features won\x27t be used." [])
      (fun _ => pure c)
  else pure c

/-- The rule that one of the two leaf stopping criteria is positive
(config.cpp 467-472). -/
def forceMinData (kEpsilon : Double) (c : Config) : Run Config :=
  if decide (c.min_data_in_leaf ≤ 0) && Double.le c.min_sum_hessian_in_leaf kEpsilon then
    Run.andThen
      (Log.Warning "Cannot set both min_data_in_leaf and min_sum_hessian_in_leaf to 0. Will set min_data_in_leaf to 1." [])
      (fun _ => pure { c with min_data_in_leaf := 1 })
  else pure c

/-- The legacy warning of the `goss` rewrite (config.cpp 476-477). -/
def gossWarning : LogMsg :=
  ⟨LogLevel.Warning,
    "Found boosting=goss. For backwards compatibility reasons, LightGBM interprets this as boosting=gbdt, data_sample_strategy=goss.To suppress this warning, set data_sample_strategy=goss instead.",
    []⟩

/-- The rewrite of `boosting=goss` (config.cpp 473-478). -/
def rewriteGoss (c : Config) : Run Config :=
  if c.boosting == "goss" then
    Run.andThen
      (pure { c with boosting := "gbdt", data_sample_strategy := "goss" })
      (fun c => Run.andThen
        (Log.Warning gossWarning.fmt gossWarning.args)
        (fun _ => pure c))
  else pure c

/-- The reset of `bagging_by_query` (config.cpp 480-483). -/
def resetBaggingByQuery (c : Config) : Run Config :=
  if c.bagging_by_query && c.data_sample_strategy != "bagging" then
    Run.andThen
      (Log.Warning "bagging_by_query=true is only compatible with data_sample_strategy=bagging. Setting bagging_by_query=false." [])
      (fun _ => pure { c with bagging_by_query := false })
  else pure c

/-- Source: `Config::CheckParamConflict` (config.cpp 324-484), the rules in the order
of the source. `kEpsilon` is the constant of `meta.h`. -/
def Config.CheckParamConflict (kEpsilon : Double) (params : Params) (c : Config) : Run Config :=
  Run.andThen (checkClassAndMetric c) fun _ =>
  Run.andThen (classifyParallel (normalizeParallel c)) fun c =>
  Run.andThen (checkForcedSplits c) fun c =>
  Run.andThen (coupleDepthLeaves params c) fun c =>
  Run.andThen (forceDevice c) fun c =>
  Run.andThen (checkLinearTree c) fun c =>
  Run.andThen (raiseMinDataForSmoothing kEpsilon c) fun c =>
  Run.andThen (downgradeMonotoneParallel c) fun c =>
  Run.andThen (downgradeMonotoneByNode c) fun c =>
  Run.andThen (warnMonotonePenalty c) fun c =>
  Run.andThen (forceMinData kEpsilon c) fun c =>
  Run.andThen (rewriteGoss c) fun c =>
  resetBaggingByQuery c

/-! ## The validation-set filter of `Config::Set` -/

/-- The loop of `Config::Set` over `valid` (config.cpp 300-308). The state is the pair
of `new_valid` and `is_provide_training_metric`. -/
def filterValidLoop (data : String) : List String → List String × Bool → List String × Bool
  | [], state => state
  | v :: rest, (new_valid, is_provide_training_metric) =>
    if v ≠ data then
      filterValidLoop data rest (new_valid ++ [v], is_provide_training_metric)
    else
      filterValidLoop data rest (new_valid, true)

/-- The removal of the training set from the validation sets in `Config::Set`
(config.cpp 300-309). -/
def Config.Set_filterValid (c : Config) : Config :=
  let state := filterValidLoop c.data c.valid ([], c.is_provide_training_metric)
  { c with valid := state.1, is_provide_training_metric := state.2 }

/-- The forcing of `save_binary` by the task in `Config::Set` (config.cpp 311-314). -/
def Config.Set_saveBinary (c : Config) : Run Config :=
  if c.task = TaskType.kSaveBinary ∧ c.save_binary = false then
    Run.andThen
      (Log.Info "save_binary parameter set to true because task is save_binary" [])
      (fun _ => pure { c with save_binary := true })
  else pure c

/-- The end of `Config::Set` (config.cpp 300-317), from the validation-set filter to the
conflict check, run on the configuration the earlier steps of `Set` produced. -/
def Config.Set_tail (kEpsilon : Double) (params : Params) (c : Config) : Run Config :=
  Run.andThen (Config.Set_saveBinary (Config.Set_filterValid c)) fun c =>
  Config.CheckParamConflict kEpsilon params c

/-! ## `Config::KeepFirstValues` -/

/-- The effect of `std::unordered_map::emplace`: a key that is present keeps its value. -/
def emplace (out : Params) (name value : String) : Params :=
  match out.lookup name with
  | some _ => out
  | none => out ++ [(name, value)]

/-- The warning of `KeepFirstValues` for one discarded value (config.cpp 78-81). -/
def ignoredWarning (name first later : String) : LogMsg :=
  ⟨LogLevel.Warning, "%s is set=%s, %s=%s will be ignored. Current value: %s=%s",
    [LogArg.str name, LogArg.str first, LogArg.str name, LogArg.str later,
      LogArg.str name, LogArg.str first]⟩

/-- The inner loop of `KeepFirstValues` (config.cpp 77-82), over the values at the
indices `1 ..`. -/
def ignoredWarnings (name first : String) : List String → List LogMsg
  | [] => []
  | later :: rest => ignoredWarning name first later :: ignoredWarnings name first rest

/-- Source: `Config::KeepFirstValues` (config.cpp 72-84). The list order of `params` is
the iteration order of the map. The result is `none` when `values[0]` is read from an
empty vector (undefined behaviour in C++), otherwise the output map and the warnings. -/
def Config.KeepFirstValues : RawParams → Params → Option (Params × List LogMsg)
  | [], out => some (out, [])
  | (name, values) :: rest, out =>
    match values with
    | [] => none
    | first :: later =>
      match Config.KeepFirstValues rest (emplace out name first) with
      | none => none
      | some (out1, log) => some (out1, ignoredWarnings name first later ++ log)

/-! ## The enumerators -/

/-- Modelled from the spec: `Config::GetString` is declared in `config.h`, which is not
part of the sources; it yields the value of `name` when the key is present with a
non-empty value (the field was "already extracted") and reports absence otherwise. -/
def Config.GetString (params : Params) (name : String) : Option String :=
  match params.lookup name with
  | none => none
  | some v => if v = "" then none else some v

/-- Modelled from the spec: `Common::tolower` is declared in `utils/common.h`, which is
not part of the sources; the enumerators "lowercase" the text with it, letter by
letter over the ASCII capitals. -/
def Common.tolower (ch : Char) : Char :=
  if 'A' ≤ ch ∧ ch ≤ 'Z' then Char.ofNat (ch.toNat + 32) else ch

/-- The call `std::transform(value.begin(), value.end(), value.begin(), Common::tolower)`. -/
def lowercase (value : String) : String :=
  String.mk (value.data.map Common.tolower)

/-- Source: `GetBoostingType` (config.cpp 99-115). The second argument is the current
value of the field, the result its new value. -/
def GetBoostingType (params : Params) (boosting : String) : Run String :=
  match Config.GetString params "boosting" with
  | some value =>
    let value := lowercase value
    if value == "gbdt" || value == "gbrt" then pure "gbdt"
    else if value == "dart" then pure "dart"
    else if value == "goss" then pure "goss"
    else if value == "rf" || value == "random_forest" then pure "rf"
    else Log.Fatal "Unknown boosting type %s" [LogArg.str value]
  | none => pure boosting

/-- Source: `GetDataSampleStrategy` (config.cpp 117-129). -/
def GetDataSampleStrategy (params : Params) (strategy : String) : Run String :=
  match Config.GetString params "data_sample_strategy" with
  | some value =>
    let value := lowercase value
    if value == "goss" then pure "goss"
    else if value == "bagging" then pure "bagging"
    else Log.Fatal "Unknown sample strategy %s" [LogArg.str value]
  | none => pure strategy

/-- Source: `GetTaskType` (config.cpp 164-183). -/
def GetTaskType (params : Params) (task : TaskType) : Run TaskType :=
  match Config.GetString params "task" with
  | some value =>
    let value := lowercase value
    if value == "train" || value == "training" then pure TaskType.kTrain
    else if value == "predict" || value == "prediction" || value == "test" then
      pure TaskType.kPredict
    else if value == "convert_model" then pure TaskType.kConvertModel
    else if value == "refit" || value == "refit_tree" then pure TaskType.KRefitTree
    else if value == "save_binary" then pure TaskType.kSaveBinary
    else Log.Fatal "Unknown task type %s" [LogArg.str value]
  | none => pure task

/-- Source: `GetDeviceType` (config.cpp 185-199). -/
def GetDeviceType (params : Params) (device_type : String) : Run String :=
  match Config.GetString params "device_type" with
  | some value =>
    let value := lowercase value
    if value == "cpu" then pure "cpu"
    else if value == "gpu" then pure "gpu"
    else if value == "cuda" then pure "cuda"
    else Log.Fatal "Unknown device type %s" [LogArg.str value]
  | none => pure device_type

/-- Source: `GetTreeLearnerType` (config.cpp 201-217). -/
def GetTreeLearnerType (params : Params) (tree_learner : String) : Run String :=
  match Config.GetString params "tree_learner" with
  | some value =>
    let value := lowercase value
    if value == "serial" then pure "serial"
    else if value == "feature" || value == "feature_parallel" then pure "feature"
    else if value == "data" || value == "data_parallel" then pure "data"
    else if value == "voting" || value == "voting_parallel" then pure "voting"
    else Log.Fatal "Unknown tree learner type %s" [LogArg.str value]
  | none => pure tree_learner

/-! ### The alias tables of the specification -/

/-- The table of the specification for the task: accepted spelling, canonical tag. -/
def taskTable : List (String × TaskType) :=
  [("train", TaskType.kTrain), ("training", TaskType.kTrain),
   ("predict", TaskType.kPredict), ("prediction", TaskType.kPredict),
   ("test", TaskType.kPredict), ("convert_model", TaskType.kConvertModel),
   ("refit", TaskType.KRefitTree), ("refit_tree", TaskType.KRefitTree),
   ("save_binary", TaskType.kSaveBinary)]

/-- The table of the specification for the boosting algorithm. -/
def boostingTable : List (String × String) :=
  [("gbdt", "gbdt"), ("gbrt", "gbdt"), ("dart", "dart"), ("goss", "goss"),
   ("rf", "rf"), ("random_forest", "rf")]

/-- The table of the specification for the sampling strategy. -/
def dataSampleStrategyTable : List (String × String) :=
  [("goss", "goss"), ("bagging", "bagging")]

/-- The table of the specification for the device. -/
def deviceTable : List (String × String) :=
  [("cpu", "cpu"), ("gpu", "gpu"), ("cuda", "cuda")]

/-- The table of the specification for the tree learner. -/
def treeLearnerTable : List (String × String) :=
  [("serial", "serial"), ("feature", "feature"), ("feature_parallel", "feature"),
   ("data", "data"), ("data_parallel", "data"),
   ("voting", "voting"), ("voting_parallel", "voting")]

/-- The enumerator of the specification on a lowercased text: the canonical tag of an
accepted spelling, a fatal error naming the text otherwise. -/
def fromTable {α : Type} (table : List (String × α)) (unknownFmt : String) (text : String) :
    Run α :=
  match table.lookup text with
  | some tag => pure tag
  | none => Log.Fatal unknownFmt [LogArg.str text]

/-! ## Helpers of `utils/common.h` -/

/-- The pieces of a text between the occurrences of a delimiter, the empty ones
included: a text with `k` delimiters has `k + 1` pieces. The second argument is the
piece that is being read. -/
def Common.pieces (delimiter : Char) : List Char → List Char → List (List Char)
  | [], current => [current]
  | ch :: rest, current =>
    if ch = delimiter then current :: Common.pieces delimiter rest []
    else Common.pieces delimiter rest (current ++ [ch])

/-- Modelled from the spec: `Common::Split(str, delimiter)` is declared in
`utils/common.h`, which is not part of the sources. It cuts the text at every
occurrence of the delimiter ("split on comma") and returns the entries, which are the
non-empty pieces: a text made only of delimiters has no entry, as the specification has
non-empty metric text that parses to an empty list, and as `GetMetricType`
(config.cpp 159) tests the raw text for emptiness apart from the parsed list. -/
def Common.Split (str : String) (delimiter : Char) : List String :=
  ((Common.pieces delimiter str.data []).filter (fun piece => decide (piece ≠ []))).map
    String.mk

/-- The blank characters that `Common::Trim` removes: space, `\t`, `\n`, `\v`, `\f`,
`\r`. -/
def Common.isBlank (ch : Char) : Bool :=
  ch = ' ' || ch = Char.ofNat 9 || ch = Char.ofNat 10 || ch = Char.ofNat 11
    || ch = Char.ofNat 12 || ch = Char.ofNat 13

/-- Modelled from the spec: `Common::Trim` is declared in `utils/common.h`, which is not
part of the sources; keys and values "are trimmed of whitespace" at both ends. -/
def Common.Trim (str : String) : String :=
  String.mk ((str.data.dropWhile Common.isBlank).reverse.dropWhile Common.isBlank).reverse

/-- The quote characters `'` and `"`. -/
def Common.isQuote (ch : Char) : Bool :=
  ch = Char.ofNat 39 || ch = Char.ofNat 34

/-- One quote character less at the front of a text, if there is one. -/
def Common.dropQuote : List Char → List Char
  | [] => []
  | ch :: rest => if Common.isQuote ch then rest else ch :: rest

/-- Modelled from the spec: `Common::RemoveQuotationSymbol` is declared in
`utils/common.h`, which is not part of the sources; keys and values lose "a single layer
of surrounding quote characters". -/
def Common.RemoveQuotationSymbol (str : String) : String :=
  String.mk (Common.dropQuote (Common.dropQuote str.data).reverse).reverse

/-! ## `Config::KV2Map` -/

/-- The statement `params->operator[](key).emplace_back(value)`: the value is appended to
the values of `key`, which is inserted with no value first when it is absent. -/
def appendValue : RawParams → String → String → RawParams
  | [], key, value => [(key, [value])]
  | (k, values) :: rest, key, value =>
    if k = key then (k, values ++ [value]) :: rest
    else (k, values) :: appendValue rest key value

/-- The body of `KV2Map` for a key and a value that were read (config.cpp 19-26). -/
def storeKeyValue (params : RawParams) (rawKey : String) (rawValue : Option String) :
    RawParams :=
  let key := Common.RemoveQuotationSymbol (Common.Trim rawKey)
  let value :=
    match rawValue with
    | some v => Common.RemoveQuotationSymbol (Common.Trim v)
    | none => ""
  if key ≠ "" then appendValue params key value else params

/-- Source: `Config::KV2Map` (config.cpp 16-30). The match on the pieces is the test
`tmp_strs.size() == 2 || tmp_strs.size() == 1` with the reads of `tmp_strs[0]` and
`tmp_strs[1]`. -/
def Config.KV2Map (params : RawParams) (kv : String) : Run RawParams :=
  match Common.Split kv '=' with
  | [k] => pure (storeKeyValue params k none)
  | [k, v] => pure (storeKeyValue params k (some v))
  | _ => Run.andThen (Log.Warning "Unknown parameter %s" [LogArg.str kv]) (fun _ => pure params)

/-! ## `Config::SetVerbosity` -/

/-- Source: `GetFirstValueAsInt` (config.cpp 32-40). `AtoiAndCheck` of `utils/common.h` is
a parameter: the integer a text is parsed to, if it is one. The result is `none` when
`pair->second[0]` is read from an empty vector (undefined behaviour in C++). -/
def GetFirstValueAsInt (AtoiAndCheck : String → Option Int) (params : RawParams)
    (key : String) (out : Int) : Option (Run Int) :=
  match params.lookup key with
  | some values =>
    match values with
    | [] => none
    | candidate :: _ =>
      match AtoiAndCheck candidate with
      | some parsed => some (pure parsed)
      | none =>
        some (Log.Fatal "Parameter %s should be of type int, got \"%s\""
          [LogArg.str key, LogArg.str candidate])
  | none => some (pure out)

/-- The log level that `SetVerbosity` selects for a verbosity (config.cpp 61-69). -/
def levelOfVerbosity (verbosity : Int) : LogLevel :=
  if verbosity < 0 then LogLevel.Fatal
  else if verbosity = 0 then LogLevel.Warning
  else if verbosity = 1 then LogLevel.Info
  else LogLevel.Debug

/-- Source: `Config::SetVerbosity` (config.cpp 42-70). The log level of the process is
passed in and returned. -/
def Config.SetVerbosity (AtoiAndCheck : String → Option Int) (params : RawParams)
    (level : LogLevel) : Option (Run LogLevel) :=
  let verbosity : Int := 1
  match params.lookup "verbosity" with
  | some _ =>
    (GetFirstValueAsInt AtoiAndCheck params "verbosity" verbosity).map fun run =>
      Run.andThen run fun verbosity => pure (levelOfVerbosity verbosity)
  | none =>
    match params.lookup "verbose" with
    | some _ =>
      (GetFirstValueAsInt AtoiAndCheck params "verbose" verbosity).map fun run =>
        Run.andThen run fun verbosity => pure (levelOfVerbosity verbosity)
    | none => some (pure level)

/-! ## The objective and the metrics -/

/-- The loop of `ParseMetrics` (config.cpp 135-141). The state is the pair of
`out_metric` and `metric_sets`. -/
def parseMetricsLoop (ParseMetricAlias : String → String) :
    List String → List String × List String → List String × List String
  | [], state => state
  | met :: rest, (out_metric, metric_sets) =>
    let type := ParseMetricAlias met
    if type ∉ metric_sets then
      parseMetricsLoop ParseMetricAlias rest (out_metric ++ [type], type :: metric_sets)
    else
      parseMetricsLoop ParseMetricAlias rest (out_metric, metric_sets)

/-- Source: `ParseMetrics` (config.cpp 131-142). `ParseMetricAlias` of `config.h` is a
parameter. The previous content of `out_metric` is cleared. -/
def ParseMetrics (ParseMetricAlias : String → String) (value : String)
    (_out_metric : List String) : List String :=
  (parseMetricsLoop ParseMetricAlias (Common.Split value ',') ([], [])).1

/-- Source: `GetObjectiveType` (config.cpp 144-150). `ParseObjectiveAlias` of `config.h`
is a parameter; a fatal error in it ends the run. -/
def GetObjectiveType (ParseObjectiveAlias : String → Run String) (params : Params)
    (objective : String) : Run String :=
  match Config.GetString params "objective" with
  | some value => ParseObjectiveAlias (lowercase value)
  | none => pure objective

/-- Modelled from the spec: `ParseObjectiveAlias` is declared in `config.h`, which is not
part of the sources. It "maps any recognized spelling to its canonical objective tag",
and for the objective as for the other enumerated fields "unrecognized text is a fatal
error naming the field and the offending text". The table of the recognized spellings
is not in the specification and is a parameter; the wording of the message is not in the
specification either. -/
def ParseObjectiveAlias (aliases : List (String × String)) (type : String) : Run String :=
  fromTable aliases "Unknown objective type name: %s" type

/-- Source: `GetMetricType` (config.cpp 152-162). -/
def GetMetricType (ParseMetricAlias : String → String) (params : Params) (objective : String)
    (metric : List String) : List String :=
  let parsed : String × List String :=
    match Config.GetString params "metric" with
    | some value =>
      let value := lowercase value
      (value, ParseMetrics ParseMetricAlias value metric)
    | none => ("", metric)
  if parsed.2 = [] ∧ parsed.1 = "" then ParseMetrics ParseMetricAlias objective parsed.2
  else parsed.2

/-! ## `Config::GetAucMuWeights` -/

namespace Double

/-- The value of `std::fabs`. -/
def abs : Double → Double
  | nan => nan
  | ninf => pinf
  | num q => num (if q < 0 then -q else q)
  | pinf => pinf

end Double

/-- The value of an `int` expression whose exact value is `x`, with the wrap-around of
two's complement. (Signed overflow is undefined in C++; the theorems assume the product
below is in range.) -/
def wrapInt32 (x : Int) : Int := (x + 2 ^ 31) % 2 ^ 32 - 2 ^ 31

/-- The conversion `static_cast<size_t>` of an `int`. -/
def toSizeT (x : Int) : Nat := (x % 2 ^ 64).toNat

/-- A loop that computes one value for every element of a list, in order, and stops at
the first fatal error. -/
def Run.mapList {α β : Type} (f : α → Run β) : List α → Run (List β)
  | [] => pure []
  | a :: rest =>
    Run.andThen (f a) fun b => Run.andThen (Run.mapList f rest) fun bs => pure (b :: bs)

/-- The entry `[i][j]` that the loops of `GetAucMuWeights` assign for a supplied weight
list (config.cpp 233-243). The read `auc_mu_weights[i * num_class + j]` is in range after
the size check; out of range it is given the value NaN here. -/
def aucMuEntry (kZeroThreshold : Double) (num_class : Nat) (auc_mu_weights : List Double)
    (i j : Nat) : Run Double :=
  let weight := auc_mu_weights.getD (i * num_class + j) Double.nan
  if i = j then
    Run.andThen
      (if Double.gt (Double.abs weight) kZeroThreshold then
        Log.Info
          "AUC-mu matrix must have zeros on diagonal. Overwriting value in position %zu of auc_mu_weights with 0."
          [LogArg.size (i * num_class + j)]
      else pure ())
      (fun _ => pure (Double.ofInt 0))
  else if Double.lt (Double.abs weight) kZeroThreshold then
    Log.Fatal
      "AUC-mu matrix must have non-zero values for non-diagonal entries. Found zero value in position %zu of auc_mu_weights."
      [LogArg.size (i * num_class + j)]
  else pure weight

/-- Source: `Config::GetAucMuWeights` (config.cpp 219-247), from the fields `num_class`
and `auc_mu_weights` to the field `auc_mu_weights_matrix`. `kZeroThreshold` is the
constant of `meta.h`. The loops assign every entry once, in row-major order; the matrix
is built row by row in that order. -/
def Config.GetAucMuWeights (kZeroThreshold : Double) (num_class : Int)
    (auc_mu_weights : List Double) : Run (List (List Double)) :=
  let n := toSizeT num_class
  if auc_mu_weights = [] then
    pure ((List.range n).map fun i => (List.replicate n (Double.ofInt 1)).set i (Double.ofInt 0))
  else if auc_mu_weights.length ≠ toSizeT (wrapInt32 (num_class * num_class)) then
    Log.Fatal "auc_mu_weights must have %d elements, but found %zu"
      [LogArg.int (wrapInt32 (num_class * num_class)), LogArg.size auc_mu_weights.length]
  else
    Run.mapList
      (fun i => Run.mapList (fun j => aucMuEntry kZeroThreshold n auc_mu_weights i j)
        (List.range n))
      (List.range n)

/-! ## `Config::Str2Map` -/

/-- The pieces of a text between the occurrences of the characters of `delimiters`, the
empty ones included. The last argument is the piece that is being read. -/
def Common.piecesOf (delimiters : List Char) : List Char → List Char → List (List Char)
  | [], current => [current]
  | ch :: rest, current =>
    if ch ∈ delimiters then current :: Common.piecesOf delimiters rest []
    else Common.piecesOf delimiters rest (current ++ [ch])

/-- Modelled from the spec: the overload `Common::Split(str, delimiters)` is declared in
`utils/common.h`, which is not part of the sources. The text is "split on whitespace",
that is at every character of `delimiters`, and the entries are the non-empty pieces, as
for the `Split` at one delimiter. -/
def Common.SplitDelimiters (str : String) (delimiters : String) : List String :=
  ((Common.piecesOf delimiters.data str.data []).filter
    (fun piece => decide (piece ≠ []))).map String.mk

/-- Modelled from the spec: `ParameterAlias::KeyAliasTransform` is declared in `config.h`,
which is not part of the sources; it returns "an equivalent map where every key is
rewritten to its single canonical form". The table of the aliases (accepted spelling,
canonical name) is not in the specification and is a parameter; a key that is not in the
table is kept. -/
def ParameterAlias.KeyAliasTransform (aliases : List (String × String)) (params : Params) :
    Params :=
  params.map fun entry => ((aliases.lookup entry.1).getD entry.1, entry.2)

/-- The loop of `Config::Str2Map` over the tokens (config.cpp 90-92). -/
def Str2MapLoop : List String → RawParams → Run RawParams
  | [], all_params => pure all_params
  | arg :: rest, all_params =>
    Run.andThen (Config.KV2Map all_params (Common.Trim arg)) (Str2MapLoop rest)

/-- Source: `Config::Str2Map` (config.cpp 86-97). `level` is the logging threshold before
the call; the result is the threshold after the call and the map. The result is `none`
when `SetVerbosity` or `KeepFirstValues` reads `values[0]` of an empty vector. -/
def Config.Str2Map (AtoiAndCheck : String → Option Int) (aliases : List (String × String))
    (level : LogLevel) (parameters : String) : Option (Run (LogLevel × Params)) :=
  let tokens := Str2MapLoop (Common.SplitDelimiters parameters " \t\n\r") []
  match tokens.res with
  | Except.error e => some ⟨tokens.log, Except.error e⟩
  | Except.ok all_params =>
    match Config.SetVerbosity AtoiAndCheck all_params level with
    | none => none
    | some verbosity =>
      match verbosity.res with
      | Except.error e => some ⟨tokens.log ++ verbosity.log, Except.error e⟩
      | Except.ok level1 =>
        match Config.KeepFirstValues all_params [] with
        | none => none
        | some (params, warnings) =>
          some ⟨tokens.log ++ verbosity.log ++ warnings,
            Except.ok (level1, ParameterAlias.KeyAliasTransform aliases params)⟩

/-! ## `Config::Set` -/

/-- Modelled from the spec: `Config::GetInt` is declared in `config.h`, which is not part
of the sources. An absent key leaves the field; a present value is parsed "with strict
validation; fatal error naming the key and the offending raw string if parsing fails".
The result is the parsed integer, if the key is present; the wording of the message is
not in the specification. -/
def Config.GetInt (AtoiAndCheck : String → Option Int) (params : Params) (name : String) :
    Run (Option Int) :=
  match params.lookup name with
  | none => pure none
  | some value =>
    match AtoiAndCheck value with
    | some parsed => pure (some parsed)
    | none =>
      Log.Fatal "Parameter %s should be of type int, got %s" [LogArg.str name, LogArg.str value]

/-- The derivation of the seeds in `Config::Set` (config.cpp 266-276). The seven seed
fields are outside the record `Config` and the generator `Random` is not part of the
sources; what the block does to the run is the call of `GetInt`, which is fatal on a
seed that is not an integer. -/
def Config.Set_seeds (AtoiAndCheck : String → Option Int) (params : Params) : Run Unit :=
  Run.andThen (Config.GetInt AtoiAndCheck params "seed") fun _ => pure ()

/-- The enumerators of `Config::Set` (config.cpp 278-287). The write of the global
`LGBM_config_::current_device` for the device `cuda` is outside the record. -/
def Config.Set_enumerators (ParseObjectiveAlias : String → Run String)
    (ParseMetricAlias : String → String) (params : Params) (c : Config) : Run Config :=
  Run.andThen (GetTaskType params c.task) fun task =>
  Run.andThen (GetBoostingType params c.boosting) fun boosting =>
  Run.andThen (GetDataSampleStrategy params c.data_sample_strategy) fun strategy =>
  Run.andThen (GetObjectiveType ParseObjectiveAlias params c.objective) fun objective =>
  let metric := GetMetricType ParseMetricAlias params objective c.metric
  Run.andThen (GetDeviceType params c.device_type) fun device_type =>
  Run.andThen (GetTreeLearnerType params c.tree_learner) fun tree_learner =>
  pure { c with
    task := task, boosting := boosting, data_sample_strategy := strategy,
    objective := objective, metric := metric, device_type := device_type,
    tree_learner := tree_learner }

/-- Modelled from the spec: a declared field of the configuration, an entry of the "field
table (name, kind, default, setter)" that the extractor and the serializer share: the
name, the rendering of the value as text, and the setter from a raw value, which is
fatal when the value is not of the kind of the field. The default is the value of the
field in the default-constructed configuration. -/
structure Field where
  /-- The canonical name. -/
  name : String
  /-- The text of the value in the dump. -/
  render : Config → String
  /-- The setter from a raw value. -/
  assign : String → Config → Run Config

/-- Modelled from the spec: `Config::GetMembersFromString` is declared in `config.h`,
which is not part of the sources. "For each declared field, attempt lookup by canonical
name in the map; if absent, leave the field at its compile-time default. If present,
coerce using the field's declared kind." The declared fields are not in the
specification and are a parameter. -/
def Config.GetMembersFromString : List Field → Params → Config → Run Config
  | [], _, c => pure c
  | field :: rest, params, c =>
    match params.lookup field.name with
    | none => Config.GetMembersFromString rest params c
    | some value =>
      Run.andThen (field.assign value c) (Config.GetMembersFromString rest params)

/-- Source: `Config::Set` (config.cpp 265-318), on the fields of the record.
`GetAucMuWeights`, the two parsers of the interaction constraints and the sort of
`eval_at` (config.cpp 291-298) do not read the parameter map and work on fields that are
outside the record; they are not part of this definition. -/
def Config.Set (AtoiAndCheck : String → Option Int)
    (ParseObjectiveAlias : String → Run String) (ParseMetricAlias : String → String)
    (kEpsilon : Double) (fields : List Field) (params : Params) (c : Config) : Run Config :=
  Run.andThen (Config.Set_seeds AtoiAndCheck params) fun _ =>
  Run.andThen (Config.Set_enumerators ParseObjectiveAlias ParseMetricAlias params c) fun c =>
  Run.andThen (Config.GetMembersFromString fields params c) fun c =>
  Config.Set_tail kEpsilon params c

/-! ## `Config::ToString` -/

/-- Modelled from the spec: `Common::Join` is declared in `utils/common.h`, which is not
part of the sources; the "metric list" is rendered as its entries with the delimiter
between them. -/
def Common.Join : List String → String → String
  | [], _ => ""
  | [str], _ => str
  | str :: next :: rest, delimiter => str ++ delimiter ++ Common.Join (next :: rest) delimiter

/-- Modelled from the spec: `Config::SaveMembersToString` is declared in `config.h`,
which is not part of the sources; it renders "every declared field in name order, each
as `[name: value]`", one on a line. The table of the declared fields is a parameter and
is taken in its order. -/
def Config.SaveMembersToString : List Field → Config → String
  | [], _ => ""
  | field :: rest, c =>
    "[" ++ field.name ++ ": " ++ field.render c ++ "]\n" ++ Config.SaveMembersToString rest c

/-- Source: `Config::ToString` (config.cpp 486-495). -/
def Config.ToString (fields : List Field) (c : Config) : String :=
  "[boosting: " ++ c.boosting ++ "]\n" ++
  "[objective: " ++ c.objective ++ "]\n" ++
  "[metric: " ++ Common.Join c.metric "," ++ "]\n" ++
  "[tree_learner: " ++ c.tree_learner ++ "]\n" ++
  "[device_type: " ++ c.device_type ++ "]\n" ++
  Config.SaveMembersToString fields c

/-! ## Auxiliary definitions of the proofs -/

namespace Run

/-- The result of a sequence, from the result of its first part. -/
def resBind {α β : Type} (r : Except LogMsg α) (g : α → Except LogMsg β) : Except LogMsg β :=
  match r with
  | Except.ok a => g a
  | Except.error e => Except.error e

/-- The log of the second part of a sequence, from the result of its first part. -/
def logBind {α : Type} (r : Except LogMsg α) (g : α → List LogMsg) : List LogMsg :=
  match r with
  | Except.ok a => g a
  | Except.error _ => []

end Run

/-- The fields that no rule of `CheckParamConflict` writes have the same value in both
configurations. -/
structure SameFixed (c c' : Config) : Prop where
  task : c'.task = c.task
  objective : c'.objective = c.objective
  metric : c'.metric = c.metric
  data : c'.data = c.data
  valid : c'.valid = c.valid
  is_provide_training_metric : c'.is_provide_training_metric = c.is_provide_training_metric
  save_binary : c'.save_binary = c.save_binary
  num_class : c'.num_class = c.num_class
  forcedsplits_filename : c'.forcedsplits_filename = c.forcedsplits_filename
  max_depth : c'.max_depth = c.max_depth
  deterministic : c'.deterministic = c.deterministic
  linear_tree : c'.linear_tree = c.linear_tree
  zero_as_missing : c'.zero_as_missing = c.zero_as_missing
  path_smooth : c'.path_smooth = c.path_smooth
  min_sum_hessian_in_leaf : c'.min_sum_hessian_in_leaf = c.min_sum_hessian_in_leaf
  monotone_penalty : c'.monotone_penalty = c.monotone_penalty
  feature_fraction_bynode : c'.feature_fraction_bynode = c.feature_fraction_bynode

/-! ## Example configurations -/

/-- A training configuration with objective `custom` and three classes. -/
def customThreeClasses : Config :=
  { exampleConfig with objective := "custom", num_class := 3 }

/-- A multiclass training configuration with a multiclass metric. -/
def multiclassThreeClasses : Config :=
  { exampleConfig with objective := "multiclass", num_class := 3, metric := ["multi_logloss"] }

/-- A configuration whose second metric is a multiclass metric under a regression
objective. -/
def mismatchedMetric : Config :=
  { exampleConfig with metric := ["l2", "multi_error"] }


/-- The configurations between the rules of a run of `CheckParamConflict` that returns
`c'` from `c`: `c1` after the parallel rules, `c3` after the depth rule, `c4` after the
device rule, `c5` after the linear-tree rules, `c6`, `c7`, `c8` after the smoothing rule and
the two monotone-constraint rules, `c10` before and `c11` after the `goss` rewrite; with
the rule that produced each of them and the fields that are carried over unchanged
between them. -/
structure Trace (kEpsilon : Double) (params : Params)
    (c c1 c3 c4 c5 c6 c7 c8 c10 c11 c' : Config) : Prop where
  check : (checkClassAndMetric c).res = Except.ok ()
  classify : (classifyParallel (normalizeParallel c)).res = Except.ok c1
  forced : (checkForcedSplits c1).res = Except.ok c1
  couple : (coupleDepthLeaves params c1).res = Except.ok c3
  device : (forceDevice c3).res = Except.ok c4
  linear : (checkLinearTree c4).res = Except.ok c5
  smoothing : (raiseMinDataForSmoothing kEpsilon c5).res = Except.ok c6
  monotoneParallel : (downgradeMonotoneParallel c6).res = Except.ok c7
  monotoneByNode : (downgradeMonotoneByNode c7).res = Except.ok c8
  penalty : (warnMonotonePenalty c8).res = Except.ok c8
  minData : (forceMinData kEpsilon c8).res = Except.ok c10
  goss : (rewriteGoss c10).res = Except.ok c11
  bagging : (resetBaggingByQuery c11).res = Except.ok c'
  is_parallel : c'.is_parallel = (normalizeParallel c).is_parallel
  num_machines : c'.num_machines = (normalizeParallel c).num_machines
  is_data_based_parallel : c'.is_data_based_parallel = c1.is_data_based_parallel
  histogram_pool_size : c'.histogram_pool_size = c1.histogram_pool_size
  tree_learner1 : c1.tree_learner = (normalizeParallel c).tree_learner
  tree_learner4 : c4.tree_learner = c1.tree_learner
  tree_learner : c'.tree_learner = c5.tree_learner
  num_leaves1 : c1.num_leaves = c.num_leaves
  max_depth1 : c1.max_depth = c.max_depth
  num_leaves : c'.num_leaves = c3.num_leaves
  device_type3 : c3.device_type = c.device_type
  deterministic3 : c3.deterministic = c.deterministic
  use_quantized_grad3 : c3.use_quantized_grad = c.use_quantized_grad
  force_col_wise : c'.force_col_wise = c4.force_col_wise
  force_row_wise : c'.force_row_wise = c4.force_row_wise
  use_quantized_grad : c'.use_quantized_grad = c4.use_quantized_grad
  device_type4 : c4.device_type = c.device_type
  linear_tree4 : c4.linear_tree = c.linear_tree
  zero_as_missing4 : c4.zero_as_missing = c.zero_as_missing
  objective4 : c4.objective = c.objective
  device_type : c'.device_type = c5.device_type
  boosting10 : c10.boosting = c.boosting
  data_sample_strategy10 : c10.data_sample_strategy = c.data_sample_strategy
  bagging_by_query11 : c11.bagging_by_query = c.bagging_by_query
  boosting : c'.boosting = c11.boosting
  data_sample_strategy : c'.data_sample_strategy = c11.data_sample_strategy

/-- A request for the `data` learner on four machines with a linear tree. -/
def linearDataFourMachines : Config :=
  { exampleConfig with num_machines := 4, tree_learner := "data", linear_tree := true }

/-- A request for the `feature` learner on one machine. -/
def featureOneMachine : Config :=
  { exampleConfig with tree_learner := "feature" }

/-- A request for the `voting` learner on two machines with a histogram pool of size 100. -/
def votingTwoMachines : Config :=
  { exampleConfig with num_machines := 2, tree_learner := "voting",
                       histogram_pool_size := Double.num 100 }

/-- The result of `CheckParamConflict` on `votingTwoMachines`. -/
def votingTwoMachinesResult : Config :=
  { votingTwoMachines with is_parallel := true, is_data_based_parallel := true }

/-- A request for the `data` learner on four machines with a histogram pool of size 100. -/
def dataFourMachines : Config :=
  { exampleConfig with num_machines := 4, tree_learner := "data",
                       histogram_pool_size := Double.num 100 }

/-- The result of `CheckParamConflict` on `dataFourMachines`. -/
def dataFourMachinesResult : Config :=
  { dataFourMachines with is_parallel := true, is_data_based_parallel := true,
                          histogram_pool_size := Double.num (-1) }

/-- A depth bound of 3 with the leaf count left at 31. -/
def depthThree : Config :=
  { exampleConfig with max_depth := 3 }

/-- A depth bound of 3 with the leaf count given as 4. -/
def depthThreeLeavesFour : Config :=
  { exampleConfig with max_depth := 3, num_leaves := 4 }

/-- A request for `boosting=goss` with the sampling strategy `bagging`. -/
def gossBoosting : Config :=
  { exampleConfig with boosting := "goss", data_sample_strategy := "bagging" }

/-- The result of `CheckParamConflict` on `gossBoosting`. -/
def gossBoostingResult : Config :=
  { exampleConfig with boosting := "gbdt", data_sample_strategy := "goss" }

/-- The training set listed first among two validation sets. -/
def trainAmongValid : Config :=
  { exampleConfig with data := "train.txt", valid := ["train.txt", "valid.txt"] }

/-- The result of the end of `Config::Set` on `trainAmongValid`. -/
def trainAmongValidResult : Config :=
  { exampleConfig with data := "train.txt", valid := ["valid.txt"],
                       is_provide_training_metric := true }

/-- A raw parameter map in which `num_leaves` was given three times, `max_depth` once. -/
def repeatedLeaves : RawParams :=
  [("num_leaves", ["7", "15", "31"]), ("max_depth", ["3"])]

/-- The enumerator of the specification: with the key present and its value `v` not
empty the result is the table entry of `lowercase v`, or the fatal error, whatever the
current field; it depends on `v` only through `lowercase v`; with the key absent the
field is returned unchanged. -/
def IsTableLookup {α : Type} (enumerator : Params → α → Run α) (key : String)
    (table : List (String × α)) (unknownFmt : String) : Prop :=
  (∀ (params : Params) (field : α) (v : String), params.lookup key = some v → v ≠ "" →
    enumerator params field = fromTable table unknownFmt (lowercase v)) ∧
  (∀ (params params' : Params) (field field' : α) (v v' : String),
    params.lookup key = some v → v ≠ "" → params'.lookup key = some v' → v' ≠ "" →
    lowercase v = lowercase v' → enumerator params field = enumerator params' field') ∧
  (∀ (params : Params) (field : α), params.lookup key = none →
    enumerator params field = pure field)

/-- A linear tree requested on the `cuda` device with the `feature` learner on two
machines. -/
def linearOnCuda : Config :=
  { exampleConfig with linear_tree := true, device_type := "cuda", tree_learner := "feature",
                       num_machines := 2 }

/-- The result of `CheckParamConflict` on `linearOnCuda`. -/
def linearOnCudaResult : Config :=
  { exampleConfig with linear_tree := true, device_type := "cpu", tree_learner := "serial",
                       num_machines := 2, is_parallel := true, force_row_wise := true }

/-- A linear tree requested with `zero_as_missing`. -/
def linearZeroAsMissing : Config :=
  { exampleConfig with linear_tree := true, zero_as_missing := true }

/-- The `gpu` device with row-wise layout and quantized gradients requested. -/
def gpuRowWiseQuantized : Config :=
  { exampleConfig with device_type := "gpu", force_row_wise := true,
                       use_quantized_grad := true }

/-- The result of `CheckParamConflict` on `gpuRowWiseQuantized`. -/
def gpuRowWiseQuantizedResult : Config :=
  { exampleConfig with device_type := "gpu", force_col_wise := true }

/-- The `cuda` device with column-wise layout requested. -/
def cudaColWise : Config :=
  { exampleConfig with device_type := "cuda", force_col_wise := true }

/-- The result of `CheckParamConflict` on `cudaColWise`. -/
def cudaColWiseResult : Config :=
  { exampleConfig with device_type := "cuda", force_row_wise := true }

/-- The first-occurrence de-duplication of the specification: every name is kept where it
occurs first and removed from the rest of the sequence. -/
def firstOccurrences : List String → List String
  | [] => []
  | x :: rest => x :: (firstOccurrences rest).filter (fun y => decide (y ≠ x))

/-- A table of objective spellings used in the examples: two spellings of `regression`
and one of `binary`. -/
def exampleObjectiveAliases : List (String × String) :=
  [("regression", "regression"), ("l2", "regression"), ("binary", "binary")]

/-- The outcome that the specification gives to `SetVerbosity` when the first value of the
consulted key is `first`: the call returns normally with the level of the parsed integer
(`Fatal` below 0, `Warning` at 0, `Info` at 1, `Debug` above 1), and it is fatal exactly
when `first` is not parsed as an integer. -/
def VerbosityOutcome (AtoiAndCheck : String → Option Int) (first : String)
    (result : Option (Run LogLevel)) : Prop :=
  ∃ run, result = some run ∧
    (∀ v, AtoiAndCheck first = some v → v < 0 → run = pure LogLevel.Fatal) ∧
    (∀ v, AtoiAndCheck first = some v → v = 0 → run = pure LogLevel.Warning) ∧
    (∀ v, AtoiAndCheck first = some v → v = 1 → run = pure LogLevel.Info) ∧
    (∀ v, AtoiAndCheck first = some v → 1 < v → run = pure LogLevel.Debug) ∧
    ((∃ e, run.res = Except.error e) ↔ AtoiAndCheck first = none)

/-- A parser of the decimal digits `0` to `2` and of `-1`, used in the examples in the
place of `AtoiAndCheck`. -/
def exampleAtoi (text : String) : Option Int :=
  if text = "-1" then some (-1)
  else if text = "0" then some 0
  else if text = "1" then some 1
  else if text = "2" then some 2
  else none

/-- The entry `[i][j]` of a matrix, if it has one. -/
def matrixEntry (matrix : List (List Double)) (i j : Nat) : Option Double :=
  (matrix[i]?).bind fun row => row[j]?

/-- A weight list for three classes with a non-zero value on the diagonal. -/
def threeClassWeights : List Double :=
  [Double.num 7, Double.num 1, Double.num 2,
   Double.num 3, Double.num 0, Double.num 4,
   Double.num 5, Double.num 6, Double.num 0]

/-- The matrix of `threeClassWeights`. -/
def threeClassMatrix : List (List Double) :=
  [[Double.ofInt 0, Double.num 1, Double.num 2],
   [Double.num 3, Double.ofInt 0, Double.num 4],
   [Double.num 5, Double.num 6, Double.ofInt 0]]

/-- A value for the constant `kZeroThreshold` of `meta.h` used in the examples
(`1e-35`). -/
def exampleZeroThreshold : Double := Double.num (mkRat 1 (10 ^ 35))

/-- What a build takes from outside `config.cpp`: the integer parser, the table of the
key aliases, the alias functions of the objective and of the metrics, the constant
`kEpsilon`, the table of the declared fields and the default-constructed
configuration. -/
structure Collaborators where
  /-- The parser `Common::AtoiAndCheck`. -/
  AtoiAndCheck : String → Option Int
  /-- The table of `ParameterAlias`: accepted spelling, canonical name. -/
  keyAliases : List (String × String)
  /-- The alias function of the objective. -/
  ParseObjectiveAlias : String → Run String
  /-- The alias function of the metrics. -/
  ParseMetricAlias : String → String
  /-- The constant `kEpsilon` of `meta.h`. -/
  kEpsilon : Double
  /-- The declared fields, in name order. -/
  fields : List Field
  /-- The default-constructed configuration. -/
  defaults : Config

/-- The build of a configuration from a text: `Str2Map` on the text, then `Config::Set`
with the resulting map on the default-constructed configuration. -/
def Config.build (env : Collaborators) (level : LogLevel) (text : String) :
    Option (Run Config) :=
  (Config.Str2Map env.AtoiAndCheck env.keyAliases level text).map fun parsed =>
    Run.andThen parsed fun result =>
      Config.Set env.AtoiAndCheck env.ParseObjectiveAlias env.ParseMetricAlias env.kEpsilon
        env.fields result.2 env.defaults

/-- A text without `=` and without a blank character. -/
def TokenSafe (text : String) : Prop :=
  ∀ ch, ch ∈ text.data → ch ≠ '=' ∧ Common.isBlank ch = false

instance (text : String) : Decidable (TokenSafe text) :=
  inferInstanceAs (Decidable (∀ ch, ch ∈ text.data → ch ≠ '=' ∧ Common.isBlank ch = false))

/-- A key that starts with `[` or ends with `]`. -/
def Bracketed (key : String) : Prop :=
  key.data.head? = some '[' ∨ key.data.getLast? = some ']'

instance (key : String) : Decidable (Bracketed key) :=
  inferInstanceAs (Decidable (key.data.head? = some '[' ∨ key.data.getLast? = some ']'))

/-- Three declared fields of kind string, used in the examples: the value is rendered
and stored verbatim. -/
def exampleFields : List Field :=
  [⟨"data", fun c => c.data, fun value c => pure { c with data := value }⟩,
   ⟨"forcedsplits_filename", fun c => c.forcedsplits_filename,
     fun value c => pure { c with forcedsplits_filename := value }⟩,
   ⟨"monotone_constraints_method", fun c => c.monotone_constraints_method,
     fun value c => pure { c with monotone_constraints_method := value }⟩]

/-- The collaborators of the examples, with two aliases of the key `boosting` and
`exampleConfig` as the default-constructed configuration. -/
def exampleCollaborators : Collaborators where
  AtoiAndCheck := exampleAtoi
  keyAliases := [("boosting_type", "boosting"), ("boost", "boosting")]
  ParseObjectiveAlias := ParseObjectiveAlias exampleObjectiveAliases
  ParseMetricAlias := id
  kEpsilon := exampleEpsilon
  fields := exampleFields
  defaults := exampleConfig

/-- The configuration built from the text `boosting=dart data=train.txt`. -/
def dartOnTrain : Config :=
  { exampleConfig with boosting := "dart", metric := ["regression"], data := "train.txt" }

/-- The configuration built from the empty text. -/
def builtFromNothing : Config :=
  { exampleConfig with metric := ["regression"] }

/-- A token of a dump: a bracketed text without `=` and without a blank character. -/
def DumpToken (token : String) : Prop := TokenSafe token ∧ Bracketed token

/-- A raw map of a dump: every key is bracketed and has a value. -/
def DumpRawParams (params : RawParams) : Prop :=
  ∀ entry, entry ∈ params → Bracketed entry.1 ∧ entry.2 ≠ []

/-- A map of a dump: every key is bracketed. -/
def DumpParams (params : Params) : Prop :=
  ∀ entry, entry ∈ params → Bracketed entry.1

/-- The characters of the line `[name: value]` of a dump, followed by the rest of the
dump. -/
def dumpLine (name value rest : List Char) : List Char :=
  '[' :: (name ++ ':' :: ' ' :: (value ++ ']' :: '\n' :: rest))

/-- A text of which every token that `Str2Map` reads is the token of a dump. -/
def DumpText (text : List Char) : Prop :=
  ∀ piece, piece ∈ (Common.piecesOf (" \t\n\r" : String).data text []).filter
    (fun piece => decide (piece ≠ [])) → DumpToken (String.mk piece)

/-- A request for `boosting=goss` with the sampling strategy `bagging` and query-aware
bagging. -/
def gossBaggingByQuery : Config :=
  { exampleConfig with boosting := "goss", bagging_by_query := true }

/-- The outcome of `CheckParamConflict` for `gossBaggingByQuery`. -/
def gossBaggingByQueryResult : Config :=
  { exampleConfig with data_sample_strategy := "goss" }

/-- A request for query-aware bagging with the sampling strategy `bagging`. -/
def baggingByQuery : Config :=
  { exampleConfig with bagging_by_query := true }

/-- A sequence of `KV2Map` calls on one raw map, as the loop of `Str2Map` performs it: one
call for each text of the list, in order. -/
def KV2MapCalls : List String → RawParams → Run RawParams
  | [], params => pure params
  | kv :: rest, params => Run.andThen (Config.KV2Map params kv) (KV2MapCalls rest)

/-- A raw map in which every key is a non-empty string and has a non-empty list of
values. -/
def WellFormedRaw (params : RawParams) : Prop :=
  ∀ key values, (key, values) ∈ params → key ≠ "" ∧ values ≠ []

/-! # Theorems -/

/-! ## Reasoning about runs -/

namespace Run

theorem res_pure {α : Type} (a : α) : (pure a : Run α).res = Except.ok a := rfl

theorem log_pure {α : Type} (a : α) : (pure a : Run α).log = [] := rfl

theorem resBind_ok {α β : Type} (a : α) (g : α → Except LogMsg β) :
    resBind (Except.ok a) g = g a := rfl

theorem resBind_error {α β : Type} (e : LogMsg) (g : α → Except LogMsg β) :
    resBind (Except.error e : Except LogMsg α) g = Except.error e := rfl

theorem resBind_ite {α β : Type} (p : Prop) [Decidable p] (x y : Except LogMsg α)
    (g : α → Except LogMsg β) :
    resBind (if p then x else y) g = if p then resBind x g else resBind y g := by
  split_ifs <;> rfl

theorem logBind_ok {α : Type} (a : α) (g : α → List LogMsg) :
    logBind (Except.ok a) g = g a := rfl

theorem logBind_error {α : Type} (e : LogMsg) (g : α → List LogMsg) :
    logBind (Except.error e : Except LogMsg α) g = [] := rfl

theorem logBind_ite {α : Type} (p : Prop) [Decidable p] (x y : Except LogMsg α)
    (g : α → List LogMsg) :
    logBind (if p then x else y) g = if p then logBind x g else logBind y g := by
  split_ifs <;> rfl

theorem andThen_res {α β : Type} (x : Run α) (f : α → Run β) :
    (x.andThen f).res = resBind x.res (fun a => (f a).res) := by
  unfold andThen resBind
  cases hx : x.res <;> rfl

theorem andThen_log {α β : Type} (x : Run α) (f : α → Run β) :
    (x.andThen f).log = x.log ++ logBind x.res (fun a => (f a).log) := by
  unfold andThen logBind
  cases hx : x.res <;> simp

theorem andThen_res_ok {α β : Type} (x : Run α) (f : α → Run β) (b : β) :
    (x.andThen f).res = Except.ok b ↔ ∃ a, x.res = Except.ok a ∧ (f a).res = Except.ok b := by
  unfold andThen
  cases hx : x.res with
  | error e => simp
  | ok a => simp

end Run

theorem Log.Warning_res (fmt : String) (args : List LogArg) :
    (Log.Warning fmt args).res = Except.ok () := rfl

theorem Log.Warning_log (fmt : String) (args : List LogArg) :
    (Log.Warning fmt args).log = [⟨LogLevel.Warning, fmt, args⟩] := rfl

theorem Log.Info_res (fmt : String) (args : List LogArg) :
    (Log.Info fmt args).res = Except.ok () := rfl

theorem Log.Fatal_res {α : Type} (fmt : String) (args : List LogArg) :
    (Log.Fatal fmt args : Run α).res = Except.error ⟨LogLevel.Fatal, fmt, args⟩ := rfl

theorem Log.Fatal_log {α : Type} (fmt : String) (args : List LogArg) :
    (Log.Fatal fmt args : Run α).log = [] := rfl

/-! ## What each rule of `CheckParamConflict` leaves unchanged -/

theorem normalizeParallel_frame (c : Config) :
    normalizeParallel c = { c with is_parallel := (normalizeParallel c).is_parallel,
                                   tree_learner := (normalizeParallel c).tree_learner,
                                   num_machines := (normalizeParallel c).num_machines } := by
  unfold normalizeParallel
  simp only
  split_ifs <;> rfl

theorem classifyParallel_frame (c c1 : Config) (h : (classifyParallel c).res = Except.ok c1) :
    c1 = { c with is_data_based_parallel := c1.is_data_based_parallel,
                  histogram_pool_size := c1.histogram_pool_size } := by
  unfold classifyParallel at h
  simp only [Run.andThen_res, apply_ite Run.res, Run.res_pure, Log.Warning_res, Log.Fatal_res,
    Run.resBind_ok, Run.resBind_error, Run.resBind_ite, ite_self] at h
  split_ifs at h <;> cases h <;> rfl

theorem checkForcedSplits_frame (c c1 : Config) (h : (checkForcedSplits c).res = Except.ok c1) :
    c1 = c := by
  unfold checkForcedSplits at h
  simp only [Run.andThen_res, apply_ite Run.res, Run.res_pure, Log.Warning_res, Log.Fatal_res,
    Run.resBind_ok, Run.resBind_error, Run.resBind_ite, ite_self] at h
  split_ifs at h <;> cases h <;> rfl

theorem coupleDepthLeaves_frame (params : Params) (c c1 : Config)
    (h : (coupleDepthLeaves params c).res = Except.ok c1) :
    c1 = { c with num_leaves := c1.num_leaves } := by
  unfold coupleDepthLeaves at h
  simp only [Run.andThen_res, apply_ite Run.res, Run.res_pure, Log.Warning_res, Log.Fatal_res,
    Run.resBind_ok, Run.resBind_error, Run.resBind_ite, ite_self] at h
  split_ifs at h <;> cases h <;> rfl

theorem forceDevice_frame (c c1 : Config) (h : (forceDevice c).res = Except.ok c1) :
    c1 = { c with force_col_wise := c1.force_col_wise, force_row_wise := c1.force_row_wise,
                  use_quantized_grad := c1.use_quantized_grad } := by
  unfold forceDevice at h
  simp only [Run.andThen_res, apply_ite Run.res, Run.res_pure, Log.Warning_res, Log.Fatal_res,
    Run.resBind_ok, Run.resBind_error, Run.resBind_ite, ite_self] at h
  split_ifs at h <;> cases h <;> rfl

theorem checkLinearTree_frame (c c1 : Config) (h : (checkLinearTree c).res = Except.ok c1) :
    c1 = { c with device_type := c1.device_type, tree_learner := c1.tree_learner } := by
  unfold checkLinearTree at h
  simp only [Run.andThen_res, apply_ite Run.res, Run.res_pure, Log.Warning_res, Log.Fatal_res,
    Run.resBind_ok, Run.resBind_error, Run.resBind_ite, ite_self] at h
  split_ifs at h <;> cases h <;> rfl

theorem raiseMinDataForSmoothing_frame (kEpsilon : Double) (c c1 : Config)
    (h : (raiseMinDataForSmoothing kEpsilon c).res = Except.ok c1) :
    c1 = { c with min_data_in_leaf := c1.min_data_in_leaf } := by
  unfold raiseMinDataForSmoothing at h
  simp only [Run.andThen_res, apply_ite Run.res, Run.res_pure, Log.Warning_res, Log.Fatal_res,
    Run.resBind_ok, Run.resBind_error, Run.resBind_ite, ite_self] at h
  split_ifs at h <;> cases h <;> rfl

theorem downgradeMonotoneParallel_frame (c c1 : Config)
    (h : (downgradeMonotoneParallel c).res = Except.ok c1) :
    c1 = { c with monotone_constraints_method := c1.monotone_constraints_method } := by
  unfold downgradeMonotoneParallel at h
  simp only [Run.andThen_res, apply_ite Run.res, Run.res_pure, Log.Warning_res, Log.Fatal_res,
    Run.resBind_ok, Run.resBind_error, Run.resBind_ite, ite_self] at h
  split_ifs at h <;> cases h <;> rfl

theorem downgradeMonotoneByNode_frame (c c1 : Config)
    (h : (downgradeMonotoneByNode c).res = Except.ok c1) :
    c1 = { c with monotone_constraints_method := c1.monotone_constraints_method } := by
  unfold downgradeMonotoneByNode at h
  simp only [Run.andThen_res, apply_ite Run.res, Run.res_pure, Log.Warning_res, Log.Fatal_res,
    Run.resBind_ok, Run.resBind_error, Run.resBind_ite, ite_self] at h
  split_ifs at h <;> cases h <;> rfl

theorem warnMonotonePenalty_frame (c c1 : Config)
    (h : (warnMonotonePenalty c).res = Except.ok c1) : c1 = c := by
  unfold warnMonotonePenalty at h
  simp only [Run.andThen_res, apply_ite Run.res, Run.res_pure, Log.Warning_res, Log.Fatal_res,
    Run.resBind_ok, Run.resBind_error, Run.resBind_ite, ite_self] at h
  cases h; rfl

theorem forceMinData_frame (kEpsilon : Double) (c c1 : Config)
    (h : (forceMinData kEpsilon c).res = Except.ok c1) :
    c1 = { c with min_data_in_leaf := c1.min_data_in_leaf } := by
  unfold forceMinData at h
  simp only [Run.andThen_res, apply_ite Run.res, Run.res_pure, Log.Warning_res, Log.Fatal_res,
    Run.resBind_ok, Run.resBind_error, Run.resBind_ite, ite_self] at h
  split_ifs at h <;> cases h <;> rfl

theorem rewriteGoss_frame (c c1 : Config) (h : (rewriteGoss c).res = Except.ok c1) :
    c1 = { c with boosting := c1.boosting, data_sample_strategy := c1.data_sample_strategy } := by
  unfold rewriteGoss at h
  simp only [Run.andThen_res, apply_ite Run.res, Run.res_pure, Log.Warning_res, Log.Fatal_res,
    Run.resBind_ok, Run.resBind_error, Run.resBind_ite, ite_self] at h
  split_ifs at h <;> cases h <;> rfl

theorem resetBaggingByQuery_frame (c c1 : Config)
    (h : (resetBaggingByQuery c).res = Except.ok c1) :
    c1 = { c with bagging_by_query := c1.bagging_by_query } := by
  unfold resetBaggingByQuery at h
  simp only [Run.andThen_res, apply_ite Run.res, Run.res_pure, Log.Warning_res, Log.Fatal_res,
    Run.resBind_ok, Run.resBind_error, Run.resBind_ite, ite_self] at h
  split_ifs at h <;> cases h <;> rfl

/-- The intermediate configurations of a run of `CheckParamConflict` that returns. -/
theorem CheckParamConflict_chain (kEpsilon : Double) (params : Params) (c c' : Config)
    (h : (Config.CheckParamConflict kEpsilon params c).res = Except.ok c') :
    ∃ c1 c2 c3 c4 c5 c6 c7 c8 c9 c10 c11 : Config,
      (checkClassAndMetric c).res = Except.ok () ∧
      (classifyParallel (normalizeParallel c)).res = Except.ok c1 ∧
      (checkForcedSplits c1).res = Except.ok c2 ∧
      (coupleDepthLeaves params c2).res = Except.ok c3 ∧
      (forceDevice c3).res = Except.ok c4 ∧
      (checkLinearTree c4).res = Except.ok c5 ∧
      (raiseMinDataForSmoothing kEpsilon c5).res = Except.ok c6 ∧
      (downgradeMonotoneParallel c6).res = Except.ok c7 ∧
      (downgradeMonotoneByNode c7).res = Except.ok c8 ∧
      (warnMonotonePenalty c8).res = Except.ok c9 ∧
      (forceMinData kEpsilon c9).res = Except.ok c10 ∧
      (rewriteGoss c10).res = Except.ok c11 ∧
      (resetBaggingByQuery c11).res = Except.ok c' := by
  unfold Config.CheckParamConflict at h
  simp only [Run.andThen_res_ok] at h
  obtain ⟨_, h0, c1, h1, c2, h2, c3, h3, c4, h4, c5, h5, c6, h6, c7, h7, c8, h8, c9, h9,
    c10, h10, c11, h11, h12⟩ := h
  exact ⟨c1, c2, c3, c4, c5, c6, c7, c8, c9, c10, c11, h0, h1, h2, h3, h4, h5, h6, h7, h8, h9,
    h10, h11, h12⟩


theorem SameFixed.trans {a b c : Config} (h1 : SameFixed a b) (h2 : SameFixed b c) :
    SameFixed a c where
  task := h2.task.trans h1.task
  objective := h2.objective.trans h1.objective
  metric := h2.metric.trans h1.metric
  data := h2.data.trans h1.data
  valid := h2.valid.trans h1.valid
  is_provide_training_metric := h2.is_provide_training_metric.trans h1.is_provide_training_metric
  save_binary := h2.save_binary.trans h1.save_binary
  num_class := h2.num_class.trans h1.num_class
  forcedsplits_filename := h2.forcedsplits_filename.trans h1.forcedsplits_filename
  max_depth := h2.max_depth.trans h1.max_depth
  deterministic := h2.deterministic.trans h1.deterministic
  linear_tree := h2.linear_tree.trans h1.linear_tree
  zero_as_missing := h2.zero_as_missing.trans h1.zero_as_missing
  path_smooth := h2.path_smooth.trans h1.path_smooth
  min_sum_hessian_in_leaf := h2.min_sum_hessian_in_leaf.trans h1.min_sum_hessian_in_leaf
  monotone_penalty := h2.monotone_penalty.trans h1.monotone_penalty
  feature_fraction_bynode := h2.feature_fraction_bynode.trans h1.feature_fraction_bynode

/-- The fields `CheckParamConflict` never writes keep their value. -/
theorem CheckParamConflict_fixed (kEpsilon : Double) (params : Params) (c c' : Config)
    (h : (Config.CheckParamConflict kEpsilon params c).res = Except.ok c') :
    SameFixed c c' := by
  obtain ⟨c1, c2, c3, c4, c5, c6, c7, c8, c9, c10, c11, _, h1, h2, h3, h4, h5, h6, h7, h8, h9,
    h10, h11, h12⟩ := CheckParamConflict_chain kEpsilon params c c' h
  have e0 := normalizeParallel_frame c
  have e1 := classifyParallel_frame _ _ h1
  have e2 := checkForcedSplits_frame _ _ h2
  have e3 := coupleDepthLeaves_frame _ _ _ h3
  have e4 := forceDevice_frame _ _ h4
  have e5 := checkLinearTree_frame _ _ h5
  have e6 := raiseMinDataForSmoothing_frame _ _ _ h6
  have e7 := downgradeMonotoneParallel_frame _ _ h7
  have e8 := downgradeMonotoneByNode_frame _ _ h8
  have e9 := warnMonotonePenalty_frame _ _ h9
  have e10 := forceMinData_frame _ _ _ h10
  have e11 := rewriteGoss_frame _ _ h11
  have e12 := resetBaggingByQuery_frame _ _ h12
  have s0 : SameFixed c (normalizeParallel c) := by constructor <;> rw [e0]
  have s1 : SameFixed (normalizeParallel c) c1 := by constructor <;> rw [e1]
  have s2 : SameFixed c1 c2 := by constructor <;> rw [e2]
  have s3 : SameFixed c2 c3 := by constructor <;> rw [e3]
  have s4 : SameFixed c3 c4 := by constructor <;> rw [e4]
  have s5 : SameFixed c4 c5 := by constructor <;> rw [e5]
  have s6 : SameFixed c5 c6 := by constructor <;> rw [e6]
  have s7 : SameFixed c6 c7 := by constructor <;> rw [e7]
  have s8 : SameFixed c7 c8 := by constructor <;> rw [e8]
  have s9 : SameFixed c8 c9 := by constructor <;> rw [e9]
  have s10 : SameFixed c9 c10 := by constructor <;> rw [e10]
  have s11 : SameFixed c10 c11 := by constructor <;> rw [e11]
  have s12 : SameFixed c11 c' := by constructor <;> rw [e12]
  exact s0.trans (s1.trans (s2.trans (s3.trans (s4.trans (s5.trans (s6.trans (s7.trans
    (s8.trans (s9.trans (s10.trans (s11.trans s12)))))))))))

/-- Every run of `CheckParamConflict` that returns has a trace. -/
theorem CheckParamConflict_trace (kEpsilon : Double) (params : Params) (c c' : Config)
    (h : (Config.CheckParamConflict kEpsilon params c).res = Except.ok c') :
    ∃ c1 c3 c4 c5 c6 c7 c8 c10 c11 : Config,
      Trace kEpsilon params c c1 c3 c4 c5 c6 c7 c8 c10 c11 c' := by
  obtain ⟨c1, c2, c3, c4, c5, c6, c7, c8, c9, c10, c11, h0, h1, h2, h3, h4, h5, h6, h7, h8, h9,
    h10, h11, h12⟩ := CheckParamConflict_chain kEpsilon params c c' h
  have e0 := normalizeParallel_frame c
  have e1 := classifyParallel_frame _ _ h1
  have e2 := checkForcedSplits_frame _ _ h2
  have e3 := coupleDepthLeaves_frame _ _ _ h3
  have e4 := forceDevice_frame _ _ h4
  have e5 := checkLinearTree_frame _ _ h5
  have e6 := raiseMinDataForSmoothing_frame _ _ _ h6
  have e7 := downgradeMonotoneParallel_frame _ _ h7
  have e8 := downgradeMonotoneByNode_frame _ _ h8
  have e9 := warnMonotonePenalty_frame _ _ h9
  have e10 := forceMinData_frame _ _ _ h10
  have e11 := rewriteGoss_frame _ _ h11
  have e12 := resetBaggingByQuery_frame _ _ h12
  subst e2
  subst e9
  refine ⟨c2, c3, c4, c5, c6, c7, c9, c10, c11, ?_⟩
  constructor
  any_goals assumption
  all_goals clear h h0 h1 h2 h3 h4 h5 h6 h7 h8 h9 h10 h11 h12
  all_goals
    (generalize c'.bagging_by_query = v12 at e12; subst e12; try dsimp only) <;>
    (generalize c11.boosting = v11a, c11.data_sample_strategy = v11b at e11; subst e11;
      try dsimp only) <;>
    (generalize c10.min_data_in_leaf = v10 at e10; subst e10; try dsimp only) <;>
    (generalize c9.monotone_constraints_method = v8 at e8; subst e8; try dsimp only) <;>
    (generalize c7.monotone_constraints_method = v7 at e7; subst e7; try dsimp only) <;>
    (generalize c6.min_data_in_leaf = v6 at e6; subst e6; try dsimp only) <;>
    (generalize c5.device_type = v5a, c5.tree_learner = v5b at e5; subst e5;
      try dsimp only) <;>
    (generalize c4.force_col_wise = v4a, c4.force_row_wise = v4b,
      c4.use_quantized_grad = v4c at e4; subst e4; try dsimp only) <;>
    (generalize c3.num_leaves = v3 at e3; subst e3; try dsimp only) <;>
    (generalize c2.is_data_based_parallel = v1a, c2.histogram_pool_size = v1b at e1;
      subst e1; try dsimp only) <;>
    (rw [e0])

/-! ## The class count, the objective and the metrics -/

theorem checkMetricLoop_log (otm : Bool) (n : Int) (ms : List String) :
    (checkMetricLoop otm n ms).log = [] := by
  induction ms with
  | nil => rfl
  | cons m rest ih =>
    unfold checkMetricLoop
    simp only
    split_ifs
    · rfl
    · exact ih

theorem checkMetricLoop_ok (otm : Bool) (n : Int) (ms : List String) :
    (checkMetricLoop otm n ms).res = Except.ok () ↔
      ∀ m ∈ ms, metricTypeMulticlass m n = otm := by
  induction ms with
  | nil => simp [checkMetricLoop, Run.res_pure]
  | cons m rest ih =>
    unfold checkMetricLoop
    simp only [List.mem_cons, forall_eq_or_imp]
    split_ifs with hm
    · constructor
      · intro hr
        cases hr
      · rintro ⟨hEq, _⟩
        rw [hEq] at hm
        cases otm <;> simp at hm
    · rw [ih]
      constructor
      · intro hr
        refine ⟨?_, hr⟩
        cases otm <;> cases hmm : metricTypeMulticlass m n <;> simp [hmm] at hm ⊢
      · exact fun hr => hr.2

theorem checkClassAndMetric_ok (c : Config) :
    (checkClassAndMetric c).res = Except.ok () ↔
      ((objectiveTypeMulticlass c.objective c.num_class = true → 1 < c.num_class) ∧
        (objectiveTypeMulticlass c.objective c.num_class = false →
          c.task = TaskType.kTrain → c.num_class = 1)) ∧
      ∀ m ∈ c.metric,
        metricTypeMulticlass m c.num_class = objectiveTypeMulticlass c.objective c.num_class := by
  unfold checkClassAndMetric
  simp only [Run.andThen_res_ok, checkMetricLoop_ok]
  constructor
  · rintro ⟨_, h1, h2⟩
    refine ⟨?_, h2⟩
    split_ifs at h1 with ho hn hn
    · simp [Log.Fatal_res] at h1
    · simp only [ho, forall_const, Bool.true_eq_false, false_implies, and_true]
      omega
    · simp [Log.Fatal_res] at h1
    · simp only [ho, Bool.false_eq_true, false_implies, true_and]
      intro _ ht
      by_contra hne
      exact hn ⟨ht, hne⟩
  · rintro ⟨⟨h1, h2⟩, h3⟩
    refine ⟨(), ?_, h3⟩
    split_ifs with ho hn hn
    · exact absurd (h1 ho) (by omega)
    · rfl
    · exact absurd (h2 (by simpa using ho) hn.1) hn.2
    · rfl

theorem objectiveTypeMulticlass_iff (s : String) (n : Int) :
    objectiveTypeMulticlass s n = true ↔
      s = "multiclass" ∨ s = "multiclassova" ∨ (s = "custom" ∧ 1 < n) := by
  simp [objectiveTypeMulticlass, CheckMultiClassObjective, or_assoc]

theorem metricTypeMulticlass_iff (s : String) (n : Int) :
    metricTypeMulticlass s n = true ↔
      s = "multiclass" ∨ s = "multiclassova" ∨ s = "multi_logloss" ∨ s = "multi_error" ∨
        s = "auc_mu" ∨ (s = "custom" ∧ 1 < n) := by
  simp [metricTypeMulticlass, CheckMultiClassObjective, or_assoc]

/-- C1, counterexample: the training configuration with objective `custom` and
`num_class = 3` passes `CheckParamConflict`; its objective is not a multiclass objective
for `CheckMultiClassObjective`, its task is train, and its class count is 3, not 1. -/
theorem checkParamConflict_custom_three_classes :
    ∃ c', (Config.CheckParamConflict exampleEpsilon [] customThreeClasses).res = Except.ok c' ∧
      CheckMultiClassObjective c'.objective = false ∧ c'.task = TaskType.kTrain ∧
      c'.num_class = 3 :=
  ⟨_, rfl, by decide, by decide, by decide⟩

/-- C1 (amended): after a run of `CheckParamConflict` that returns, a multiclass objective
(`multiclass`, `multiclassova`) has `num_class > 1`; an objective that is neither a
multiclass objective nor `custom` has, in training, `num_class = 1`; the objective
`custom` has, in training, `num_class >= 1`. -/
theorem checkParamConflict_num_class (kEpsilon : Double) (params : Params) (c c' : Config)
    (h : (Config.CheckParamConflict kEpsilon params c).res = Except.ok c') :
    (CheckMultiClassObjective c'.objective = true → 1 < c'.num_class) ∧
    (CheckMultiClassObjective c'.objective = false → c'.objective ≠ "custom" →
      c'.task = TaskType.kTrain → c'.num_class = 1) ∧
    (c'.objective = "custom" → c'.task = TaskType.kTrain → 1 ≤ c'.num_class) := by
  have hf := CheckParamConflict_fixed kEpsilon params c c' h
  obtain ⟨c1, c2, c3, c4, c5, c6, c7, c8, c9, c10, c11, h0, _⟩ :=
    CheckParamConflict_chain kEpsilon params c c' h
  rw [checkClassAndMetric_ok] at h0
  obtain ⟨⟨hA, hB⟩, _⟩ := h0
  rw [hf.objective, hf.num_class, hf.task]
  refine ⟨?_, ?_, ?_⟩
  · intro hm
    exact hA (by simp [objectiveTypeMulticlass, hm])
  · intro hm hc ht
    exact hB (by simp [objectiveTypeMulticlass, hm, hc]) ht
  · intro hc ht
    by_cases hn : 1 < c.num_class
    · omega
    · have := hB (by simp [objectiveTypeMulticlass, hc, hn, CheckMultiClassObjective]) ht
      omega

/-- C1 (amended), witness: the multiclass configuration with three classes, the
regression configuration with one class and the `custom` configuration with three
classes all pass. -/
theorem checkParamConflict_num_class_witness :
    ((Config.CheckParamConflict exampleEpsilon [] multiclassThreeClasses).res
        = Except.ok multiclassThreeClasses ∧
      CheckMultiClassObjective multiclassThreeClasses.objective = true ∧
      1 < multiclassThreeClasses.num_class) ∧
    ((Config.CheckParamConflict exampleEpsilon [] exampleConfig).res = Except.ok exampleConfig ∧
      CheckMultiClassObjective exampleConfig.objective = false ∧
      exampleConfig.objective ≠ "custom" ∧ exampleConfig.task = TaskType.kTrain ∧
      exampleConfig.num_class = 1) ∧
    ((Config.CheckParamConflict exampleEpsilon [] customThreeClasses).res
        = Except.ok customThreeClasses ∧
      customThreeClasses.objective = "custom" ∧ customThreeClasses.task = TaskType.kTrain ∧
      1 ≤ customThreeClasses.num_class) :=
  ⟨⟨rfl, by decide,
      (checkParamConflict_num_class exampleEpsilon [] multiclassThreeClasses
        multiclassThreeClasses rfl).1 (by decide)⟩,
    ⟨rfl, by decide, by decide, by decide,
      (checkParamConflict_num_class exampleEpsilon [] exampleConfig exampleConfig rfl).2.1
        (by decide) (by decide) (by decide)⟩,
    ⟨rfl, by decide, by decide,
      (checkParamConflict_num_class exampleEpsilon [] customThreeClasses customThreeClasses
        rfl).2.2 (by decide) (by decide)⟩⟩

/-- C2: after a run of `CheckParamConflict` that returns, every metric of the list is
multiclass-compatible exactly when the objective is of multiclass type; and a
configuration with one mismatching metric anywhere in its list ends in a fatal error. -/
theorem checkParamConflict_metric_match (kEpsilon : Double) (params : Params) (c : Config) :
    (∀ c', (Config.CheckParamConflict kEpsilon params c).res = Except.ok c' →
      ∀ m ∈ c'.metric,
        ((m = "multiclass" ∨ m = "multiclassova" ∨ m = "multi_logloss" ∨ m = "multi_error" ∨
            m = "auc_mu" ∨ (m = "custom" ∧ 1 < c'.num_class)) ↔
          (c'.objective = "multiclass" ∨ c'.objective = "multiclassova" ∨
            (c'.objective = "custom" ∧ 1 < c'.num_class)))) ∧
    ((∃ m ∈ c.metric,
        ¬ ((m = "multiclass" ∨ m = "multiclassova" ∨ m = "multi_logloss" ∨ m = "multi_error" ∨
            m = "auc_mu" ∨ (m = "custom" ∧ 1 < c.num_class)) ↔
          (c.objective = "multiclass" ∨ c.objective = "multiclassova" ∨
            (c.objective = "custom" ∧ 1 < c.num_class)))) →
      ∃ e, (Config.CheckParamConflict kEpsilon params c).res = Except.error e) := by
  have key : ∀ c', (Config.CheckParamConflict kEpsilon params c).res = Except.ok c' →
      ∀ m ∈ c.metric,
        ((m = "multiclass" ∨ m = "multiclassova" ∨ m = "multi_logloss" ∨ m = "multi_error" ∨
            m = "auc_mu" ∨ (m = "custom" ∧ 1 < c.num_class)) ↔
          (c.objective = "multiclass" ∨ c.objective = "multiclassova" ∨
            (c.objective = "custom" ∧ 1 < c.num_class))) := by
    intro c' h m hm
    obtain ⟨c1, c2, c3, c4, c5, c6, c7, c8, c9, c10, c11, h0, _⟩ :=
      CheckParamConflict_chain kEpsilon params c c' h
    rw [checkClassAndMetric_ok] at h0
    rw [← metricTypeMulticlass_iff, ← objectiveTypeMulticlass_iff, h0.2 m hm]
  constructor
  · intro c' h
    have hf := CheckParamConflict_fixed kEpsilon params c c' h
    rw [hf.metric, hf.objective, hf.num_class]
    exact key c' h
  · rintro ⟨m, hm, hbad⟩
    cases hr : (Config.CheckParamConflict kEpsilon params c).res with
    | error e => exact ⟨e, rfl⟩
    | ok c' => exact absurd (key c' hr m hm) hbad

/-- C2, witness: the multiclass configuration passes and its metric `multi_logloss` is
multiclass-compatible as its objective is; the regression configuration with the metric
`multi_error` in second place is fatal. -/
theorem checkParamConflict_metric_match_witness :
    ((Config.CheckParamConflict exampleEpsilon [] multiclassThreeClasses).res
        = Except.ok multiclassThreeClasses ∧
      "multi_logloss" ∈ multiclassThreeClasses.metric ∧
      ((("multi_logloss" : String) = "multiclass" ∨ ("multi_logloss" : String) = "multiclassova" ∨
          ("multi_logloss" : String) = "multi_logloss" ∨
          ("multi_logloss" : String) = "multi_error" ∨ ("multi_logloss" : String) = "auc_mu" ∨
          (("multi_logloss" : String) = "custom" ∧ 1 < multiclassThreeClasses.num_class)) ↔
        (multiclassThreeClasses.objective = "multiclass" ∨
          multiclassThreeClasses.objective = "multiclassova" ∨
          (multiclassThreeClasses.objective = "custom" ∧
            1 < multiclassThreeClasses.num_class)))) ∧
      ∃ e, (Config.CheckParamConflict exampleEpsilon [] mismatchedMetric).res = Except.error e :=
  ⟨⟨rfl, by decide,
      (checkParamConflict_metric_match exampleEpsilon [] multiclassThreeClasses).1
        multiclassThreeClasses rfl "multi_logloss" (by decide)⟩,
    (checkParamConflict_metric_match exampleEpsilon [] mismatchedMetric).2
      ⟨"multi_error", by decide, by decide⟩⟩

/-! ## Parallel learning -/

theorem normalizeParallel_single (c : Config) (hm : c.num_machines ≤ 1) :
    (normalizeParallel c).tree_learner = "serial" ∧ (normalizeParallel c).is_parallel = false ∧
      (normalizeParallel c).num_machines = 1 := by
  unfold normalizeParallel
  have hn : ¬ c.num_machines > 1 := by omega
  simp [hn]

theorem classifyParallel_serial (c c1 : Config) (h : (classifyParallel c).res = Except.ok c1)
    (hs : c.tree_learner = "serial") : c1.is_data_based_parallel = false := by
  unfold classifyParallel at h
  simp only [hs, beq_self_eq_true, Bool.true_or, if_true, Run.res_pure] at h
  cases h
  rfl

theorem classifyParallel_data (c c1 : Config) (h : (classifyParallel c).res = Except.ok c1)
    (hs : c.tree_learner = "data") :
    c1.is_data_based_parallel = true ∧
      c1.histogram_pool_size =
        (if Double.ge c.histogram_pool_size (Double.ofInt 0) = true then Double.ofInt (-1)
         else c.histogram_pool_size) := by
  unfold classifyParallel at h
  simp only [Run.andThen_res, apply_ite Run.res, Run.res_pure, Log.Warning_res, Log.Fatal_res,
    Run.resBind_ok, Run.resBind_error, Run.resBind_ite, ite_self, hs] at h
  split_ifs at h with h1 h2 h3 <;> cases h <;> simp_all

theorem classifyParallel_voting (c c1 : Config) (h : (classifyParallel c).res = Except.ok c1)
    (hs : c.tree_learner = "voting") :
    c1.is_data_based_parallel = true ∧ c1.histogram_pool_size = c.histogram_pool_size := by
  unfold classifyParallel at h
  simp only [Run.andThen_res, apply_ite Run.res, Run.res_pure, Log.Warning_res, Log.Fatal_res,
    Run.resBind_ok, Run.resBind_error, Run.resBind_ite, ite_self, hs] at h
  split_ifs at h with h1 h2 h3 <;> cases h <;> simp_all

theorem checkLinearTree_tree_learner (c c1 : Config)
    (h : (checkLinearTree c).res = Except.ok c1) :
    c1.tree_learner = if c.linear_tree = true then "serial" else c.tree_learner := by
  unfold checkLinearTree at h
  simp only [Run.andThen_res, apply_ite Run.res, Run.res_pure, Log.Warning_res, Log.Fatal_res,
    Run.resBind_ok, Run.resBind_error, Run.resBind_ite, ite_self] at h
  split_ifs at h with h1 h2 h3 h4 h5 <;> cases h <;> simp_all

theorem normalizeParallel_serial (c : Config)
    (hs : (normalizeParallel c).tree_learner = "serial") :
    (normalizeParallel c).is_parallel = false ∧ (normalizeParallel c).num_machines = 1 := by
  unfold normalizeParallel at hs ⊢
  simp only at hs ⊢
  split_ifs at hs ⊢ <;> simp_all

/-- Without `linear_tree` the parallel flags agree with a serial tree learner: the
rules at config.cpp 357-366 see the tree learner that the run returns. -/
theorem checkParamConflict_serial_flags_without_linear_tree (kEpsilon : Double)
    (params : Params) (c c' : Config) (hl : c.linear_tree = false)
    (h : (Config.CheckParamConflict kEpsilon params c).res = Except.ok c')
    (hs : c'.tree_learner = "serial") :
    c'.is_parallel = false ∧ c'.is_data_based_parallel = false ∧ c'.num_machines = 1 := by
  obtain ⟨c1, c3, c4, c5, c6, c7, c8, c10, c11, tr⟩ :=
    CheckParamConflict_trace kEpsilon params c c' h
  have t5 := checkLinearTree_tree_learner _ _ tr.linear
  rw [tr.linear_tree4, hl] at t5
  simp only [Bool.false_eq_true, if_false] at t5
  have hn : (normalizeParallel c).tree_learner = "serial" := by
    rw [← tr.tree_learner1, ← tr.tree_learner4, ← t5, ← tr.tree_learner, hs]
  obtain ⟨n1, n2⟩ := normalizeParallel_serial c hn
  have d1 := classifyParallel_serial _ _ tr.classify hn
  exact ⟨tr.is_parallel.trans n1, tr.is_data_based_parallel.trans d1, tr.num_machines.trans n2⟩

/-- C3, the code at the failing input: the `data` learner on four machines with
`linear_tree = true` passes `CheckParamConflict` and comes out with
`tree_learner = "serial"` while `is_parallel` and `is_data_based_parallel` are still true
and `num_machines` is still 4. -/
theorem checkParamConflict_linear_tree_parallel_flags :
    ∃ c', (Config.CheckParamConflict exampleEpsilon [] linearDataFourMachines).res
        = Except.ok c' ∧
      c'.tree_learner = "serial" ∧ c'.is_parallel = true ∧
      c'.is_data_based_parallel = true ∧ c'.num_machines = 4 :=
  ⟨_, rfl, by decide, by decide, by decide, by decide⟩

/-- C4: with `num_machines = 1`, whatever tree learner was requested, a run of
`CheckParamConflict` that returns leaves `tree_learner = "serial"`, `is_parallel = false`,
`is_data_based_parallel = false` and `num_machines = 1`. -/
theorem checkParamConflict_single_machine (kEpsilon : Double) (params : Params)
    (c c' : Config) (hm : c.num_machines = 1)
    (h : (Config.CheckParamConflict kEpsilon params c).res = Except.ok c') :
    c'.tree_learner = "serial" ∧ c'.is_parallel = false ∧
      c'.is_data_based_parallel = false ∧ c'.num_machines = 1 := by
  obtain ⟨c1, c3, c4, c5, c6, c7, c8, c10, c11, tr⟩ := CheckParamConflict_trace kEpsilon params c c' h
  obtain ⟨n1, n2, n3⟩ := normalizeParallel_single c (by omega)
  have d1 := classifyParallel_serial _ _ tr.classify n1
  have t5 := checkLinearTree_tree_learner _ _ tr.linear
  refine ⟨?_, ?_, ?_, ?_⟩
  · rw [tr.tree_learner, t5, tr.tree_learner4, tr.tree_learner1, n1]
    simp
  · rw [tr.is_parallel, n2]
  · rw [tr.is_data_based_parallel, d1]
  · rw [tr.num_machines, n3]

/-- C4, witness: the `feature` learner requested on one machine. -/
theorem checkParamConflict_single_machine_witness :
    featureOneMachine.num_machines = 1 ∧
      (Config.CheckParamConflict exampleEpsilon [] featureOneMachine).res
        = Except.ok exampleConfig ∧
      (exampleConfig.tree_learner = "serial" ∧ exampleConfig.is_parallel = false ∧
        exampleConfig.is_data_based_parallel = false ∧ exampleConfig.num_machines = 1) :=
  ⟨rfl, rfl, checkParamConflict_single_machine exampleEpsilon [] featureOneMachine
    exampleConfig rfl rfl⟩

/-- C5, counterexample: the `voting` learner on two machines with
`histogram_pool_size = 100` passes `CheckParamConflict` with
`is_data_based_parallel = true`, and its histogram pool size is still 100. -/
theorem checkParamConflict_voting_keeps_pool :
    ∃ c', (Config.CheckParamConflict exampleEpsilon [] votingTwoMachines).res = Except.ok c' ∧
      c'.is_data_based_parallel = true ∧ c'.tree_learner = "voting" ∧
      c'.histogram_pool_size = Double.num 100 ∧
      Double.lt c'.histogram_pool_size (Double.ofInt 0) = false :=
  ⟨_, rfl, by decide, by decide, by decide, by decide⟩

/-- The tree learner at the classification of the parallel mode, from the tree learner
that the run returns: the linear-tree rule can only replace it by `serial`. -/
theorem Trace.tree_learner_resolved {kEpsilon : Double} {params : Params}
    {c c1 c3 c4 c5 c6 c7 c8 c10 c11 c' : Config}
    (tr : Trace kEpsilon params c c1 c3 c4 c5 c6 c7 c8 c10 c11 c') (name : String)
    (hname : name ≠ "serial") (hd : c'.tree_learner = name) :
    (normalizeParallel c).tree_learner = name := by
  have t5 := checkLinearTree_tree_learner _ _ tr.linear
  rw [tr.tree_learner, t5] at hd
  split_ifs at hd with hl
  · exact absurd hd.symm hname
  · rw [← tr.tree_learner1, ← tr.tree_learner4, hd]

/-- C5 (amended): after a run of `CheckParamConflict` that returns with the tree learner
resolved to `data`, data-based parallelism is on and the histogram pool size is not
`>= 0`: it is `-1` when the user's value was `>= 0` and the user's value otherwise, hence
negative unless the user's value was NaN. With the tree learner resolved to `voting`,
data-based parallelism is on and the histogram pool size is the user's value. -/
theorem checkParamConflict_data_pool (kEpsilon : Double) (params : Params) (c c' : Config)
    (h : (Config.CheckParamConflict kEpsilon params c).res = Except.ok c') :
    (c'.tree_learner = "data" →
      c'.is_data_based_parallel = true ∧
      Double.ge c'.histogram_pool_size (Double.ofInt 0) = false ∧
      (Double.ge c.histogram_pool_size (Double.ofInt 0) = true →
        c'.histogram_pool_size = Double.ofInt (-1)) ∧
      (Double.ge c.histogram_pool_size (Double.ofInt 0) = false →
        c'.histogram_pool_size = c.histogram_pool_size) ∧
      (c.histogram_pool_size ≠ Double.nan →
        Double.lt c'.histogram_pool_size (Double.ofInt 0) = true)) ∧
    (c'.tree_learner = "voting" →
      c'.is_data_based_parallel = true ∧ c'.histogram_pool_size = c.histogram_pool_size) := by
  obtain ⟨c1, c3, c4, c5, c6, c7, c8, c10, c11, tr⟩ :=
    CheckParamConflict_trace kEpsilon params c c' h
  have hp : (normalizeParallel c).histogram_pool_size = c.histogram_pool_size := by
    rw [normalizeParallel_frame c]
  constructor
  · intro hd
    obtain ⟨d1, d2⟩ :=
      classifyParallel_data _ _ tr.classify (tr.tree_learner_resolved "data" (by decide) hd)
    rw [hp] at d2
    rw [tr.is_data_based_parallel, tr.histogram_pool_size, d2]
    refine ⟨d1, ?_, ?_, ?_, ?_⟩
    · split_ifs with hg
      · decide
      · simpa using hg
    · intro hg
      rw [if_pos hg]
    · intro hg
      rw [if_neg (by simp [hg])]
    · intro hnan
      split_ifs with hg
      · decide
      · cases hv : c.histogram_pool_size with
        | nan => exact absurd hv hnan
        | ninf => rfl
        | pinf => rw [hv] at hg; exact absurd rfl hg
        | num q =>
          rw [hv] at hg
          simp only [Double.ge, Double.le, Double.lt, Double.eq, Double.ofInt, Bool.or_eq_true,
            decide_eq_true_eq, not_or, not_lt] at hg ⊢
          exact lt_of_le_of_ne hg.1 (fun hh => hg.2 hh.symm)
  · intro hd
    obtain ⟨d1, d2⟩ :=
      classifyParallel_voting _ _ tr.classify (tr.tree_learner_resolved "voting" (by decide) hd)
    exact ⟨tr.is_data_based_parallel.trans d1, (tr.histogram_pool_size.trans d2).trans hp⟩

/-- C5 (amended), witness: the `data` learner on four machines with a histogram pool of
size 100 comes out with the pool size `-1`, the `voting` learner on two machines keeps
its pool size 100. -/
theorem checkParamConflict_data_pool_witness :
    ((Config.CheckParamConflict exampleEpsilon [] dataFourMachines).res
        = Except.ok dataFourMachinesResult ∧
      dataFourMachinesResult.tree_learner = "data" ∧
      Double.ge dataFourMachines.histogram_pool_size (Double.ofInt 0) = true ∧
      dataFourMachinesResult.is_data_based_parallel = true ∧
      Double.ge dataFourMachinesResult.histogram_pool_size (Double.ofInt 0) = false ∧
      dataFourMachinesResult.histogram_pool_size = Double.ofInt (-1) ∧
      Double.lt dataFourMachinesResult.histogram_pool_size (Double.ofInt 0) = true) ∧
    ((Config.CheckParamConflict exampleEpsilon [] votingTwoMachines).res
        = Except.ok votingTwoMachinesResult ∧
      votingTwoMachinesResult.tree_learner = "voting" ∧
      votingTwoMachinesResult.is_data_based_parallel = true ∧
      votingTwoMachinesResult.histogram_pool_size = votingTwoMachines.histogram_pool_size) :=
  ⟨⟨rfl, rfl, by decide,
      ((checkParamConflict_data_pool exampleEpsilon [] dataFourMachines
        dataFourMachinesResult rfl).1 rfl).1,
      ((checkParamConflict_data_pool exampleEpsilon [] dataFourMachines
        dataFourMachinesResult rfl).1 rfl).2.1,
      ((checkParamConflict_data_pool exampleEpsilon [] dataFourMachines
        dataFourMachinesResult rfl).1 rfl).2.2.1 (by decide),
      ((checkParamConflict_data_pool exampleEpsilon [] dataFourMachines
        dataFourMachinesResult rfl).1 rfl).2.2.2.2 (by decide)⟩,
    ⟨rfl, rfl,
      (checkParamConflict_data_pool exampleEpsilon [] votingTwoMachines
        votingTwoMachinesResult rfl).2 rfl⟩⟩

/-! ## Depth and leaf count -/

theorem coupleDepthLeaves_num_leaves (params : Params) (c c1 : Config)
    (h : (coupleDepthLeaves params c).res = Except.ok c1) :
    c1.num_leaves =
      if c.max_depth > 0 ∧ absentOrEmpty params "num_leaves" = true then
        (if Double.lt (pow2 c.max_depth) (Double.ofInt c.num_leaves) = true then
          Double.toInt (pow2 c.max_depth)
        else c.num_leaves)
      else c.num_leaves := by
  unfold coupleDepthLeaves at h
  simp only [Run.andThen_res, apply_ite Run.res, Run.res_pure, Log.Warning_res, Log.Fatal_res,
    Run.resBind_ok, Run.resBind_error, Run.resBind_ite, ite_self] at h
  split_ifs at h with h1 h2 <;> cases h
  · rw [if_pos h1, if_pos h2]
  · rw [if_pos h1, if_neg h2]
  · rw [if_neg h1]

theorem absentOrEmpty_iff (params : Params) (name : String) :
    absentOrEmpty params name = true ↔
      params.lookup name = none ∨ params.lookup name = some "" := by
  unfold absentOrEmpty
  cases params.lookup name <;> simp

/-- The leaf count the depth rule computes: the smaller of the current count and the
full tree of the depth bound. -/
theorem shrink_eq_min (d n : Int) (hd : 0 < d) (hn : n < 2 ^ 31) :
    (if Double.lt (pow2 d) (Double.ofInt n) = true then Double.toInt (pow2 d) else n)
      = min n (2 ^ d.toNat) := by
  unfold pow2
  by_cases hbig : d > 1023
  · simp only [hbig, if_true, Double.lt, Double.ofInt, Bool.false_eq_true, if_false]
    have h1 : (2 : Int) ^ 31 ≤ 2 ^ d.toNat :=
      pow_le_pow_right₀ (by norm_num) (by omega)
    exact (min_eq_left (by omega)).symm
  · have hlow : ¬ d < -1074 := by omega
    have hge : d ≥ 0 := by omega
    simp only [hbig, hlow, hge, if_true, if_false, Double.lt, Double.ofInt, Double.toInt,
      decide_eq_true_eq]
    have hcast : Rat.ofInt (Int.ofNat (2 ^ d.toNat)) < Rat.ofInt n ↔ (2 : Int) ^ d.toNat < n := by
      rw [show Rat.ofInt (Int.ofNat (2 ^ d.toNat)) = (((2 : Int) ^ d.toNat : Int) : ℚ) by
        simp [Rat.ofInt_eq_cast]]
      rw [Rat.ofInt_eq_cast, Int.cast_lt]
    by_cases hlt : (2 : Int) ^ d.toNat < n
    · rw [if_pos (hcast.2 hlt), min_eq_right (le_of_lt hlt)]
      simp [Rat.ofInt]
    · rw [if_neg (fun hh => hlt (hcast.1 hh)), min_eq_left (by omega)]

/-- C6: in a run of `CheckParamConflict` that returns, a depth bound `max_depth > 0`
without a (non-empty) `num_leaves` parameter sets `num_leaves` to the minimum of its
previous value and `2 ^ max_depth`; with an explicit `num_leaves` parameter, or with
`max_depth <= 0`, `num_leaves` is unchanged. The hypothesis `num_leaves < 2 ^ 31` is the
range of the `int` field. -/
theorem checkParamConflict_depth_leaves (kEpsilon : Double) (params : Params) (c c' : Config)
    (hint : c.num_leaves < 2 ^ 31)
    (h : (Config.CheckParamConflict kEpsilon params c).res = Except.ok c') :
    ((0 < c.max_depth ∧
        (params.lookup "num_leaves" = none ∨ params.lookup "num_leaves" = some "")) →
      c'.num_leaves = min c.num_leaves (2 ^ c.max_depth.toNat)) ∧
    ((c.max_depth ≤ 0 ∨ ∃ v, params.lookup "num_leaves" = some v ∧ v ≠ "") →
      c'.num_leaves = c.num_leaves) := by
  obtain ⟨c1, c3, c4, c5, c6, c7, c8, c10, c11, tr⟩ := CheckParamConflict_trace kEpsilon params c c' h
  have hl := coupleDepthLeaves_num_leaves _ _ _ tr.couple
  rw [tr.num_leaves1, tr.max_depth1] at hl
  rw [tr.num_leaves, hl]
  constructor
  · rintro ⟨hd, hp⟩
    rw [if_pos ⟨hd, (absentOrEmpty_iff _ _).2 hp⟩]
    exact shrink_eq_min _ _ hd hint
  · intro hcase
    rw [if_neg]
    rintro ⟨hd, hp⟩
    rcases hcase with hle | ⟨v, hv, hne⟩
    · omega
    · rw [absentOrEmpty_iff, hv] at hp
      rcases hp with hp | hp
      · cases hp
      · exact hne (Option.some.inj hp)

/-- C6, witness: `max_depth = 3` gives 8 leaves from the default 31 when `num_leaves` is
not a parameter, and leaves the explicit `num_leaves = 4` at 4. -/
theorem checkParamConflict_depth_leaves_witness :
    ((Config.CheckParamConflict exampleEpsilon [] depthThree).res
        = Except.ok { depthThree with num_leaves := 8 } ∧
      ({ depthThree with num_leaves := 8 } : Config).num_leaves
        = min depthThree.num_leaves (2 ^ depthThree.max_depth.toNat) ∧
      ({ depthThree with num_leaves := 8 } : Config).num_leaves = 8) ∧
    ((Config.CheckParamConflict exampleEpsilon [("num_leaves", "4")] depthThreeLeavesFour).res
        = Except.ok depthThreeLeavesFour ∧
      depthThreeLeavesFour.num_leaves = 4) :=
  ⟨⟨rfl,
      (checkParamConflict_depth_leaves exampleEpsilon [] depthThree
        { depthThree with num_leaves := 8 } (by decide) rfl).1 ⟨by decide, Or.inl rfl⟩,
      rfl⟩,
    ⟨rfl,
      (checkParamConflict_depth_leaves exampleEpsilon [("num_leaves", "4")] depthThreeLeavesFour
        depthThreeLeavesFour (by decide) rfl).2 (Or.inr ⟨"4", rfl, by decide⟩)⟩⟩

/-! ## The `goss` rewrite and the log -/

theorem checkClassAndMetric_log (c : Config) : (checkClassAndMetric c).log = [] := by
  unfold checkClassAndMetric
  simp only [Run.andThen_log, apply_ite Run.log, apply_ite Run.res, Run.log_pure, Run.res_pure,
    Log.Fatal_log, Log.Fatal_res, ite_self, List.nil_append]
  split_ifs <;> simp [Run.logBind, checkMetricLoop_log]

theorem classifyParallel_log_goss (c : Config) : gossWarning ∉ (classifyParallel c).log := by
  unfold classifyParallel
  simp only [Run.andThen_log, Run.andThen_res, apply_ite Run.log, apply_ite Run.res,
    Run.log_pure, Run.res_pure, Log.Warning_log, Log.Warning_res, Log.Fatal_log, Log.Fatal_res,
    Run.logBind_ok, Run.logBind_error, Run.logBind_ite, Run.resBind_ok, Run.resBind_error,
    Run.resBind_ite, ite_self, List.append_nil]
  (try split_ifs) <;> simp [gossWarning]

theorem checkForcedSplits_log_goss (c : Config) : gossWarning ∉ (checkForcedSplits c).log := by
  unfold checkForcedSplits
  simp only [Run.andThen_log, Run.andThen_res, apply_ite Run.log, apply_ite Run.res,
    Run.log_pure, Run.res_pure, Log.Warning_log, Log.Warning_res, Log.Fatal_log, Log.Fatal_res,
    Run.logBind_ok, Run.logBind_error, Run.logBind_ite, Run.resBind_ok, Run.resBind_error,
    Run.resBind_ite, ite_self, List.append_nil]
  simp

theorem coupleDepthLeaves_log_goss (params : Params) (c : Config) :
    gossWarning ∉ (coupleDepthLeaves params c).log := by
  unfold coupleDepthLeaves
  simp only [Run.andThen_log, Run.andThen_res, apply_ite Run.log, apply_ite Run.res,
    Run.log_pure, Run.res_pure, Log.Warning_log, Log.Warning_res, Log.Fatal_log, Log.Fatal_res,
    Run.logBind_ok, Run.logBind_error, Run.logBind_ite, Run.resBind_ok, Run.resBind_error,
    Run.resBind_ite, ite_self, List.append_nil]
  (try split_ifs) <;> simp [gossWarning]

theorem forceDevice_log_goss (c : Config) : gossWarning ∉ (forceDevice c).log := by
  unfold forceDevice
  simp only [Run.andThen_log, Run.andThen_res, apply_ite Run.log, apply_ite Run.res,
    Run.log_pure, Run.res_pure, Log.Warning_log, Log.Warning_res, Log.Fatal_log, Log.Fatal_res,
    Run.logBind_ok, Run.logBind_error, Run.logBind_ite, Run.resBind_ok, Run.resBind_error,
    Run.resBind_ite, ite_self, List.append_nil]
  (try split_ifs) <;> simp [gossWarning]

theorem checkLinearTree_log_goss (c : Config) : gossWarning ∉ (checkLinearTree c).log := by
  unfold checkLinearTree
  simp only [Run.andThen_log, Run.andThen_res, apply_ite Run.log, apply_ite Run.res,
    Run.log_pure, Run.res_pure, Log.Warning_log, Log.Warning_res, Log.Fatal_log, Log.Fatal_res,
    Run.logBind_ok, Run.logBind_error, Run.logBind_ite, Run.resBind_ok, Run.resBind_error,
    Run.resBind_ite, ite_self, List.append_nil]
  (try split_ifs) <;> simp [gossWarning]

theorem raiseMinDataForSmoothing_log_goss (kEpsilon : Double) (c : Config) :
    gossWarning ∉ (raiseMinDataForSmoothing kEpsilon c).log := by
  unfold raiseMinDataForSmoothing
  simp only [Run.andThen_log, Run.andThen_res, apply_ite Run.log, apply_ite Run.res,
    Run.log_pure, Run.res_pure, Log.Warning_log, Log.Warning_res, Log.Fatal_log, Log.Fatal_res,
    Run.logBind_ok, Run.logBind_error, Run.logBind_ite, Run.resBind_ok, Run.resBind_error,
    Run.resBind_ite, ite_self, List.append_nil]
  (try split_ifs) <;> simp [gossWarning]

theorem downgradeMonotoneParallel_log_goss (c : Config) :
    gossWarning ∉ (downgradeMonotoneParallel c).log := by
  unfold downgradeMonotoneParallel
  simp only [Run.andThen_log, Run.andThen_res, apply_ite Run.log, apply_ite Run.res,
    Run.log_pure, Run.res_pure, Log.Warning_log, Log.Warning_res, Log.Fatal_log, Log.Fatal_res,
    Run.logBind_ok, Run.logBind_error, Run.logBind_ite, Run.resBind_ok, Run.resBind_error,
    Run.resBind_ite, ite_self, List.append_nil]
  (try split_ifs) <;> simp [gossWarning]

theorem downgradeMonotoneByNode_log_goss (c : Config) :
    gossWarning ∉ (downgradeMonotoneByNode c).log := by
  unfold downgradeMonotoneByNode
  simp only [Run.andThen_log, Run.andThen_res, apply_ite Run.log, apply_ite Run.res,
    Run.log_pure, Run.res_pure, Log.Warning_log, Log.Warning_res, Log.Fatal_log, Log.Fatal_res,
    Run.logBind_ok, Run.logBind_error, Run.logBind_ite, Run.resBind_ok, Run.resBind_error,
    Run.resBind_ite, ite_self, List.append_nil]
  (try split_ifs) <;> simp [gossWarning]

theorem warnMonotonePenalty_log_goss (c : Config) :
    gossWarning ∉ (warnMonotonePenalty c).log := by
  unfold warnMonotonePenalty
  simp only [Run.andThen_log, Run.andThen_res, apply_ite Run.log, apply_ite Run.res,
    Run.log_pure, Run.res_pure, Log.Warning_log, Log.Warning_res, Log.Fatal_log, Log.Fatal_res,
    Run.logBind_ok, Run.logBind_error, Run.logBind_ite, Run.resBind_ok, Run.resBind_error,
    Run.resBind_ite, ite_self, List.append_nil]
  (try split_ifs) <;> simp [gossWarning]

theorem forceMinData_log_goss (kEpsilon : Double) (c : Config) :
    gossWarning ∉ (forceMinData kEpsilon c).log := by
  unfold forceMinData
  simp only [Run.andThen_log, Run.andThen_res, apply_ite Run.log, apply_ite Run.res,
    Run.log_pure, Run.res_pure, Log.Warning_log, Log.Warning_res, Log.Fatal_log, Log.Fatal_res,
    Run.logBind_ok, Run.logBind_error, Run.logBind_ite, Run.resBind_ok, Run.resBind_error,
    Run.resBind_ite, ite_self, List.append_nil]
  (try split_ifs) <;> simp [gossWarning]

theorem resetBaggingByQuery_log_goss (c : Config) :
    gossWarning ∉ (resetBaggingByQuery c).log := by
  unfold resetBaggingByQuery
  simp only [Run.andThen_log, Run.andThen_res, apply_ite Run.log, apply_ite Run.res,
    Run.log_pure, Run.res_pure, Log.Warning_log, Log.Warning_res, Log.Fatal_log, Log.Fatal_res,
    Run.logBind_ok, Run.logBind_error, Run.logBind_ite, Run.resBind_ok, Run.resBind_error,
    Run.resBind_ite, ite_self, List.append_nil]
  (try split_ifs) <;> simp [gossWarning]

theorem rewriteGoss_goss (c c1 : Config) (h : (rewriteGoss c).res = Except.ok c1)
    (hb : c.boosting = "goss") :
    c1.boosting = "gbdt" ∧ c1.data_sample_strategy = "goss" ∧
      (rewriteGoss c).log = [gossWarning] := by
  unfold rewriteGoss at h ⊢
  simp only [hb, beq_self_eq_true, if_true, Run.andThen_res, Run.andThen_log, Run.res_pure,
    Run.log_pure, Log.Warning_res, Log.Warning_log, Run.resBind_ok, Run.logBind_ok,
    List.nil_append, List.append_nil] at h ⊢
  cases h
  exact ⟨rfl, rfl, rfl⟩

/-- The log of a run of `CheckParamConflict` that returns is the sequence of the logs of
its rules. -/
theorem Trace.log_count {kEpsilon : Double} {params : Params}
    {c c1 c3 c4 c5 c6 c7 c8 c10 c11 c' : Config}
    (tr : Trace kEpsilon params c c1 c3 c4 c5 c6 c7 c8 c10 c11 c') (m : LogMsg) :
    (Config.CheckParamConflict kEpsilon params c).log.count m =
      (checkClassAndMetric c).log.count m +
      ((classifyParallel (normalizeParallel c)).log.count m +
      ((checkForcedSplits c1).log.count m +
      ((coupleDepthLeaves params c1).log.count m +
      ((forceDevice c3).log.count m +
      ((checkLinearTree c4).log.count m +
      ((raiseMinDataForSmoothing kEpsilon c5).log.count m +
      ((downgradeMonotoneParallel c6).log.count m +
      ((downgradeMonotoneByNode c7).log.count m +
      ((warnMonotonePenalty c8).log.count m +
      ((forceMinData kEpsilon c8).log.count m +
      ((rewriteGoss c10).log.count m +
      (resetBaggingByQuery c11).log.count m))))))))))) := by
  unfold Config.CheckParamConflict
  simp only [Run.andThen_log, tr.check, tr.classify, tr.forced, tr.couple, tr.device, tr.linear,
    tr.smoothing, tr.monotoneParallel, tr.monotoneByNode, tr.penalty, tr.minData, tr.goss,
    Run.logBind_ok, List.count_append]

/-- C7: a run of `CheckParamConflict` that returns from a configuration with
`boosting = "goss"` ends with `boosting = "gbdt"` and `data_sample_strategy = "goss"`
whatever the sampling strategy was, and the warning of the rewrite is in its log exactly
once. -/
theorem checkParamConflict_goss (kEpsilon : Double) (params : Params) (c c' : Config)
    (hb : c.boosting = "goss")
    (h : (Config.CheckParamConflict kEpsilon params c).res = Except.ok c') :
    c'.boosting = "gbdt" ∧ c'.data_sample_strategy = "goss" ∧
      (Config.CheckParamConflict kEpsilon params c).log.count gossWarning = 1 := by
  obtain ⟨c1, c3, c4, c5, c6, c7, c8, c10, c11, tr⟩ :=
    CheckParamConflict_trace kEpsilon params c c' h
  obtain ⟨g1, g2, g3⟩ := rewriteGoss_goss _ _ tr.goss (tr.boosting10.trans hb)
  refine ⟨tr.boosting.trans g1, tr.data_sample_strategy.trans g2, ?_⟩
  rw [tr.log_count gossWarning, checkClassAndMetric_log, g3,
    List.count_eq_zero_of_not_mem (classifyParallel_log_goss _),
    List.count_eq_zero_of_not_mem (checkForcedSplits_log_goss _),
    List.count_eq_zero_of_not_mem (coupleDepthLeaves_log_goss _ _),
    List.count_eq_zero_of_not_mem (forceDevice_log_goss _),
    List.count_eq_zero_of_not_mem (checkLinearTree_log_goss _),
    List.count_eq_zero_of_not_mem (raiseMinDataForSmoothing_log_goss _ _),
    List.count_eq_zero_of_not_mem (downgradeMonotoneParallel_log_goss _),
    List.count_eq_zero_of_not_mem (downgradeMonotoneByNode_log_goss _),
    List.count_eq_zero_of_not_mem (warnMonotonePenalty_log_goss _),
    List.count_eq_zero_of_not_mem (forceMinData_log_goss _ _),
    List.count_eq_zero_of_not_mem (resetBaggingByQuery_log_goss _)]
  simp

/-- C7, witness: `boosting=goss` with the sampling strategy `bagging`. -/
theorem checkParamConflict_goss_witness :
    gossBoosting.boosting = "goss" ∧
      (Config.CheckParamConflict exampleEpsilon [] gossBoosting).res
        = Except.ok gossBoostingResult ∧
      (gossBoostingResult.boosting = "gbdt" ∧ gossBoostingResult.data_sample_strategy = "goss" ∧
        (Config.CheckParamConflict exampleEpsilon [] gossBoosting).log.count gossWarning = 1) :=
  ⟨rfl, rfl, checkParamConflict_goss exampleEpsilon [] gossBoosting gossBoostingResult rfl rfl⟩

/-! ## The validation-set filter -/

theorem filterValidLoop_eq (data : String) (vs : List String) (state : List String × Bool) :
    filterValidLoop data vs state
      = (state.1 ++ vs.filter (fun v => decide (v ≠ data)), state.2 || decide (data ∈ vs)) := by
  induction vs generalizing state with
  | nil => simp [filterValidLoop]
  | cons v rest ih =>
    obtain ⟨new_valid, flag⟩ := state
    unfold filterValidLoop
    by_cases hv : v = data
    · simp [hv, ih]
    · have hv' : ¬ data = v := fun hh => hv hh.symm
      simp [hv, hv', ih]

theorem Set_saveBinary_keeps (c c1 : Config) (h : (Config.Set_saveBinary c).res = Except.ok c1) :
    c1.valid = c.valid ∧ c1.is_provide_training_metric = c.is_provide_training_metric := by
  unfold Config.Set_saveBinary at h
  simp only [Run.andThen_res, apply_ite Run.res, Run.res_pure, Log.Info_res, Run.resBind_ok] at h
  split_ifs at h <;> cases h <;> exact ⟨rfl, rfl⟩

/-- C8: the validation-set filter of `Config::Set` leaves exactly the entries of `valid`
different from `data`, in their order, so the training path is not among them; the flag
`is_provide_training_metric` becomes true if an entry was removed and keeps its value
otherwise; and these are the values at the end of `Set`, after the conflict check. -/
theorem set_filterValid (kEpsilon : Double) (params : Params) (c : Config) :
    (Config.Set_filterValid c).valid = c.valid.filter (fun v => decide (v ≠ c.data)) ∧
    c.data ∉ (Config.Set_filterValid c).valid ∧
    (c.data ∈ c.valid → (Config.Set_filterValid c).is_provide_training_metric = true) ∧
    (c.data ∉ c.valid →
      (Config.Set_filterValid c).is_provide_training_metric = c.is_provide_training_metric) ∧
    (∀ c', (Config.Set_tail kEpsilon params c).res = Except.ok c' →
      c'.valid = (Config.Set_filterValid c).valid ∧
      c'.is_provide_training_metric = (Config.Set_filterValid c).is_provide_training_metric) := by
  have hv : (Config.Set_filterValid c).valid = c.valid.filter (fun v => decide (v ≠ c.data)) := by
    simp [Config.Set_filterValid, filterValidLoop_eq]
  have hf : (Config.Set_filterValid c).is_provide_training_metric
      = (c.is_provide_training_metric || decide (c.data ∈ c.valid)) := by
    simp [Config.Set_filterValid, filterValidLoop_eq]
  refine ⟨hv, ?_, ?_, ?_, ?_⟩
  · rw [hv]
    simp [List.mem_filter]
  · intro hm
    rw [hf]
    simp [hm]
  · intro hm
    rw [hf]
    simp [hm]
  · intro c' h
    unfold Config.Set_tail at h
    rw [Run.andThen_res_ok] at h
    obtain ⟨c1, h1, h2⟩ := h
    have k1 := Set_saveBinary_keeps _ _ h1
    have k2 := CheckParamConflict_fixed kEpsilon params c1 c' h2
    exact ⟨k2.valid.trans k1.1, k2.is_provide_training_metric.trans k1.2⟩

/-- C8, witness: with `data = "train.txt"` and `valid = ["train.txt", "valid.txt"]` the
end of `Set` returns `valid = ["valid.txt"]` and the flag true. -/
theorem set_filterValid_witness :
    (Config.Set_filterValid trainAmongValid).valid = ["valid.txt"] ∧
      (Config.Set_filterValid trainAmongValid).is_provide_training_metric = true ∧
      (Config.Set_tail exampleEpsilon [] trainAmongValid).res = Except.ok trainAmongValidResult ∧
      trainAmongValidResult.valid = (Config.Set_filterValid trainAmongValid).valid ∧
      trainAmongValidResult.is_provide_training_metric
        = (Config.Set_filterValid trainAmongValid).is_provide_training_metric :=
  ⟨by decide,
    (set_filterValid exampleEpsilon [] trainAmongValid).2.2.1 (by decide),
    rfl,
    (set_filterValid exampleEpsilon [] trainAmongValid).2.2.2.2 trainAmongValidResult rfl⟩

/-! ## `KeepFirstValues` -/

theorem emplace_lookup (out : Params) (name value k : String) :
    (emplace out name value).lookup k
      = (out.lookup k).or (if k = name then some value else none) := by
  unfold emplace
  cases hn : out.lookup name with
  | some x =>
    simp only
    by_cases hk : k = name
    · rw [hk, hn]
      rfl
    · rw [if_neg hk]
      cases out.lookup k <;> rfl
  | none =>
    simp only
    rw [List.lookup_append]
    by_cases hk : k = name
    · simp [hk, List.lookup_cons]
    · have hb : (k == name) = false := by simpa using hk
      simp [hk, hb, List.lookup_cons]

theorem ignoredWarnings_length (name first : String) (later : List String) :
    (ignoredWarnings name first later).length = later.length := by
  induction later with
  | nil => rfl
  | cons v rest ih => simp [ignoredWarnings, ih]

theorem ignoredWarnings_level (name first : String) (later : List String) :
    ∀ m ∈ ignoredWarnings name first later, m.level = LogLevel.Warning := by
  induction later with
  | nil => simp [ignoredWarnings]
  | cons v rest ih =>
    intro m hm
    simp only [ignoredWarnings, List.mem_cons] at hm
    rcases hm with hm | hm
    · rw [hm]
      rfl
    · exact ih m hm

theorem KeepFirstValues_into (params : RawParams) (hne : ∀ kv ∈ params, kv.2 ≠ [])
    (out0 : Params) :
    ∃ out log, Config.KeepFirstValues params out0 = some (out, log) ∧
      (∀ k, out.lookup k = (out0.lookup k).or ((params.lookup k).bind List.head?)) ∧
      (∀ m ∈ log, m.level = LogLevel.Warning) ∧
      log.length = (params.map (fun kv => kv.2.length - 1)).sum := by
  induction params generalizing out0 with
  | nil =>
    refine ⟨out0, [], rfl, ?_, ?_, rfl⟩
    · intro k
      cases out0.lookup k <;> rfl
    · simp
  | cons kv rest ih =>
    obtain ⟨name, values⟩ := kv
    cases values with
    | nil => exact absurd rfl (hne (name, []) (List.mem_cons_self _ _))
    | cons first later =>
      obtain ⟨out, log, hk, hl, hw, hc⟩ :=
        ih (fun kv hkv => hne kv (List.mem_cons_of_mem _ hkv)) (emplace out0 name first)
      refine ⟨out, ignoredWarnings name first later ++ log, ?_, ?_, ?_, ?_⟩
      · simp only [Config.KeepFirstValues, hk]
      · intro k
        rw [hl k, emplace_lookup, List.lookup_cons]
        by_cases hkn : k = name
        · subst hkn
          cases out0.lookup k <;> simp
        · have hb : (k == name) = false := by simpa using hkn
          rw [if_neg hkn, hb]
          cases out0.lookup k <;> simp
      · intro m hm
        rcases List.mem_append.1 hm with hm | hm
        · exact ignoredWarnings_level _ _ _ m hm
        · exact hw m hm
      · simp [ignoredWarnings_length, hc]

theorem lookup_mem_pair {β : Type} (l : List (String × β)) (k : String) (b : β)
    (h : l.lookup k = some b) : (k, b) ∈ l := by
  rw [List.lookup_eq_some_iff] at h
  obtain ⟨l1, l2, rfl, _⟩ := h
  simp

theorem mem_keys_iff_lookup {β : Type} (l : List (String × β)) (k : String) :
    k ∈ l.map Prod.fst ↔ (l.lookup k).isSome = true := by
  rw [List.lookup_isSome_iff]
  simp only [List.mem_map, beq_iff_eq]
  constructor
  · rintro ⟨p, hp, rfl⟩
    exact ⟨p, hp, rfl⟩
  · rintro ⟨p, hp, rfl⟩
    exact ⟨p, hp, rfl⟩

/-- C9: on a multi-valued map in which every key has at least one value, and an empty
output map, `KeepFirstValues` returns an output with exactly the keys of the input,
every key bound to the first value of its list, and one warning for every discarded
value: the number of messages, all warnings, is the sum over the keys of the list length
minus one. -/
theorem keepFirstValues_first_wins (params : RawParams) (hne : ∀ kv ∈ params, kv.2 ≠ []) :
    ∃ out log, Config.KeepFirstValues params [] = some (out, log) ∧
      (∀ k, k ∈ out.map Prod.fst ↔ k ∈ params.map Prod.fst) ∧
      (∀ k values, params.lookup k = some values → out.lookup k = values.head?) ∧
      (∀ m ∈ log, m.level = LogLevel.Warning) ∧
      log.length = (params.map (fun kv => kv.2.length - 1)).sum := by
  obtain ⟨out, log, hk, hl, hw, hc⟩ := KeepFirstValues_into params hne []
  have hl' : ∀ k, out.lookup k = (params.lookup k).bind List.head? := by
    intro k
    rw [hl k]
    rfl
  refine ⟨out, log, hk, ?_, ?_, hw, hc⟩
  · intro k
    rw [mem_keys_iff_lookup, mem_keys_iff_lookup, hl' k]
    cases hp : params.lookup k with
    | none => rfl
    | some values =>
      have hmem := lookup_mem_pair params k values hp
      have hv := hne (k, values) hmem
      cases values with
      | nil => exact absurd rfl hv
      | cons first later => rfl
  · intro k values hp
    rw [hl' k, hp]
    rfl

/-- C9, witness: `num_leaves` given three times and `max_depth` once keep `7` and `3`, with
two warnings. -/
theorem keepFirstValues_first_wins_witness :
    (∀ kv ∈ repeatedLeaves, kv.2 ≠ []) ∧
      ∃ out log, Config.KeepFirstValues repeatedLeaves [] = some (out, log) ∧
        (∀ k, k ∈ out.map Prod.fst ↔ k ∈ repeatedLeaves.map Prod.fst) ∧
        (∀ k values, repeatedLeaves.lookup k = some values → out.lookup k = values.head?) ∧
        (∀ m ∈ log, m.level = LogLevel.Warning) ∧
        log.length = (repeatedLeaves.map (fun kv => kv.2.length - 1)).sum :=
  ⟨by decide, keepFirstValues_first_wins repeatedLeaves (by decide)⟩

/-! ## The enumerators -/

theorem GetString_present (params : Params) (name v : String)
    (h : params.lookup name = some v) (hv : v ≠ "") : Config.GetString params name = some v := by
  unfold Config.GetString
  rw [h]
  simp [hv]

theorem GetString_absent (params : Params) (name : String)
    (h : params.lookup name = none) : Config.GetString params name = none := by
  unfold Config.GetString
  rw [h]

theorem isTableLookup_of {α : Type} (enumerator : Params → α → Run α) (key : String)
    (table : List (String × α)) (unknownFmt : String)
    (h1 : ∀ (params : Params) (field : α) (v : String), params.lookup key = some v → v ≠ "" →
      enumerator params field = fromTable table unknownFmt (lowercase v))
    (h2 : ∀ (params : Params) (field : α), params.lookup key = none →
      enumerator params field = pure field) :
    IsTableLookup enumerator key table unknownFmt := by
  refine ⟨h1, ?_, h2⟩
  intro params params' field field' v v' hp hv hp' hv' hl
  rw [h1 params field v hp hv, h1 params' field' v' hp' hv', hl]

theorem beq_false_of_ne (w s : String) (h : ¬ w = s) : (w == s) = false := by
  simpa using h

theorem GetTaskType_table : IsTableLookup GetTaskType "task" taskTable "Unknown task type %s" := by
  apply isTableLookup_of
  · intro params field v hp hv
    unfold GetTaskType
    rw [GetString_present params "task" v hp hv]
    dsimp only
    generalize lowercase v = w
    simp only [fromTable, taskTable, List.lookup_cons, List.lookup_nil, Bool.or_eq_true,
      beq_iff_eq]
    split_ifs with h1 h2 h3 h4 h5
    · rcases h1 with rfl | rfl <;> rfl
    · rcases h2 with (rfl | rfl) | rfl <;> rfl
    · subst h3
      rfl
    · rcases h4 with rfl | rfl <;> rfl
    · subst h5
      rfl
    · simp only [not_or] at h1 h2 h4
      simp only [beq_false_of_ne _ _ h1.1, beq_false_of_ne _ _ h1.2, beq_false_of_ne _ _ h2.1.1,
        beq_false_of_ne _ _ h2.1.2, beq_false_of_ne _ _ h2.2, beq_false_of_ne _ _ h3,
        beq_false_of_ne _ _ h4.1, beq_false_of_ne _ _ h4.2, beq_false_of_ne _ _ h5]
  · intro params field hp
    unfold GetTaskType
    rw [GetString_absent params "task" hp]

theorem GetBoostingType_table :
    IsTableLookup GetBoostingType "boosting" boostingTable "Unknown boosting type %s" := by
  apply isTableLookup_of
  · intro params field v hp hv
    unfold GetBoostingType
    rw [GetString_present params "boosting" v hp hv]
    dsimp only
    generalize lowercase v = w
    simp only [fromTable, boostingTable, List.lookup_cons, List.lookup_nil, Bool.or_eq_true,
      beq_iff_eq]
    split_ifs with h1 h2 h3 h4
    · rcases h1 with rfl | rfl <;> rfl
    · subst h2
      rfl
    · subst h3
      rfl
    · rcases h4 with rfl | rfl <;> rfl
    · simp only [not_or] at h1 h4
      simp only [beq_false_of_ne _ _ h1.1, beq_false_of_ne _ _ h1.2, beq_false_of_ne _ _ h2,
        beq_false_of_ne _ _ h3, beq_false_of_ne _ _ h4.1, beq_false_of_ne _ _ h4.2]
  · intro params field hp
    unfold GetBoostingType
    rw [GetString_absent params "boosting" hp]

theorem GetDataSampleStrategy_table :
    IsTableLookup GetDataSampleStrategy "data_sample_strategy" dataSampleStrategyTable
      "Unknown sample strategy %s" := by
  apply isTableLookup_of
  · intro params field v hp hv
    unfold GetDataSampleStrategy
    rw [GetString_present params "data_sample_strategy" v hp hv]
    dsimp only
    generalize lowercase v = w
    simp only [fromTable, dataSampleStrategyTable, List.lookup_cons, List.lookup_nil,
      beq_iff_eq]
    split_ifs with h1 h2
    · subst h1
      rfl
    · subst h2
      rfl
    · simp only [beq_false_of_ne _ _ h1, beq_false_of_ne _ _ h2]
  · intro params field hp
    unfold GetDataSampleStrategy
    rw [GetString_absent params "data_sample_strategy" hp]

theorem GetDeviceType_table :
    IsTableLookup GetDeviceType "device_type" deviceTable "Unknown device type %s" := by
  apply isTableLookup_of
  · intro params field v hp hv
    unfold GetDeviceType
    rw [GetString_present params "device_type" v hp hv]
    dsimp only
    generalize lowercase v = w
    simp only [fromTable, deviceTable, List.lookup_cons, List.lookup_nil, beq_iff_eq]
    split_ifs with h1 h2 h3
    · subst h1
      rfl
    · subst h2
      rfl
    · subst h3
      rfl
    · simp only [beq_false_of_ne _ _ h1, beq_false_of_ne _ _ h2, beq_false_of_ne _ _ h3]
  · intro params field hp
    unfold GetDeviceType
    rw [GetString_absent params "device_type" hp]

theorem GetTreeLearnerType_table :
    IsTableLookup GetTreeLearnerType "tree_learner" treeLearnerTable
      "Unknown tree learner type %s" := by
  apply isTableLookup_of
  · intro params field v hp hv
    unfold GetTreeLearnerType
    rw [GetString_present params "tree_learner" v hp hv]
    dsimp only
    generalize lowercase v = w
    simp only [fromTable, treeLearnerTable, List.lookup_cons, List.lookup_nil, Bool.or_eq_true,
      beq_iff_eq]
    split_ifs with h1 h2 h3 h4
    · subst h1
      rfl
    · rcases h2 with rfl | rfl <;> rfl
    · rcases h3 with rfl | rfl <;> rfl
    · rcases h4 with rfl | rfl <;> rfl
    · simp only [not_or] at h2 h3 h4
      simp only [beq_false_of_ne _ _ h1, beq_false_of_ne _ _ h2.1, beq_false_of_ne _ _ h2.2,
        beq_false_of_ne _ _ h3.1, beq_false_of_ne _ _ h3.2, beq_false_of_ne _ _ h4.1,
        beq_false_of_ne _ _ h4.2]
  · intro params field hp
    unfold GetTreeLearnerType
    rw [GetString_absent params "tree_learner" hp]

/-- C10: each of the five enumerators is a case-insensitive table lookup: with its key
present and a non-empty value `v` the result is the canonical tag that the table of the
specification gives for `lowercase v`, and a fatal error for every other text, so it
depends on `v` only through `lowercase v`; with the key absent the field is unchanged. -/
theorem enumerators_are_table_lookups :
    IsTableLookup GetTaskType "task" taskTable "Unknown task type %s" ∧
    IsTableLookup GetBoostingType "boosting" boostingTable "Unknown boosting type %s" ∧
    IsTableLookup GetDataSampleStrategy "data_sample_strategy" dataSampleStrategyTable
      "Unknown sample strategy %s" ∧
    IsTableLookup GetDeviceType "device_type" deviceTable "Unknown device type %s" ∧
    IsTableLookup GetTreeLearnerType "tree_learner" treeLearnerTable
      "Unknown tree learner type %s" :=
  ⟨GetTaskType_table, GetBoostingType_table, GetDataSampleStrategy_table, GetDeviceType_table,
    GetTreeLearnerType_table⟩

/-- C10, witness: `task=TRAIN` resolves to the training task, `tree_learner=Data_Parallel`
to `data`, `device_type=tpu` is fatal, and without the key `boosting` the field keeps
`dart`. -/
theorem enumerators_are_table_lookups_witness :
    GetTaskType [("task", "TRAIN")] TaskType.kPredict = pure TaskType.kTrain ∧
    GetTreeLearnerType [("tree_learner", "Data_Parallel")] "serial" = pure "data" ∧
    GetDeviceType [("device_type", "tpu")] "cpu"
      = Log.Fatal "Unknown device type %s" [LogArg.str "tpu"] ∧
    GetBoostingType [("task", "TRAIN")] "dart" = pure "dart" :=
  ⟨enumerators_are_table_lookups.1.1 [("task", "TRAIN")] TaskType.kPredict "TRAIN" rfl
      (by decide),
    enumerators_are_table_lookups.2.2.2.2.1 [("tree_learner", "Data_Parallel")] "serial"
      "Data_Parallel" rfl (by decide),
    enumerators_are_table_lookups.2.2.2.1.1 [("device_type", "tpu")] "cpu" "tpu" rfl (by decide),
    enumerators_are_table_lookups.2.1.2.2 [("task", "TRAIN")] "dart" rfl⟩

/-! ## The linear tree learner and the device -/

theorem checkLinearTree_linear (c c1 : Config) (h : (checkLinearTree c).res = Except.ok c1)
    (hl : c.linear_tree = true) :
    c1.tree_learner = "serial" ∧ (c1.device_type = "cpu" ∨ c1.device_type = "gpu") ∧
      (c.device_type ≠ "cpu" → c.device_type ≠ "gpu" → c1.device_type = "cpu") ∧
      c.zero_as_missing = false ∧ c.objective ≠ "regression_l1" := by
  unfold checkLinearTree at h
  simp only [Run.andThen_res, apply_ite Run.res, Run.res_pure, Log.Warning_res, Log.Fatal_res,
    Run.resBind_ok, Run.resBind_error, Run.resBind_ite, ite_self, hl, if_true] at h
  split_ifs at h with h1 h2 h3 h4 h5 h6 h7 h8 h9 <;> cases h <;> simp_all <;> tauto

theorem checkLinearTree_device (c c1 : Config) (h : (checkLinearTree c).res = Except.ok c1) :
    c1.device_type = c.device_type ∨ (c1.device_type = "cpu" ∧ c.linear_tree = true) := by
  unfold checkLinearTree at h
  simp only [Run.andThen_res, apply_ite Run.res, Run.res_pure, Log.Warning_res, Log.Fatal_res,
    Run.resBind_ok, Run.resBind_error, Run.resBind_ite, ite_self] at h
  split_ifs at h with h1 h2 h3 h4 h5 h6 h7 h8 h9 <;> cases h <;> simp_all

theorem forceDevice_gpu (c c1 : Config) (h : (forceDevice c).res = Except.ok c1)
    (hd : c.device_type = "gpu") :
    c1.force_col_wise = true ∧ c1.force_row_wise = false ∧ c1.use_quantized_grad = false := by
  unfold forceDevice at h
  simp only [Run.andThen_res, apply_ite Run.res, Run.res_pure, Log.Warning_res, Log.Fatal_res,
    Run.resBind_ok, Run.resBind_error, Run.resBind_ite, ite_self, hd, beq_self_eq_true,
    if_true] at h
  split_ifs at h with h1 <;> cases h <;> simp_all

theorem forceDevice_cuda (c c1 : Config) (h : (forceDevice c).res = Except.ok c1)
    (hd : c.device_type = "cuda") :
    c1.force_row_wise = true ∧ c1.force_col_wise = false := by
  unfold forceDevice at h
  have hne : (("cuda" : String) == "gpu") = false := by decide
  simp only [Run.andThen_res, apply_ite Run.res, Run.res_pure, Log.Warning_res, Log.Fatal_res,
    Run.resBind_ok, Run.resBind_error, Run.resBind_ite, ite_self, hd, hne, beq_self_eq_true,
    if_true, Bool.false_eq_true, if_false] at h
  cases h
  exact ⟨rfl, rfl⟩

/-- C19: with `linear_tree = true`, a run of `CheckParamConflict` that returns has
`tree_learner = "serial"`, a device that is `cpu` or `gpu` (any other requested device is
replaced by `cpu`), `zero_as_missing = false` and an objective different from
`regression_l1`; and a linear-tree configuration with `zero_as_missing = true` or with
the objective `regression_l1` ends in a fatal error. -/
theorem checkParamConflict_linear_tree (kEpsilon : Double) (params : Params) (c : Config)
    (hl : c.linear_tree = true) :
    (∀ c', (Config.CheckParamConflict kEpsilon params c).res = Except.ok c' →
      c'.tree_learner = "serial" ∧ (c'.device_type = "cpu" ∨ c'.device_type = "gpu") ∧
      (c.device_type ≠ "cpu" → c.device_type ≠ "gpu" → c'.device_type = "cpu") ∧
      c'.zero_as_missing = false ∧ c'.objective ≠ "regression_l1") ∧
    ((c.zero_as_missing = true ∨ c.objective = "regression_l1") →
      ∃ e, (Config.CheckParamConflict kEpsilon params c).res = Except.error e) := by
  have key : ∀ c', (Config.CheckParamConflict kEpsilon params c).res = Except.ok c' →
      c'.tree_learner = "serial" ∧ (c'.device_type = "cpu" ∨ c'.device_type = "gpu") ∧
      (c.device_type ≠ "cpu" → c.device_type ≠ "gpu" → c'.device_type = "cpu") ∧
      c.zero_as_missing = false ∧ c.objective ≠ "regression_l1" := by
    intro c' h
    obtain ⟨c1, c3, c4, c5, c6, c7, c8, c10, c11, tr⟩ :=
      CheckParamConflict_trace kEpsilon params c c' h
    obtain ⟨l1, l2, l3, l4, l5⟩ :=
      checkLinearTree_linear _ _ tr.linear (tr.linear_tree4.trans hl)
    rw [tr.device_type4] at l3
    rw [tr.zero_as_missing4] at l4
    rw [tr.objective4] at l5
    rw [tr.tree_learner, tr.device_type]
    exact ⟨l1, l2, l3, l4, l5⟩
  constructor
  · intro c' h
    have hf := CheckParamConflict_fixed kEpsilon params c c' h
    obtain ⟨k1, k2, k3, k4, k5⟩ := key c' h
    rw [hf.zero_as_missing, hf.objective]
    exact ⟨k1, k2, k3, k4, k5⟩
  · intro hbad
    cases hr : (Config.CheckParamConflict kEpsilon params c).res with
    | error e => exact ⟨e, rfl⟩
    | ok c' =>
      obtain ⟨_, _, _, k4, k5⟩ := key c' hr
      rcases hbad with hz | ho
      · rw [k4] at hz
        exact absurd hz (by decide)
      · exact absurd ho k5

/-- C19, witness: a linear tree on `cuda` with the `feature` learner comes out serial on
`cpu`; a linear tree with `zero_as_missing` is fatal. -/
theorem checkParamConflict_linear_tree_witness :
    (linearOnCuda.linear_tree = true ∧
      (Config.CheckParamConflict exampleEpsilon [] linearOnCuda).res
        = Except.ok linearOnCudaResult ∧
      linearOnCuda.device_type ≠ "cpu" ∧ linearOnCuda.device_type ≠ "gpu" ∧
      linearOnCudaResult.tree_learner = "serial" ∧
      (linearOnCudaResult.device_type = "cpu" ∨ linearOnCudaResult.device_type = "gpu") ∧
      (linearOnCuda.device_type ≠ "cpu" → linearOnCuda.device_type ≠ "gpu" →
        linearOnCudaResult.device_type = "cpu") ∧
      linearOnCudaResult.zero_as_missing = false ∧
      linearOnCudaResult.objective ≠ "regression_l1") ∧
    (linearZeroAsMissing.linear_tree = true ∧ linearZeroAsMissing.zero_as_missing = true ∧
      ∃ e, (Config.CheckParamConflict exampleEpsilon [] linearZeroAsMissing).res
        = Except.error e) :=
  ⟨⟨rfl, rfl, by decide, by decide,
      (checkParamConflict_linear_tree exampleEpsilon [] linearOnCuda rfl).1
        linearOnCudaResult rfl⟩,
    ⟨rfl, rfl,
      (checkParamConflict_linear_tree exampleEpsilon [] linearZeroAsMissing rfl).2
        (Or.inl rfl)⟩⟩

/-- C20: after a run of `CheckParamConflict` that returns, the device `gpu` has
`force_col_wise = true`, `force_row_wise = false` and `use_quantized_grad = false`, and
the device `cuda` has `force_row_wise = true` and `force_col_wise = false`, whatever the
values of these flags were. -/
theorem checkParamConflict_device_forcing (kEpsilon : Double) (params : Params)
    (c c' : Config)
    (h : (Config.CheckParamConflict kEpsilon params c).res = Except.ok c') :
    (c'.device_type = "gpu" →
      c'.force_col_wise = true ∧ c'.force_row_wise = false ∧ c'.use_quantized_grad = false) ∧
    (c'.device_type = "cuda" → c'.force_row_wise = true ∧ c'.force_col_wise = false) := by
  obtain ⟨c1, c3, c4, c5, c6, c7, c8, c10, c11, tr⟩ :=
    CheckParamConflict_trace kEpsilon params c c' h
  have hdev : ∀ name : String, name ≠ "cpu" → c'.device_type = name →
      c3.device_type = name := by
    intro name hname hd
    rw [tr.device_type] at hd
    rcases checkLinearTree_device _ _ tr.linear with h5 | ⟨h5, _⟩
    · rw [tr.device_type3, ← tr.device_type4, ← h5, hd]
    · rw [h5] at hd
      exact absurd hd.symm hname
  rw [tr.force_col_wise, tr.force_row_wise, tr.use_quantized_grad]
  constructor
  · intro hd
    exact forceDevice_gpu _ _ tr.device (hdev "gpu" (by decide) hd)
  · intro hd
    exact forceDevice_cuda _ _ tr.device (hdev "cuda" (by decide) hd)

/-- C20, witness: `gpu` with the row-wise layout and quantized gradients requested, and
`cuda` with the column-wise layout requested. -/
theorem checkParamConflict_device_forcing_witness :
    ((Config.CheckParamConflict exampleEpsilon [] gpuRowWiseQuantized).res
        = Except.ok gpuRowWiseQuantizedResult ∧
      gpuRowWiseQuantizedResult.device_type = "gpu" ∧
      gpuRowWiseQuantizedResult.force_col_wise = true ∧
      gpuRowWiseQuantizedResult.force_row_wise = false ∧
      gpuRowWiseQuantizedResult.use_quantized_grad = false) ∧
    ((Config.CheckParamConflict exampleEpsilon [] cudaColWise).res
        = Except.ok cudaColWiseResult ∧
      cudaColWiseResult.device_type = "cuda" ∧
      cudaColWiseResult.force_row_wise = true ∧ cudaColWiseResult.force_col_wise = false) :=
  ⟨⟨rfl, rfl,
      (checkParamConflict_device_forcing exampleEpsilon [] gpuRowWiseQuantized
        gpuRowWiseQuantizedResult rfl).1 rfl⟩,
    ⟨rfl, rfl,
      (checkParamConflict_device_forcing exampleEpsilon [] cudaColWise
        cudaColWiseResult rfl).2 rfl⟩⟩

/-! ## `ParseMetrics` and `GetMetricType` -/

theorem firstOccurrences_mem (l : List String) (m : String) :
    m ∈ firstOccurrences l ↔ m ∈ l := by
  induction l with
  | nil => simp [firstOccurrences]
  | cons x rest ih =>
    simp only [firstOccurrences, List.mem_cons, List.mem_filter, decide_eq_true_eq, ih]
    constructor
    · rintro (h | ⟨h, _⟩)
      · exact Or.inl h
      · exact Or.inr h
    · rintro (h | h)
      · exact Or.inl h
      · by_cases hx : m = x
        · exact Or.inl hx
        · exact Or.inr ⟨h, hx⟩

theorem firstOccurrences_nodup (l : List String) : (firstOccurrences l).Nodup := by
  induction l with
  | nil => simp [firstOccurrences]
  | cons x rest ih =>
    simp only [firstOccurrences, List.nodup_cons, List.mem_filter, decide_eq_true_eq]
    exact ⟨fun h => h.2 rfl, ih.filter _⟩

theorem firstOccurrences_sublist (l : List String) : (firstOccurrences l).Sublist l := by
  induction l with
  | nil => simp [firstOccurrences]
  | cons x rest ih =>
    simp only [firstOccurrences]
    exact ((List.filter_sublist _).trans ih).cons₂ x

theorem parseMetricsLoop_eq (resolve : String → String) (mets : List String)
    (out sets : List String) (hs : ∀ x, x ∈ sets ↔ x ∈ out) :
    (parseMetricsLoop resolve mets (out, sets)).1
      = out ++ (firstOccurrences (mets.map resolve)).filter (fun y => decide (y ∉ out)) := by
  induction mets generalizing out sets with
  | nil => simp [parseMetricsLoop, firstOccurrences]
  | cons met rest ih =>
    unfold parseMetricsLoop
    simp only [List.map_cons, firstOccurrences]
    by_cases ht : resolve met ∈ sets
    · have hto : resolve met ∈ out := (hs _).1 ht
      rw [if_neg (not_not.2 ht), ih out sets hs]
      congr 1
      rw [List.filter_cons_of_neg (by simpa using hto), List.filter_filter]
      apply List.filter_congr
      intro y _
      by_cases hy : y ∈ out
      · simp [hy]
      · have hne : y ≠ resolve met := fun hh => hy (hh ▸ hto)
        simp [hy, hne]
    · have hto : resolve met ∉ out := fun hh => ht ((hs _).2 hh)
      rw [if_pos ht, ih (out ++ [resolve met]) (resolve met :: sets)
        (by intro x; simp [hs x, or_comm])]
      rw [List.filter_cons_of_pos (by simpa using hto), List.filter_filter,
        List.append_assoc, List.singleton_append]
      congr 2
      apply List.filter_congr
      intro y _
      by_cases hy : y ∈ out <;> by_cases hne : y = resolve met <;> simp [hy, hne]

/-- C13: for every metric text, the list that `ParseMetrics` returns is the
first-occurrence de-duplication of the alias-resolved entries of the text: it has no
duplicates, it contains exactly the alias-resolved entries, in the order of their first
occurrence, and it does not depend on the previous content of the output list. -/
theorem parseMetrics_first_occurrences (ParseMetricAlias : String → String) (value : String)
    (out_metric : List String) :
    ParseMetrics ParseMetricAlias value out_metric
        = firstOccurrences ((Common.Split value ',').map ParseMetricAlias) ∧
      (ParseMetrics ParseMetricAlias value out_metric).Nodup ∧
      (∀ m, m ∈ ParseMetrics ParseMetricAlias value out_metric ↔
        m ∈ (Common.Split value ',').map ParseMetricAlias) ∧
      (ParseMetrics ParseMetricAlias value out_metric).Sublist
        ((Common.Split value ',').map ParseMetricAlias) ∧
      ParseMetrics ParseMetricAlias value out_metric = ParseMetrics ParseMetricAlias value [] := by
  have h : ParseMetrics ParseMetricAlias value out_metric
      = firstOccurrences ((Common.Split value ',').map ParseMetricAlias) := by
    unfold ParseMetrics
    rw [parseMetricsLoop_eq ParseMetricAlias _ [] [] (by simp)]
    simp
  refine ⟨h, ?_, ?_, ?_, rfl⟩
  · rw [h]
    exact firstOccurrences_nodup _
  · intro m
    rw [h]
    exact firstOccurrences_mem _ m
  · rw [h]
    exact firstOccurrences_sublist _

theorem lowercase_eq_empty (v : String) : lowercase v = "" ↔ v = "" := by
  unfold lowercase
  constructor
  · intro h
    have hd : v.data.map Common.tolower = [] := congrArg String.data h
    have hv : v.data = [] := List.map_eq_nil_iff.1 hd
    exact String.ext hv
  · intro h
    rw [h]
    rfl

theorem GetString_none_iff (params : Params) (name : String) :
    Config.GetString params name = none ↔
      params.lookup name = none ∨ params.lookup name = some "" := by
  unfold Config.GetString
  cases hl : params.lookup name with
  | none => simp
  | some v =>
    by_cases hv : v = ""
    · simp [hv]
    · simp [hv]

/-- C12: `GetMetricType` derives the metric list from the objective exactly when the raw
`metric` text is absent or empty and the metric list is empty; with an absent or empty
text and a non-empty list the list is kept; and with a non-empty raw text the result is
the list parsed from the lowercased text, also when that list is empty: it is then not
replaced by the metrics of the objective. -/
theorem getMetricType_defaulting (ParseMetricAlias : String → String) (params : Params)
    (objective : String) (metric : List String) :
    ((params.lookup "metric" = none ∨ params.lookup "metric" = some "") → metric = [] →
      GetMetricType ParseMetricAlias params objective metric
        = ParseMetrics ParseMetricAlias objective []) ∧
    ((params.lookup "metric" = none ∨ params.lookup "metric" = some "") → metric ≠ [] →
      GetMetricType ParseMetricAlias params objective metric = metric) ∧
    (∀ v, params.lookup "metric" = some v → v ≠ "" →
      GetMetricType ParseMetricAlias params objective metric
          = ParseMetrics ParseMetricAlias (lowercase v) metric ∧
        (ParseMetrics ParseMetricAlias (lowercase v) metric = [] →
          GetMetricType ParseMetricAlias params objective metric = [])) := by
  refine ⟨?_, ?_, ?_⟩
  · intro hp hm
    unfold GetMetricType
    rw [(GetString_none_iff params "metric").2 hp]
    simp [hm, ParseMetrics]
  · intro hp hm
    unfold GetMetricType
    rw [(GetString_none_iff params "metric").2 hp]
    simp [hm]
  · intro v hp hv
    have hl : lowercase v ≠ "" := fun hh => hv ((lowercase_eq_empty v).1 hh)
    have hr : GetMetricType ParseMetricAlias params objective metric
        = ParseMetrics ParseMetricAlias (lowercase v) metric := by
      unfold GetMetricType
      rw [GetString_present params "metric" v hp hv]
      simp [hl]
    exact ⟨hr, fun he => hr.trans he⟩

/-- C12, witness: without a `metric` key the metrics come from the objective; the text
`,,,` has no entry and leaves the list empty; the text `AUC,l2,auc` gives its two
metrics. -/
theorem getMetricType_defaulting_witness :
    GetMetricType id [] "regression" [] = ParseMetrics id "regression" [] ∧
    ParseMetrics id "regression" [] = ["regression"] ∧
    GetMetricType id [("metric", "")] "regression" ["l1"] = ["l1"] ∧
    ParseMetrics id (lowercase ",,,") [] = [] ∧
    GetMetricType id [("metric", ",,,")] "regression" [] = [] ∧
    GetMetricType id [("metric", "AUC,l2,auc")] "regression" []
      = ParseMetrics id (lowercase "AUC,l2,auc") [] ∧
    ParseMetrics id (lowercase "AUC,l2,auc") [] = ["auc", "l2"] :=
  ⟨(getMetricType_defaulting id [] "regression" []).1 (Or.inl rfl) rfl,
    by decide,
    (getMetricType_defaulting id [("metric", "")] "regression" ["l1"]).2.1 (Or.inr rfl)
      (by decide),
    by decide,
    ((getMetricType_defaulting id [("metric", ",,,")] "regression" []).2.2 ",,," rfl
      (by decide)).2 (by decide),
    ((getMetricType_defaulting id [("metric", "AUC,l2,auc")] "regression" []).2.2 "AUC,l2,auc"
      rfl (by decide)).1,
    by decide⟩

/-! ## `GetObjectiveType` -/

theorem Run.pure_andThen {α β : Type} (a : α) (f : α → Run β) :
    Run.andThen (pure a) f = f a := by
  cases hf : f a with
  | mk log res =>
    show Run.andThen (Run.ret a) f = _
    unfold Run.andThen Run.ret
    simp [hf]

theorem setVerbosity_of_first (AtoiAndCheck : String → Option Int) (params : RawParams)
    (key first : String) (rest : List String) (hk : params.lookup key = some (first :: rest)) :
    VerbosityOutcome AtoiAndCheck first
      ((GetFirstValueAsInt AtoiAndCheck params key 1).map fun run =>
        Run.andThen run fun verbosity => pure (levelOfVerbosity verbosity)) := by
  unfold GetFirstValueAsInt VerbosityOutcome
  rw [hk]
  dsimp only
  cases ha : AtoiAndCheck first with
  | none =>
    refine ⟨_, rfl, ?_, ?_, ?_, ?_, ?_⟩
    · intro v hv
      cases hv
    · intro v hv
      cases hv
    · intro v hv
      cases hv
    · intro v hv
      cases hv
    · exact ⟨fun _ => rfl, fun _ => ⟨_, rfl⟩⟩
  | some parsed =>
    refine ⟨_, rfl, ?_, ?_, ?_, ?_, ?_⟩
    · intro v hv hlt
      cases hv
      show Run.andThen (pure parsed) _ = _
      rw [Run.pure_andThen]
      simp only [levelOfVerbosity, hlt, if_true]
    · intro v hv h0
      cases hv
      show Run.andThen (pure parsed) _ = _
      rw [Run.pure_andThen, h0]
      rfl
    · intro v hv h1
      cases hv
      show Run.andThen (pure parsed) _ = _
      rw [Run.pure_andThen, h1]
      rfl
    · intro v hv hgt
      cases hv
      have h1 : ¬ parsed < 0 := by omega
      have h2 : ¬ parsed = 0 := by omega
      have h3 : ¬ parsed = 1 := by omega
      show Run.andThen (pure parsed) _ = _
      rw [Run.pure_andThen]
      simp only [levelOfVerbosity, h1, h2, h3, if_false]
    · constructor
      · rintro ⟨e, he⟩
        cases he
      · intro hh
        cases hh

/-- C16: `SetVerbosity` consults the key `verbosity` if it is present and the key `verbose`
otherwise; with the first value of the consulted key it returns the level `Fatal`,
`Warning`, `Info` or `Debug` for a parsed integer below 0, equal to 0, equal to 1 or
above 1, and it is fatal exactly when that value is not parsed as an integer; with
neither key the level is unchanged; and with `verbosity` present nothing else in the map
has an influence on the outcome. -/
theorem setVerbosity_outcome (AtoiAndCheck : String → Option Int) (params : RawParams)
    (level : LogLevel) :
    (∀ first rest, params.lookup "verbosity" = some (first :: rest) →
      VerbosityOutcome AtoiAndCheck first (Config.SetVerbosity AtoiAndCheck params level)) ∧
    (∀ first rest, params.lookup "verbosity" = none →
      params.lookup "verbose" = some (first :: rest) →
      VerbosityOutcome AtoiAndCheck first (Config.SetVerbosity AtoiAndCheck params level)) ∧
    (params.lookup "verbosity" = none → params.lookup "verbose" = none →
      Config.SetVerbosity AtoiAndCheck params level = some (pure level)) ∧
    (∀ (params' : RawParams) (level' : LogLevel) (values : List String),
      params.lookup "verbosity" = some values → params'.lookup "verbosity" = some values →
      Config.SetVerbosity AtoiAndCheck params level
        = Config.SetVerbosity AtoiAndCheck params' level') := by
  refine ⟨?_, ?_, ?_, ?_⟩
  · intro first rest hk
    have h := setVerbosity_of_first AtoiAndCheck params "verbosity" first rest hk
    unfold Config.SetVerbosity
    simp only [hk]
    exact h
  · intro first rest hn hk
    have h := setVerbosity_of_first AtoiAndCheck params "verbose" first rest hk
    unfold Config.SetVerbosity
    simp only [hn, hk]
    exact h
  · intro hn hk
    unfold Config.SetVerbosity
    simp only [hn, hk]
  · intro params' level' values hk hk'
    unfold Config.SetVerbosity GetFirstValueAsInt
    simp only [hk, hk']

/-- C16, witness: `verbosity=-1` gives the level `Fatal` although `verbose` is not an
integer; `verbose=2` alone gives `Debug`; `verbosity=high` is fatal; without both keys the
level is unchanged. -/
theorem setVerbosity_outcome_witness :
    Config.SetVerbosity exampleAtoi [("verbose", ["loud"]), ("verbosity", ["-1", "2"])]
      LogLevel.Info = some (pure LogLevel.Fatal) ∧
    Config.SetVerbosity exampleAtoi [("verbose", ["2"])] LogLevel.Info
      = some (pure LogLevel.Debug) ∧
    VerbosityOutcome exampleAtoi "high"
      (Config.SetVerbosity exampleAtoi [("verbosity", ["high"])] LogLevel.Info) ∧
    exampleAtoi "high" = none ∧
    Config.SetVerbosity exampleAtoi [("num_leaves", ["7"])] LogLevel.Warning
      = some (pure LogLevel.Warning) :=
  ⟨by
      obtain ⟨run, hr, h1, _⟩ :=
        (setVerbosity_outcome exampleAtoi [("verbose", ["loud"]), ("verbosity", ["-1", "2"])]
          LogLevel.Info).1 "-1" ["2"] rfl
      rw [hr, h1 (-1) rfl (by decide)],
    by
      obtain ⟨run, hr, _, _, _, h4, _⟩ :=
        (setVerbosity_outcome exampleAtoi [("verbose", ["2"])] LogLevel.Info).2.1 "2" [] rfl rfl
      rw [hr, h4 2 rfl (by decide)],
    (setVerbosity_outcome exampleAtoi [("verbosity", ["high"])] LogLevel.Info).1 "high" [] rfl,
    rfl,
    (setVerbosity_outcome exampleAtoi [("num_leaves", ["7"])] LogLevel.Warning).2.2.1 rfl rfl⟩

/-! ## `KV2Map` -/

theorem pieces_length (delimiter : Char) (text current : List Char) :
    (Common.pieces delimiter text current).length = text.count delimiter + 1 := by
  induction text generalizing current with
  | nil => simp [Common.pieces]
  | cons ch rest ih =>
    unfold Common.pieces
    by_cases hc : ch = delimiter
    · simp [hc, ih]
    · have hne : (ch == delimiter) = false := by simpa using hc
      simp [hc, ih, List.count_cons, hne]

theorem Split_length_le (str : String) (delimiter : Char) :
    (Common.Split str delimiter).length ≤ str.data.count delimiter + 1 := by
  unfold Common.Split
  rw [List.length_map, ← pieces_length delimiter str.data []]
  exact List.length_filter_le _ _

/-- After `appendValue` the key is bound to its previous values followed by the new
one. -/
theorem appendValue_lookup (params : RawParams) (key value : String) :
    (appendValue params key value).lookup key
      = some ((params.lookup key).getD [] ++ [value]) := by
  induction params with
  | nil => simp [appendValue, List.lookup]
  | cons head rest ih =>
    obtain ⟨k, values⟩ := head
    rw [appendValue]
    by_cases hk : k = key
    · subst hk
      simp [List.lookup]
    · have hne : (key == k) = false := by
        rw [beq_eq_false_iff_ne]
        exact fun he => hk he.symm
      rw [if_neg hk, List.lookup_cons, List.lookup_cons, hne]
      exact ih

/-- The bindings of the other keys are not changed by `appendValue`. -/
theorem appendValue_lookup_other (params : RawParams) (key value other : String)
    (ho : other ≠ key) :
    (appendValue params key value).lookup other = params.lookup other := by
  induction params with
  | nil =>
    have hne : (other == key) = false := by rw [beq_eq_false_iff_ne]; exact ho
    simp [appendValue, List.lookup, hne]
  | cons head rest ih =>
    obtain ⟨k, values⟩ := head
    rw [appendValue]
    by_cases hk : k = key
    · subst hk
      have hne : (other == k) = false := by rw [beq_eq_false_iff_ne]; exact ho
      rw [if_pos rfl, List.lookup_cons, List.lookup_cons, hne]
    · rw [if_neg hk, List.lookup_cons, List.lookup_cons, ih]

/-- C17, counterexample: the token `a==b` has two `=` characters and is not dropped: the
key `a` receives the value `b` and no warning is logged. -/
theorem kv2map_double_equals_accepted :
    ("a==b" : String).data.count '=' = 2 ∧
      Config.KV2Map [] "a==b" = pure [("a", ["b"])] :=
  ⟨by decide, rfl⟩

/-- C17 (amended): `KV2Map` is never fatal. It logs its warning, once, exactly for the
tokens that `Split` breaks at `=` into no entry or into three or more entries; such a
token leaves the raw map unchanged, and with three or more entries it has more than one
`=`. A token with one or two entries logs nothing, however many `=` it has: with the key
read from the first entry (trimmed and unquoted) and the value read from the second (or
the empty text), a non-empty key gets the value appended to its values and the other
keys keep theirs, and an empty key leaves the raw map unchanged. -/
theorem kv2map_dropped_tokens (params : RawParams) (kv : String) :
    (∃ out, (Config.KV2Map params kv).res = Except.ok out) ∧
    ((Common.Split kv '=').length ≠ 1 → (Common.Split kv '=').length ≠ 2 →
      (Config.KV2Map params kv).res = Except.ok params ∧
      (Config.KV2Map params kv).log
        = [⟨LogLevel.Warning, "Unknown parameter %s", [LogArg.str kv]⟩]) ∧
    (3 ≤ (Common.Split kv '=').length → 1 < kv.data.count '=') ∧
    (((Common.Split kv '=').length = 1 ∨ (Common.Split kv '=').length = 2) →
      (Config.KV2Map params kv).log = []) ∧
    (∀ first rest value, Common.Split kv '=' = first :: rest → rest.length ≤ 1 →
      value = (rest.head?.map fun v => Common.RemoveQuotationSymbol (Common.Trim v)).getD "" →
      (Common.RemoveQuotationSymbol (Common.Trim first) ≠ "" →
        ∃ out, Config.KV2Map params kv = pure out ∧
          out.lookup (Common.RemoveQuotationSymbol (Common.Trim first))
            = some ((params.lookup (Common.RemoveQuotationSymbol (Common.Trim first))).getD []
                ++ [value]) ∧
          ∀ other, other ≠ Common.RemoveQuotationSymbol (Common.Trim first) →
            out.lookup other = params.lookup other) ∧
      (Common.RemoveQuotationSymbol (Common.Trim first) = "" →
        Config.KV2Map params kv = pure params)) := by
  have hle := Split_length_le kv '='
  unfold Config.KV2Map
  refine ⟨?_, ?_, ?_, ?_, ?_⟩
  · split <;> exact ⟨_, rfl⟩
  · intro h1 h2
    split
    · rename_i k hk
      rw [hk] at h1
      exact absurd rfl h1
    · rename_i k v hk
      rw [hk] at h2
      exact absurd rfl h2
    · exact ⟨rfl, rfl⟩
  · intro h3
    omega
  · intro h12
    split
    · rfl
    · rfl
    · rename_i hn1 hn2
      exfalso
      rcases h12 with h | h
      · match hs : Common.Split kv '=', h with
        | [k], _ => exact hn1 k hs
      · match hs : Common.Split kv '=', h with
        | [k, v], _ => exact hn2 k v hs
  · intro first rest value hs hr hvalue
    rw [hs]
    match rest, hr, hvalue with
    | [], _, hvalue =>
      have hval : value = "" := hvalue
      subst hval
      constructor
      · intro hkey
        refine ⟨appendValue params (Common.RemoveQuotationSymbol (Common.Trim first)) "", ?_,
          appendValue_lookup _ _ _, fun other ho => appendValue_lookup_other _ _ _ _ ho⟩
        show pure (storeKeyValue params first none) = _
        unfold storeKeyValue
        simp only [ne_eq, hkey, not_false_eq_true, if_true]
      · intro hkey
        show pure (storeKeyValue params first none) = _
        unfold storeKeyValue
        simp only [ne_eq, hkey, not_true_eq_false, if_false]
    | [v], _, hvalue =>
      have hval : value = Common.RemoveQuotationSymbol (Common.Trim v) := hvalue
      subst hval
      constructor
      · intro hkey
        refine ⟨appendValue params (Common.RemoveQuotationSymbol (Common.Trim first))
          (Common.RemoveQuotationSymbol (Common.Trim v)), ?_,
          appendValue_lookup _ _ _, fun other ho => appendValue_lookup_other _ _ _ _ ho⟩
        show pure (storeKeyValue params first (some v)) = _
        unfold storeKeyValue
        simp only [ne_eq, hkey, not_false_eq_true, if_true]
      · intro hkey
        show pure (storeKeyValue params first (some v)) = _
        unfold storeKeyValue
        simp only [ne_eq, hkey, not_true_eq_false, if_false]
    | _ :: _ :: _, hr, _ => simp at hr

/-- C17 (amended), witness: the token `a=b=c` has three entries and is dropped with one
warning; the token `a=b=` has two `=` and appends the value `b` to the values of `a`; the
token `\x27==b`, whose key is a lone quote, leaves the map unchanged without a
warning. -/
theorem kv2map_dropped_tokens_witness :
    (Common.Split "a=b=c" '=').length = 3 ∧
    ((Config.KV2Map [("a", ["1"])] "a=b=c").res = Except.ok [("a", ["1"])] ∧
      (Config.KV2Map [("a", ["1"])] "a=b=c").log
        = [⟨LogLevel.Warning, "Unknown parameter %s", [LogArg.str "a=b=c"]⟩]) ∧
    1 < ("a=b=c" : String).data.count '=' ∧
    (Common.Split "a=b=" '=').length = 2 ∧
    (Config.KV2Map [("a", ["1"])] "a=b=").log = [] ∧
    Config.KV2Map [("a", ["1"])] "a=b=" = pure [("a", ["1", "b"])] ∧
    (∃ out, Config.KV2Map [("a", ["1"])] "a=b=" = pure out ∧
      out.lookup "a" = some ["1", "b"] ∧
      ∀ other, other ≠ "a" → out.lookup other = List.lookup other [("a", ["1"])]) ∧
    Common.Split "\x27==b" '=' = ["\x27", "b"] ∧
    Config.KV2Map [("a", ["1"])] "\x27==b" = pure [("a", ["1"])] :=
  ⟨by decide,
    (kv2map_dropped_tokens [("a", ["1"])] "a=b=c").2.1 (by decide) (by decide),
    (kv2map_dropped_tokens [("a", ["1"])] "a=b=c").2.2.1 (by decide),
    by decide,
    (kv2map_dropped_tokens [("a", ["1"])] "a=b=").2.2.2.1 (Or.inr (by decide)),
    rfl,
    ((kv2map_dropped_tokens [("a", ["1"])] "a=b=").2.2.2.2 "a" ["b"] "b" (by decide)
      (by decide) (by decide)).1 (by decide),
    by decide,
    ((kv2map_dropped_tokens [("a", ["1"])] "\x27==b").2.2.2.2 "\x27" ["b"] "b" (by decide)
      (by decide) (by decide)).2 (by decide)⟩

/-! ## `GetAucMuWeights` -/

theorem Run.andThen_res_error {α β : Type} (x : Run α) (f : α → Run β) (e : LogMsg) :
    (x.andThen f).res = Except.error e ↔
      x.res = Except.error e ∨ ∃ a, x.res = Except.ok a ∧ (f a).res = Except.error e := by
  unfold Run.andThen
  cases hx : x.res with
  | error e1 => simp
  | ok a => simp

theorem mapList_res_ok {α β : Type} (f : α → Run β) (l : List α) (bs : List β) :
    (Run.mapList f l).res = Except.ok bs ↔
      bs.length = l.length ∧
        ∀ (i : Nat) (a : α), l[i]? = some a →
          ∃ b, (f a).res = Except.ok b ∧ bs[i]? = some b := by
  induction l generalizing bs with
  | nil =>
    unfold Run.mapList
    simp only [Run.res_pure, Except.ok.injEq, List.length_nil, List.getElem?_nil]
    constructor
    · intro h
      rw [← h]
      exact ⟨rfl, fun _ _ hh => by cases hh⟩
    · intro h
      exact (List.length_eq_zero.1 h.1).symm
  | cons a rest ih =>
    unfold Run.mapList
    simp only [Run.andThen_res_ok, Run.res_pure, Except.ok.injEq]
    constructor
    · rintro ⟨b, hb, bs1, hbs1, rfl⟩
      obtain ⟨hlen, hall⟩ := (ih bs1).1 hbs1
      refine ⟨by simp [hlen], ?_⟩
      intro i x hx
      cases i with
      | zero =>
        simp only [List.getElem?_cons_zero, Option.some.injEq] at hx
        subst hx
        exact ⟨b, hb, by simp⟩
      | succ k =>
        simp only [List.getElem?_cons_succ] at hx ⊢
        exact hall k x hx
    · rintro ⟨hlen, hall⟩
      cases bs with
      | nil => simp at hlen
      | cons b bs1 =>
        obtain ⟨b0, hb0, hget⟩ := hall 0 a (by simp)
        simp only [List.getElem?_cons_zero, Option.some.injEq] at hget
        subst hget
        refine ⟨b, hb0, bs1, ?_, rfl⟩
        rw [ih bs1]
        refine ⟨by simpa using hlen, ?_⟩
        intro i x hx
        have := hall (i + 1) x (by simpa using hx)
        simpa using this

theorem mapList_res_error {α β : Type} (f : α → Run β) (l : List α) :
    (∃ e, (Run.mapList f l).res = Except.error e) ↔
      ∃ a, a ∈ l ∧ ∃ e, (f a).res = Except.error e := by
  induction l with
  | nil =>
    unfold Run.mapList
    simp [Run.res_pure]
  | cons a rest ih =>
    unfold Run.mapList
    simp only [Run.andThen_res_error, Run.res_pure, List.mem_cons]
    constructor
    · rintro ⟨e, h | ⟨b, hb, h | ⟨bs, hbs, h⟩⟩⟩
      · exact ⟨a, Or.inl rfl, e, h⟩
      · obtain ⟨x, hx, hxe⟩ := ih.1 ⟨e, h⟩
        exact ⟨x, Or.inr hx, hxe⟩
      · cases h
    · rintro ⟨x, hx | hx, e, he⟩
      · subst hx
        exact ⟨e, Or.inl he⟩
      · cases hfa : (f a).res with
        | error e1 => exact ⟨e1, Or.inl rfl⟩
        | ok b =>
          obtain ⟨e2, he2⟩ := ih.2 ⟨x, hx, e, he⟩
          exact ⟨e2, Or.inr ⟨b, rfl, Or.inl he2⟩⟩

theorem mapList_range_ok {β : Type} (f : Nat → Run β) (n : Nat) (bs : List β) :
    (Run.mapList f (List.range n)).res = Except.ok bs ↔
      bs.length = n ∧ ∀ i, i < n → ∃ b, (f i).res = Except.ok b ∧ bs[i]? = some b := by
  rw [mapList_res_ok, List.length_range]
  constructor
  · rintro ⟨hlen, hall⟩
    exact ⟨hlen, fun i hi => hall i i (List.getElem?_range hi)⟩
  · rintro ⟨hlen, hall⟩
    refine ⟨hlen, ?_⟩
    intro i a ha
    have hi : i < n := by
      have := (List.getElem?_eq_some_iff.1 ha).1
      simpa using this
    rw [List.getElem?_range hi] at ha
    cases ha
    exact hall i hi

theorem mapList_range_error {β : Type} (f : Nat → Run β) (n : Nat) :
    (∃ e, (Run.mapList f (List.range n)).res = Except.error e) ↔
      ∃ i, i < n ∧ ∃ e, (f i).res = Except.error e := by
  rw [mapList_res_error]
  simp only [List.mem_range]

theorem aucMuEntry_ok (kZero : Double) (n : Nat) (w : List Double) (i j : Nat) (x : Double) :
    (aucMuEntry kZero n w i j).res = Except.ok x ↔
      (i = j ∧ x = Double.ofInt 0) ∨
      (i ≠ j ∧ Double.lt (Double.abs (w.getD (i * n + j) Double.nan)) kZero = false ∧
        x = w.getD (i * n + j) Double.nan) := by
  unfold aucMuEntry
  simp only [Run.andThen_res, apply_ite Run.res, Run.res_pure, Log.Info_res, Log.Fatal_res,
    Run.resBind_ok, ite_self]
  generalize w.getD (i * n + j) Double.nan = weight
  by_cases hij : i = j
  · rw [if_pos hij]
    constructor
    · intro h
      cases h
      exact Or.inl ⟨hij, rfl⟩
    · rintro (⟨_, hx⟩ | ⟨hne, _⟩)
      · rw [hx]
      · exact absurd hij hne
  · rw [if_neg hij]
    by_cases hlt : Double.lt (Double.abs weight) kZero = true
    · rw [if_pos hlt]
      constructor
      · intro h
        cases h
      · rintro (⟨he, _⟩ | ⟨_, hf, _⟩)
        · exact absurd he hij
        · rw [hlt] at hf
          cases hf
    · rw [if_neg hlt]
      constructor
      · intro h
        cases h
        exact Or.inr ⟨hij, by simpa using hlt, rfl⟩
      · rintro (⟨he, _⟩ | ⟨_, _, hx⟩)
        · exact absurd he hij
        · rw [hx]

theorem aucMuEntry_error (kZero : Double) (n : Nat) (w : List Double) (i j : Nat) :
    (∃ e, (aucMuEntry kZero n w i j).res = Except.error e) ↔
      i ≠ j ∧ Double.lt (Double.abs (w.getD (i * n + j) Double.nan)) kZero = true := by
  unfold aucMuEntry
  simp only [Run.andThen_res, apply_ite Run.res, Run.res_pure, Log.Info_res, Log.Fatal_res,
    Run.resBind_ok, ite_self]
  generalize w.getD (i * n + j) Double.nan = weight
  by_cases hij : i = j
  · rw [if_pos hij]
    constructor
    · rintro ⟨e, he⟩
      cases he
    · rintro ⟨hne, _⟩
      exact absurd hij hne
  · rw [if_neg hij]
    by_cases hlt : Double.lt (Double.abs weight) kZero = true
    · rw [if_pos hlt]
      exact ⟨fun _ => ⟨hij, hlt⟩, fun _ => ⟨_, rfl⟩⟩
    · rw [if_neg hlt]
      constructor
      · rintro ⟨e, he⟩
        cases he
      · rintro ⟨_, hf⟩
        exact absurd hf hlt

theorem toSizeT_natCast (n : Nat) (hn : n < 2 ^ 31) : toSizeT (n : Int) = n := by
  unfold toSizeT
  omega

theorem toSizeT_wrap_square (n : Nat) (hov : n * n < 2 ^ 31) :
    toSizeT (wrapInt32 ((n : Int) * (n : Int))) = n * n := by
  unfold toSizeT wrapInt32
  have h : ((n : Int) * (n : Int)) = ((n * n : Nat) : Int) := by push_cast; ring
  rw [h]
  generalize n * n = m at hov
  omega

theorem le_square (n : Nat) (hn : 1 ≤ n) : n ≤ n * n := Nat.le_mul_of_pos_left n hn

theorem index_lt_square (n i j : Nat) (hi : i < n) (hj : j < n) : i * n + j < n * n := by
  have h1 : i * n + n ≤ n * n := by
    have : (i + 1) * n ≤ n * n := Nat.mul_le_mul_right n hi
    linarith [Nat.succ_mul i n]
  omega

theorem ne_zero_of_not_below (kZero x : Double) (hz : Double.lt (Double.ofInt 0) kZero = true)
    (hx : Double.lt (Double.abs x) kZero = false) : Double.ne x (Double.ofInt 0) = true := by
  cases x with
  | nan => rfl
  | ninf => rfl
  | pinf => rfl
  | num q =>
    simp only [Double.ne, Double.eq, Double.ofInt, Bool.not_eq_true', decide_eq_false_iff_not]
    intro hq
    have h0 : Rat.ofInt 0 = (0 : ℚ) := rfl
    rw [hq, h0] at hx
    simp only [Double.abs, lt_self_iff_false, if_false] at hx
    rw [Double.ofInt, h0] at hz
    rw [hz] at hx
    cases hx

theorem GetAucMuWeights_empty (kZero : Double) (n : Nat) (hov : n * n < 2 ^ 31) (hn : 1 ≤ n) :
    Config.GetAucMuWeights kZero (n : Int) []
      = pure ((List.range n).map fun i =>
          (List.replicate n (Double.ofInt 1)).set i (Double.ofInt 0)) := by
  unfold Config.GetAucMuWeights
  rw [toSizeT_natCast n (by have := le_square n hn; omega)]
  simp

theorem GetAucMuWeights_supplied (kZero : Double) (n : Nat) (w : List Double)
    (hov : n * n < 2 ^ 31) (hn : 1 ≤ n) (hw : w ≠ []) :
    Config.GetAucMuWeights kZero (n : Int) w
      = if w.length ≠ n * n then
          Log.Fatal "auc_mu_weights must have %d elements, but found %zu"
            [LogArg.int (wrapInt32 ((n : Int) * (n : Int))), LogArg.size w.length]
        else
          Run.mapList
            (fun i => Run.mapList (fun j => aucMuEntry kZero n w i j) (List.range n))
            (List.range n) := by
  unfold Config.GetAucMuWeights
  rw [toSizeT_natCast n (by have := le_square n hn; omega), toSizeT_wrap_square n hov]
  simp only [hw, if_false]

theorem matrixEntry_of_row (M : List (List Double)) (row : List Double) (i j : Nat)
    (hr : M[i]? = some row) : matrixEntry M i j = row[j]? := by
  unfold matrixEntry
  rw [hr]
  rfl

/-- C14: when `GetAucMuWeights` returns for `num_class = n >= 1`, the matrix has `n` rows
of `n` entries, every diagonal entry is 0, and every off-diagonal entry `[i][j]` is
non-zero: it is 1 when the weight list is empty and the supplied value at `i * n + j`
otherwise. The hypothesis `n * n < 2 ^ 31` is the range in which the `int` product
`num_class * num_class` is defined; `0 < kZeroThreshold` is the sign of the constant. -/
theorem getAucMuWeights_matrix (kZeroThreshold : Double) (n : Nat) (w : List Double)
    (M : List (List Double)) (hn : 1 ≤ n) (hov : n * n < 2 ^ 31)
    (hz : Double.lt (Double.ofInt 0) kZeroThreshold = true)
    (h : (Config.GetAucMuWeights kZeroThreshold (n : Int) w).res = Except.ok M) :
    M.length = n ∧ (∀ row, row ∈ M → row.length = n) ∧
    (∀ i, i < n → matrixEntry M i i = some (Double.ofInt 0)) ∧
    (∀ i j, i < n → j < n → i ≠ j →
      ∃ x, matrixEntry M i j = some x ∧ Double.ne x (Double.ofInt 0) = true ∧
        (w = [] → x = Double.ofInt 1) ∧ (w ≠ [] → w[i * n + j]? = some x)) := by
  by_cases hw : w = []
  · subst hw
    rw [GetAucMuWeights_empty kZeroThreshold n hov hn, Run.res_pure] at h
    cases h
    have hrow : ∀ i, i < n →
        ((List.range n).map fun i =>
          (List.replicate n (Double.ofInt 1)).set i (Double.ofInt 0))[i]?
          = some ((List.replicate n (Double.ofInt 1)).set i (Double.ofInt 0)) := by
      intro i hi
      rw [List.getElem?_map, List.getElem?_range hi]
      rfl
    refine ⟨by simp, ?_, ?_, ?_⟩
    · intro row hrow
      simp only [List.mem_map, List.mem_range] at hrow
      obtain ⟨i, _, rfl⟩ := hrow
      simp
    · intro i hi
      rw [matrixEntry_of_row _ _ i i (hrow i hi), List.getElem?_set]
      simp [hi]
    · intro i j hi hj hij
      refine ⟨Double.ofInt 1, ?_, by decide, fun _ => rfl, fun hne => absurd rfl hne⟩
      rw [matrixEntry_of_row _ _ i j (hrow i hi), List.getElem?_set]
      simp [hij, hj]
  · rw [GetAucMuWeights_supplied kZeroThreshold n w hov hn hw] at h
    by_cases hlen : w.length ≠ n * n
    · rw [if_pos hlen] at h
      cases h
    · rw [if_neg hlen, mapList_range_ok] at h
      have hlen' : w.length = n * n := not_not.1 hlen
      obtain ⟨hM, hrows⟩ := h
      have hrow : ∀ i, i < n → ∃ row, M[i]? = some row ∧ row.length = n ∧
          ∀ j, j < n → ∃ x, (aucMuEntry kZeroThreshold n w i j).res = Except.ok x ∧
            row[j]? = some x := by
        intro i hi
        obtain ⟨row, hr, hget⟩ := hrows i hi
        rw [mapList_range_ok] at hr
        exact ⟨row, hget, hr.1, hr.2⟩
      refine ⟨hM, ?_, ?_, ?_⟩
      · intro row hmem
        obtain ⟨i, hi, hget⟩ := List.getElem_of_mem hmem
        obtain ⟨row1, hr1, hl1, _⟩ := hrow i (by omega)
        rw [List.getElem?_eq_getElem hi, hget] at hr1
        cases hr1
        exact hl1
      · intro i hi
        obtain ⟨row, hr, _, hent⟩ := hrow i hi
        obtain ⟨x, hx, hget⟩ := hent i hi
        rw [matrixEntry_of_row M row i i hr, hget]
        rcases (aucMuEntry_ok _ _ _ _ _ _).1 hx with ⟨_, h0⟩ | ⟨hne, _⟩
        · rw [h0]
        · exact absurd rfl hne
      · intro i j hi hj hij
        obtain ⟨row, hr, _, hent⟩ := hrow i hi
        obtain ⟨x, hx, hget⟩ := hent j hj
        refine ⟨x, ?_, ?_, fun he => absurd he hw, fun _ => ?_⟩
        · rw [matrixEntry_of_row M row i j hr, hget]
        · rcases (aucMuEntry_ok _ _ _ _ _ _).1 hx with ⟨he, _⟩ | ⟨_, hlt, hxv⟩
          · exact absurd he hij
          · rw [← hxv] at hlt
            exact ne_zero_of_not_below kZeroThreshold x hz hlt
        · rcases (aucMuEntry_ok _ _ _ _ _ _).1 hx with ⟨he, _⟩ | ⟨_, _, hxv⟩
          · exact absurd he hij
          · have hidx : i * n + j < w.length := by
              rw [hlen']
              exact index_lt_square n i j hi hj
            rw [hxv, List.getD_eq_getElem w Double.nan hidx, List.getElem?_eq_getElem hidx]

/-- C14, witness: three classes with the weight list `threeClassWeights`, whose first
diagonal value is 7, and two classes with an empty weight list. -/
theorem getAucMuWeights_matrix_witness :
    ((Config.GetAucMuWeights exampleZeroThreshold ((3 : Nat) : Int) threeClassWeights).res
        = Except.ok threeClassMatrix ∧
      threeClassMatrix.length = 3 ∧ (∀ row, row ∈ threeClassMatrix → row.length = 3) ∧
      (∀ i, i < 3 → matrixEntry threeClassMatrix i i = some (Double.ofInt 0)) ∧
      (∀ i j, i < 3 → j < 3 → i ≠ j →
        ∃ x, matrixEntry threeClassMatrix i j = some x ∧
          Double.ne x (Double.ofInt 0) = true ∧
          (threeClassWeights = [] → x = Double.ofInt 1) ∧
          (threeClassWeights ≠ [] → threeClassWeights[i * 3 + j]? = some x))) ∧
    ((Config.GetAucMuWeights exampleZeroThreshold ((2 : Nat) : Int) []).res
        = Except.ok [[Double.ofInt 0, Double.ofInt 1], [Double.ofInt 1, Double.ofInt 0]] ∧
      matrixEntry [[Double.ofInt 0, Double.ofInt 1], [Double.ofInt 1, Double.ofInt 0]] 0 1
        = some (Double.ofInt 1)) :=
  ⟨⟨rfl,
      getAucMuWeights_matrix exampleZeroThreshold 3 threeClassWeights threeClassMatrix
        (by decide) (by decide) (by decide) rfl⟩,
    ⟨rfl, by decide⟩⟩

/-- C15: for `num_class = n >= 1`, `GetAucMuWeights` is fatal exactly when the weight list
is not empty and either does not have `n * n` elements or has, at an off-diagonal
position `i * n + j`, a value whose magnitude is below `kZeroThreshold`; so an empty list
is never fatal and the diagonal values never are. The hypothesis `n * n < 2 ^ 31` is the
range in which the `int` product `num_class * num_class` is defined. -/
theorem getAucMuWeights_fatal_iff (kZeroThreshold : Double) (n : Nat) (w : List Double)
    (hn : 1 ≤ n) (hov : n * n < 2 ^ 31) :
    ((∃ e, (Config.GetAucMuWeights kZeroThreshold (n : Int) w).res = Except.error e) ↔
      (w ≠ [] ∧ (w.length ≠ n * n ∨
        ∃ i j, i < n ∧ j < n ∧ i ≠ j ∧
          ∃ x, w[i * n + j]? = some x ∧
            Double.lt (Double.abs x) kZeroThreshold = true))) ∧
    (w = [] → ∃ M, (Config.GetAucMuWeights kZeroThreshold (n : Int) w).res = Except.ok M) := by
  by_cases hw : w = []
  · subst hw
    rw [GetAucMuWeights_empty kZeroThreshold n hov hn, Run.res_pure]
    refine ⟨?_, fun _ => ⟨_, rfl⟩⟩
    constructor
    · rintro ⟨e, he⟩
      cases he
    · rintro ⟨hne, _⟩
      exact absurd rfl hne
  · rw [GetAucMuWeights_supplied kZeroThreshold n w hov hn hw]
    refine ⟨?_, fun he => absurd he hw⟩
    by_cases hlen : w.length ≠ n * n
    · rw [if_pos hlen]
      exact ⟨fun _ => ⟨hw, Or.inl hlen⟩, fun _ => ⟨_, rfl⟩⟩
    · rw [if_neg hlen, mapList_range_error]
      have hlen' : w.length = n * n := not_not.1 hlen
      constructor
      · rintro ⟨i, hi, herr⟩
        rw [mapList_range_error] at herr
        obtain ⟨j, hj, hent⟩ := herr
        obtain ⟨hij, hlt⟩ := (aucMuEntry_error _ _ _ _ _).1 hent
        have hidx : i * n + j < w.length := by
          rw [hlen']
          exact index_lt_square n i j hi hj
        rw [List.getD_eq_getElem w Double.nan hidx] at hlt
        exact ⟨hw, Or.inr ⟨i, j, hi, hj, hij, w[i * n + j], List.getElem?_eq_getElem hidx, hlt⟩⟩
      · rintro ⟨_, hsize | ⟨i, j, hi, hj, hij, x, hx, hlt⟩⟩
        · exact absurd hsize hlen
        · refine ⟨i, hi, ?_⟩
          rw [mapList_range_error]
          refine ⟨j, hj, (aucMuEntry_error _ _ _ _ _).2 ⟨hij, ?_⟩⟩
          have hidx : i * n + j < w.length := (List.getElem?_eq_some_iff.1 hx).1
          rw [List.getD_eq_getElem w Double.nan hidx]
          have hxe : w[i * n + j] = x := by
            have := (List.getElem?_eq_some_iff.1 hx).2
            exact this
          rw [hxe]
          exact hlt

/-- C15, witness: for two classes, a list of three weights and a list with a zero at an
off-diagonal position are fatal; the empty list and a list with non-zero values on the
diagonal are not. -/
theorem getAucMuWeights_fatal_iff_witness :
    (∃ e, (Config.GetAucMuWeights exampleZeroThreshold ((2 : Nat) : Int)
        [Double.num 0, Double.num 1, Double.num 2]).res = Except.error e) ∧
    (∃ e, (Config.GetAucMuWeights exampleZeroThreshold ((2 : Nat) : Int)
        [Double.num 0, Double.num 1, Double.num 0, Double.num 0]).res = Except.error e) ∧
    (∃ M, (Config.GetAucMuWeights exampleZeroThreshold ((2 : Nat) : Int) []).res
        = Except.ok M) ∧
    (Config.GetAucMuWeights exampleZeroThreshold ((2 : Nat) : Int)
        [Double.num 9, Double.num 1, Double.num 2, Double.num 9]).res
      = Except.ok [[Double.ofInt 0, Double.num 1], [Double.num 2, Double.ofInt 0]] :=
  ⟨(getAucMuWeights_fatal_iff exampleZeroThreshold 2
      [Double.num 0, Double.num 1, Double.num 2] (by decide) (by decide)).1.2
      ⟨by decide, Or.inl (by decide)⟩,
    (getAucMuWeights_fatal_iff exampleZeroThreshold 2
      [Double.num 0, Double.num 1, Double.num 0, Double.num 0] (by decide) (by decide)).1.2
      ⟨by decide, Or.inr ⟨1, 0, by decide, by decide, by decide, Double.num 0, rfl,
        by decide⟩⟩,
    (getAucMuWeights_fatal_iff exampleZeroThreshold 2 [] (by decide) (by decide)).2 rfl,
    rfl⟩

/-! ## The text of `ToString` read by `Str2Map` -/

theorem piecesOf_clean (delimiters : List Char) (text current : List Char)
    (h : ∀ ch, ch ∈ text → ch ∉ delimiters) :
    Common.piecesOf delimiters text current = [current ++ text] := by
  induction text generalizing current with
  | nil => simp [Common.piecesOf]
  | cons ch rest ih =>
    have hch : ch ∉ delimiters := h ch (List.mem_cons_self _ _)
    rw [Common.piecesOf, if_neg hch, ih _ (fun x hx => h x (List.mem_cons_of_mem _ hx))]
    simp

theorem piecesOf_append (delimiters : List Char) (text rest current : List Char) (d : Char)
    (h : ∀ ch, ch ∈ text → ch ∉ delimiters) (hd : d ∈ delimiters) :
    Common.piecesOf delimiters (text ++ d :: rest) current
      = (current ++ text) :: Common.piecesOf delimiters rest [] := by
  induction text generalizing current with
  | nil => simp [Common.piecesOf, hd]
  | cons ch more ih =>
    have hch : ch ∉ delimiters := h ch (List.mem_cons_self _ _)
    rw [List.cons_append, Common.piecesOf, if_neg hch,
      ih _ (fun x hx => h x (List.mem_cons_of_mem _ hx))]
    simp

theorem pieces_clean (delimiter : Char) (text current : List Char)
    (h : ∀ ch, ch ∈ text → ch ≠ delimiter) :
    Common.pieces delimiter text current = [current ++ text] := by
  induction text generalizing current with
  | nil => simp [Common.pieces]
  | cons ch rest ih =>
    have hch : ch ≠ delimiter := h ch (List.mem_cons_self _ _)
    rw [Common.pieces, if_neg hch, ih _ (fun x hx => h x (List.mem_cons_of_mem _ hx))]
    simp

/-- A text without the delimiter is its own and only entry. -/
theorem Split_clean (text : List Char) (delimiter : Char)
    (h : ∀ ch, ch ∈ text → ch ≠ delimiter) (hne : text ≠ []) :
    Common.Split (String.mk text) delimiter = [String.mk text] := by
  unfold Common.Split
  rw [pieces_clean delimiter text [] h]
  simp [hne]

theorem dropWhile_blank_clean (text : List Char)
    (h : ∀ ch, ch ∈ text → Common.isBlank ch = false) :
    text.dropWhile Common.isBlank = text := by
  cases text with
  | nil => rfl
  | cons ch rest => rw [List.dropWhile_cons, h ch (List.mem_cons_self _ _)]; rfl

/-- A text without a blank character is not changed by `Trim`. -/
theorem Trim_clean (text : List Char) (h : ∀ ch, ch ∈ text → Common.isBlank ch = false) :
    Common.Trim (String.mk text) = String.mk text := by
  unfold Common.Trim
  have h1 : (String.mk text).data = text := rfl
  rw [h1, dropWhile_blank_clean text h,
    dropWhile_blank_clean text.reverse (fun ch hch => h ch (List.mem_reverse.1 hch)),
    List.reverse_reverse]

theorem dropQuote_head (text : List Char) (h : text.head? = some '[') :
    Common.dropQuote text = text := by
  cases text with
  | nil => rfl
  | cons ch rest =>
    have hch : ch = '[' := by simpa using h
    subst hch
    rfl

theorem dropQuote_last (text : List Char) (h : text.getLast? = some ']') :
    (Common.dropQuote text).getLast? = some ']' := by
  cases text with
  | nil => simp at h
  | cons ch rest =>
    rw [Common.dropQuote]
    by_cases hq : Common.isQuote ch = true
    · rw [if_pos hq]
      cases rest with
      | nil =>
        have hch : ch = ']' := by simpa using h
        subst hch
        exact absurd hq (by decide)
      | cons next more => simpa [List.getLast?_cons_cons] using h
    · rw [if_neg hq]
      exact h

theorem head_reverse_dropQuote_reverse (text : List Char) (h : text.head? = some '[') :
    (Common.dropQuote text.reverse).reverse.head? = some '[' := by
  cases text with
  | nil => simp at h
  | cons ch rest =>
    have hch : ch = '[' := by simpa using h
    subst hch
    cases hr : rest.reverse with
    | nil =>
      have : rest = [] := by simpa using hr
      subst this
      rfl
    | cons last init =>
      rw [List.reverse_cons, hr]
      unfold Common.dropQuote
      simp only [List.cons_append]
      split_ifs <;> simp

/-- The key that `KV2Map` stores for a bracketed text is bracketed. -/
theorem RemoveQuotationSymbol_bracketed (text : List Char) (h : Bracketed (String.mk text)) :
    Bracketed (Common.RemoveQuotationSymbol (String.mk text)) := by
  unfold Bracketed Common.RemoveQuotationSymbol at *
  have h1 : (String.mk text).data = text := rfl
  rw [h1] at h
  rw [h1]
  show ((Common.dropQuote (Common.dropQuote text).reverse).reverse).head? = some '[' ∨
    ((Common.dropQuote (Common.dropQuote text).reverse).reverse).getLast? = some ']'
  rcases h with h | h
  · left
    rw [dropQuote_head text h]
    exact head_reverse_dropQuote_reverse text h
  · right
    have h2 := dropQuote_last text h
    have h3 : (Common.dropQuote text).reverse.head? = some ']' := by
      rw [List.head?_reverse]; exact h2
    rw [List.getLast?_reverse]
    cases hr : (Common.dropQuote text).reverse with
    | nil => rw [hr] at h3; simp at h3
    | cons ch rest =>
      rw [hr] at h3
      have hch : ch = ']' := by simpa using h3
      subst hch
      rfl

theorem Bracketed_ne_empty (key : String) (h : Bracketed key) : key ≠ "" := by
  intro he
  subst he
  revert h
  unfold Bracketed
  decide

/-- A token of a dump is stored by `KV2Map` as a bracketed key with the empty value. -/
theorem KV2Map_dumpToken (params : RawParams) (token : String) (h : DumpToken token) :
    ∃ key, Bracketed key ∧
      Config.KV2Map params (Common.Trim token) = pure (appendValue params key "") := by
  obtain ⟨hs, hb⟩ := h
  have hmk : token = String.mk token.data := rfl
  have hne : token.data ≠ [] := by
    intro he
    apply Bracketed_ne_empty token hb
    rw [hmk, he]
  have htrim : Common.Trim token = token := by
    rw [hmk]
    exact Trim_clean token.data (fun ch hch => (hs ch hch).2)
  have hsplit : Common.Split token '=' = [token] := by
    rw [hmk]
    exact Split_clean token.data '=' (fun ch hch => (hs ch hch).1) hne
  have hkey : Bracketed (Common.RemoveQuotationSymbol token) := by
    rw [hmk]
    exact RemoveQuotationSymbol_bracketed token.data hb
  refine ⟨Common.RemoveQuotationSymbol token, hkey, ?_⟩
  rw [htrim]
  unfold Config.KV2Map
  rw [hsplit]
  show pure (storeKeyValue params token none) = _
  unfold storeKeyValue
  rw [htrim]
  simp only [ne_eq, Bracketed_ne_empty _ hkey, not_false_eq_true, if_true]

theorem appendValue_dump (params : RawParams) (key value : String)
    (h : DumpRawParams params) (hk : Bracketed key) :
    DumpRawParams (appendValue params key value) := by
  induction params with
  | nil =>
    intro entry he
    simp only [appendValue, List.mem_singleton] at he
    subst he
    exact ⟨hk, by simp⟩
  | cons head rest ih =>
    obtain ⟨k, values⟩ := head
    have hrest : DumpRawParams rest := fun e he => h e (List.mem_cons_of_mem _ he)
    have hhead := h (k, values) (List.mem_cons_self _ _)
    unfold appendValue
    by_cases hkk : k = key
    · rw [if_pos hkk]
      intro entry he
      rcases List.mem_cons.1 he with he | he
      · subst he
        exact ⟨hhead.1, by simp⟩
      · exact hrest entry he
    · rw [if_neg hkk]
      intro entry he
      rcases List.mem_cons.1 he with he | he
      · subst he
        exact hhead
      · exact ih hrest entry he

/-- The loop of `Str2Map` over the tokens of a dump logs nothing and gives the raw map of
a dump. -/
theorem Str2MapLoop_dump (tokens : List String) (params : RawParams)
    (ht : ∀ token, token ∈ tokens → DumpToken token) (hp : DumpRawParams params) :
    ∃ out, DumpRawParams out ∧ Str2MapLoop tokens params = pure out := by
  induction tokens generalizing params with
  | nil => exact ⟨params, hp, rfl⟩
  | cons token rest ih =>
    obtain ⟨key, hk, hkv⟩ := KV2Map_dumpToken params token (ht token (List.mem_cons_self _ _))
    obtain ⟨out, ho, hout⟩ := ih (appendValue params key "")
      (fun t htk => ht t (List.mem_cons_of_mem _ htk)) (appendValue_dump params key "" hp hk)
    refine ⟨out, ho, ?_⟩
    unfold Str2MapLoop
    rw [hkv, Run.pure_andThen, hout]

theorem lookup_dumpRawParams (params : RawParams) (name : String)
    (h : DumpRawParams params) (hn : ¬ Bracketed name) : params.lookup name = none := by
  induction params with
  | nil => rfl
  | cons head rest ih =>
    obtain ⟨k, values⟩ := head
    have hk : Bracketed k := (h (k, values) (List.mem_cons_self _ _)).1
    have hne : (name == k) = false := by
      rw [beq_eq_false_iff_ne]
      intro he
      exact hn (he ▸ hk)
    rw [List.lookup_cons, hne]
    exact ih (fun e he => h e (List.mem_cons_of_mem _ he))

theorem lookup_dumpParams (params : Params) (name : String)
    (h : DumpParams params) (hn : ¬ Bracketed name) : params.lookup name = none := by
  induction params with
  | nil => rfl
  | cons head rest ih =>
    obtain ⟨k, value⟩ := head
    have hk : Bracketed k := h (k, value) (List.mem_cons_self _ _)
    have hne : (name == k) = false := by
      rw [beq_eq_false_iff_ne]
      intro he
      exact hn (he ▸ hk)
    rw [List.lookup_cons, hne]
    exact ih (fun e he => h e (List.mem_cons_of_mem _ he))

theorem emplace_dump (out : Params) (name value : String) (h : DumpParams out)
    (hn : Bracketed name) : DumpParams (emplace out name value) := by
  unfold emplace
  split
  · exact h
  · intro entry he
    rcases List.mem_append.1 he with he | he
    · exact h entry he
    · simp only [List.mem_singleton] at he
      subst he
      exact hn

/-- The map that `KeepFirstValues` makes of the raw map of a dump is the map of a dump. -/
theorem KeepFirstValues_dump (params : RawParams) (out : Params)
    (h : DumpRawParams params) (ho : DumpParams out) :
    ∃ result log, DumpParams result ∧ Config.KeepFirstValues params out = some (result, log) := by
  induction params generalizing out with
  | nil => exact ⟨out, [], ho, rfl⟩
  | cons head rest ih =>
    obtain ⟨name, values⟩ := head
    obtain ⟨hk, hv⟩ := h (name, values) (List.mem_cons_self _ _)
    cases values with
    | nil => exact absurd rfl hv
    | cons first later =>
      obtain ⟨result, log, hr, hres⟩ := ih (emplace out name first)
        (fun e he => h e (List.mem_cons_of_mem _ he)) (emplace_dump out name first ho hk)
      refine ⟨result, ignoredWarnings name first later ++ log, hr, ?_⟩
      rw [Config.KeepFirstValues]
      simp only [hres]

/-- A table without a bracketed alias leaves the map of a dump as it is. -/
theorem KeyAliasTransform_dump (aliases : List (String × String)) (params : Params)
    (h : DumpParams params) (ha : ∀ key, Bracketed key → aliases.lookup key = none) :
    ParameterAlias.KeyAliasTransform aliases params = params := by
  unfold ParameterAlias.KeyAliasTransform
  induction params with
  | nil => rfl
  | cons head rest ih =>
    rw [List.map_cons, ih (fun e he => h e (List.mem_cons_of_mem _ he)),
      ha head.1 (h head (List.mem_cons_self _ _))]
    rfl

theorem not_delimiter_of_not_blank (ch : Char) (h : Common.isBlank ch = false) :
    ch ∉ (" \t\n\r" : String).data := by
  intro hmem
  have hd : (" \t\n\r" : String).data = [' ', '\t', '\n', '\r'] := rfl
  rw [hd] at hmem
  simp only [List.mem_cons, List.mem_singleton, List.not_mem_nil, or_false] at hmem
  rcases hmem with he | he | he | he <;> subst he <;> revert h <;> decide

theorem ToString_data (fields : List Field) (c : Config) :
    (Config.ToString fields c).data
      = dumpLine "boosting".data c.boosting.data
        (dumpLine "objective".data c.objective.data
          (dumpLine "metric".data (Common.Join c.metric ",").data
            (dumpLine "tree_learner".data c.tree_learner.data
              (dumpLine "device_type".data c.device_type.data
                (Config.SaveMembersToString fields c).data)))) := by
  simp only [Config.ToString, String.data_append, dumpLine, List.append_assoc]
  rfl

theorem SaveMembersToString_data (field : Field) (rest : List Field) (c : Config) :
    (Config.SaveMembersToString (field :: rest) c).data
      = dumpLine field.name.data (field.render c).data
        (Config.SaveMembersToString rest c).data := by
  simp only [Config.SaveMembersToString, String.data_append, dumpLine, List.append_assoc]
  rfl

theorem DumpText_nil : DumpText [] := by
  intro piece hp
  simp [Common.piecesOf] at hp

/-- The tokens of a line `[name: value]` are `[name:` and `value]`. -/
theorem tokens_dumpLine (name value rest : List Char)
    (hn : ∀ ch, ch ∈ name → Common.isBlank ch = false)
    (hv : ∀ ch, ch ∈ value → Common.isBlank ch = false) :
    (Common.piecesOf (" \t\n\r" : String).data (dumpLine name value rest) []).filter
        (fun piece => decide (piece ≠ []))
      = ('[' :: (name ++ [':'])) :: (value ++ [']']) ::
        (Common.piecesOf (" \t\n\r" : String).data rest []).filter
          (fun piece => decide (piece ≠ [])) := by
  have h1 : dumpLine name value rest
      = ('[' :: (name ++ [':'])) ++ ' ' :: ((value ++ [']']) ++ '\n' :: rest) := by
    simp [dumpLine]
  have hc1 : ∀ ch, ch ∈ '[' :: (name ++ [':']) → ch ∉ (" \t\n\r" : String).data := by
    intro ch hch
    rcases List.mem_cons.1 hch with he | he
    · subst he; decide
    · rcases List.mem_append.1 he with he | he
      · exact not_delimiter_of_not_blank ch (hn ch he)
      · simp only [List.mem_singleton] at he
        subst he; decide
  have hc2 : ∀ ch, ch ∈ value ++ [']'] → ch ∉ (" \t\n\r" : String).data := by
    intro ch hch
    rcases List.mem_append.1 hch with he | he
    · exact not_delimiter_of_not_blank ch (hv ch he)
    · simp only [List.mem_singleton] at he
      subst he; decide
  rw [h1, piecesOf_append _ _ _ _ ' ' hc1 (by decide),
    piecesOf_append _ _ _ _ '\n' hc2 (by decide)]
  simp

theorem DumpText_dumpLine (name value rest : List Char)
    (hn : TokenSafe (String.mk name)) (hv : TokenSafe (String.mk value))
    (hr : DumpText rest) : DumpText (dumpLine name value rest) := by
  intro piece hp
  rw [tokens_dumpLine name value rest (fun ch hch => (hn ch hch).2)
    (fun ch hch => (hv ch hch).2)] at hp
  rcases List.mem_cons.1 hp with he | hp
  · subst he
    refine ⟨?_, Or.inl rfl⟩
    intro ch hch
    rcases List.mem_cons.1 hch with he | he
    · subst he; decide
    · rcases List.mem_append.1 he with he | he
      · exact hn ch he
      · simp only [List.mem_singleton] at he
        subst he; decide
  · rcases List.mem_cons.1 hp with he | hp
    · subst he
      refine ⟨?_, Or.inr ?_⟩
      · intro ch hch
        rcases List.mem_append.1 hch with he | he
        · exact hv ch he
        · simp only [List.mem_singleton] at he
          subst he; decide
      · show (value ++ [']']).getLast? = some ']'
        simp
    · exact hr piece hp

theorem Join_safe (strs : List String) (h : ∀ str, str ∈ strs → TokenSafe str) :
    TokenSafe (Common.Join strs ",") := by
  induction strs with
  | nil => intro ch hch; simp [Common.Join] at hch
  | cons str rest ih =>
    cases rest with
    | nil => exact h str (List.mem_cons_self _ _)
    | cons next more =>
      have hrest := ih (fun s hs => h s (List.mem_cons_of_mem _ hs))
      intro ch hch
      rw [Common.Join, String.data_append, String.data_append] at hch
      rcases List.mem_append.1 hch with he | he
      · rcases List.mem_append.1 he with he | he
        · exact h str (List.mem_cons_self _ _) ch he
        · have hcomma : ch = ',' := by simpa using he
          subst hcomma; decide
      · exact hrest ch he

theorem DumpText_SaveMembersToString (fields : List Field) (c : Config)
    (hf : ∀ field, field ∈ fields → TokenSafe field.name ∧ TokenSafe (field.render c)) :
    DumpText (Config.SaveMembersToString fields c).data := by
  induction fields with
  | nil => exact DumpText_nil
  | cons field rest ih =>
    rw [SaveMembersToString_data]
    exact DumpText_dumpLine _ _ _ (hf field (List.mem_cons_self _ _)).1
      (hf field (List.mem_cons_self _ _)).2 (ih (fun f hfm => hf f (List.mem_cons_of_mem _ hfm)))

/-- Every token that `Str2Map` reads in the text of `ToString` is the token of a dump. -/
theorem DumpText_ToString (fields : List Field) (c : Config)
    (hb : TokenSafe c.boosting) (ho : TokenSafe c.objective)
    (hm : ∀ m, m ∈ c.metric → TokenSafe m) (ht : TokenSafe c.tree_learner)
    (hd : TokenSafe c.device_type)
    (hf : ∀ field, field ∈ fields → TokenSafe field.name ∧ TokenSafe (field.render c)) :
    DumpText (Config.ToString fields c).data := by
  rw [ToString_data]
  refine DumpText_dumpLine _ _ _ (by decide) hb ?_
  refine DumpText_dumpLine _ _ _ (by decide) ho ?_
  refine DumpText_dumpLine _ _ _ (by decide) (Join_safe c.metric hm) ?_
  refine DumpText_dumpLine _ _ _ (by decide) ht ?_
  refine DumpText_dumpLine _ _ _ (by decide) hd ?_
  exact DumpText_SaveMembersToString fields c hf

/-- Reading the text of `ToString`, `Str2Map` returns without a fatal error, leaves the
logging threshold, and gives a map in which every key is bracketed. -/
theorem Str2Map_ToString (AtoiAndCheck : String → Option Int)
    (aliases : List (String × String)) (level : LogLevel) (fields : List Field) (c : Config)
    (hb : TokenSafe c.boosting) (ho : TokenSafe c.objective)
    (hm : ∀ m, m ∈ c.metric → TokenSafe m) (ht : TokenSafe c.tree_learner)
    (hd : TokenSafe c.device_type)
    (hf : ∀ field, field ∈ fields → TokenSafe field.name ∧ TokenSafe (field.render c))
    (ha : ∀ key, Bracketed key → aliases.lookup key = none) :
    ∃ log params, DumpParams params ∧
      Config.Str2Map AtoiAndCheck aliases level (Config.ToString fields c)
        = some ⟨log, Except.ok (level, params)⟩ := by
  have htext := DumpText_ToString fields c hb ho hm ht hd hf
  have htokens : ∀ token,
      token ∈ Common.SplitDelimiters (Config.ToString fields c) " \t\n\r" →
        DumpToken token := by
    intro token hmem
    unfold Common.SplitDelimiters at hmem
    obtain ⟨piece, hp, he⟩ := List.mem_map.1 hmem
    subst he
    exact htext piece hp
  obtain ⟨raw, hraw, hloop⟩ := Str2MapLoop_dump _ [] htokens
    (fun e he => absurd he (List.not_mem_nil e))
  have hv : Config.SetVerbosity AtoiAndCheck raw level = some (pure level) := by
    unfold Config.SetVerbosity
    simp only [lookup_dumpRawParams raw "verbosity" hraw (by decide),
      lookup_dumpRawParams raw "verbose" hraw (by decide)]
  obtain ⟨params, warnings, hparams, hkeep⟩ := KeepFirstValues_dump raw [] hraw
    (fun e he => absurd he (List.not_mem_nil e))
  refine ⟨warnings, params, hparams, ?_⟩
  unfold Config.Str2Map
  simp only [hloop, Run.res_pure, Run.log_pure, hv, hkeep,
    KeyAliasTransform_dump aliases params hparams ha, List.nil_append]

theorem GetString_unbound (params : Params) (name : String)
    (h : params.lookup name = none) : Config.GetString params name = Config.GetString [] name := by
  unfold Config.GetString
  rw [h]
  rfl

theorem coupleDepthLeaves_unbound (params : Params)
    (h : params.lookup "num_leaves" = none) :
    coupleDepthLeaves params = coupleDepthLeaves [] := by
  funext c
  unfold coupleDepthLeaves absentOrEmpty
  rw [h]
  rfl

theorem Set_tail_unbound (kEpsilon : Double) (params : Params) (c : Config)
    (h : params.lookup "num_leaves" = none) :
    Config.Set_tail kEpsilon params c = Config.Set_tail kEpsilon [] c := by
  unfold Config.Set_tail Config.CheckParamConflict
  rw [coupleDepthLeaves_unbound params h]

theorem Set_enumerators_unbound (ParseObjectiveAlias : String → Run String)
    (ParseMetricAlias : String → String) (params : Params) (c : Config)
    (h : ∀ name, ¬ Bracketed name → params.lookup name = none) :
    Config.Set_enumerators ParseObjectiveAlias ParseMetricAlias params c
      = Config.Set_enumerators ParseObjectiveAlias ParseMetricAlias [] c := by
  unfold Config.Set_enumerators GetTaskType GetBoostingType GetDataSampleStrategy
    GetObjectiveType GetDeviceType GetTreeLearnerType GetMetricType
  rw [GetString_unbound params "task" (h _ (by decide)),
    GetString_unbound params "boosting" (h _ (by decide)),
    GetString_unbound params "data_sample_strategy" (h _ (by decide)),
    GetString_unbound params "objective" (h _ (by decide)),
    GetString_unbound params "device_type" (h _ (by decide)),
    GetString_unbound params "tree_learner" (h _ (by decide)),
    GetString_unbound params "metric" (h _ (by decide))]

theorem GetMembersFromString_unbound (fields : List Field) (params : Params) (c : Config)
    (h : ∀ field, field ∈ fields → params.lookup field.name = none) :
    Config.GetMembersFromString fields params c = Config.GetMembersFromString fields [] c := by
  induction fields with
  | nil => rfl
  | cons field rest ih =>
    rw [Config.GetMembersFromString, h field (List.mem_cons_self _ _)]
    rw [Config.GetMembersFromString]
    exact ih (fun f hf => h f (List.mem_cons_of_mem _ hf))

/-- With a map that binds no key but bracketed ones, `Config::Set` does what it does with
the empty map. -/
theorem Set_unbound (AtoiAndCheck : String → Option Int)
    (ParseObjectiveAlias : String → Run String) (ParseMetricAlias : String → String)
    (kEpsilon : Double) (fields : List Field) (params : Params) (c : Config)
    (h : ∀ name, ¬ Bracketed name → params.lookup name = none)
    (hf : ∀ field, field ∈ fields → ¬ Bracketed field.name) :
    Config.Set AtoiAndCheck ParseObjectiveAlias ParseMetricAlias kEpsilon fields params c
      = Config.Set AtoiAndCheck ParseObjectiveAlias ParseMetricAlias kEpsilon fields [] c := by
  unfold Config.Set
  have hseeds : Config.Set_seeds AtoiAndCheck params = Config.Set_seeds AtoiAndCheck [] := by
    unfold Config.Set_seeds Config.GetInt
    rw [h "seed" (by decide)]
    rfl
  have hmembers : ∀ c1, Config.GetMembersFromString fields params c1
      = Config.GetMembersFromString fields [] c1 :=
    fun c1 => GetMembersFromString_unbound fields params c1 (fun f hfm => h _ (hf f hfm))
  have htail : ∀ c1, Config.Set_tail kEpsilon params c1 = Config.Set_tail kEpsilon [] c1 :=
    fun c1 => Set_tail_unbound kEpsilon params c1 (h _ (by decide))
  rw [hseeds, Set_enumerators_unbound ParseObjectiveAlias ParseMetricAlias params c h]
  simp only [hmembers, htail]

/-- C18, counterexample: the configuration built from `boosting=dart data=train.txt` is
not recovered from its own dump. The dump has no `key=value` token, and the build from it
returns the configuration of the empty text, with `boosting = "gbdt"` and no `data`. -/
theorem toString_not_read_back :
    Config.build exampleCollaborators LogLevel.Info "boosting=dart data=train.txt"
      = some (pure dartOnTrain) ∧
    Config.ToString exampleCollaborators.fields dartOnTrain
      = "[boosting: dart]\n[objective: regression]\n[metric: regression]\n[tree_learner: serial]\n[device_type: cpu]\n[data: train.txt]\n[forcedsplits_filename: ]\n[monotone_constraints_method: basic]\n" ∧
    (∃ log, Config.build exampleCollaborators LogLevel.Info
        (Config.ToString exampleCollaborators.fields dartOnTrain)
      = some ⟨log, Except.ok builtFromNothing⟩) ∧
    builtFromNothing ≠ dartOnTrain ∧
    builtFromNothing.boosting = "gbdt" ∧ dartOnTrain.boosting = "dart" ∧
    builtFromNothing.data = "" ∧ dartOnTrain.data = "train.txt" :=
  ⟨rfl, rfl, ⟨_, rfl⟩, by decide, rfl, rfl, rfl, rfl⟩

/-- C18 (amended): for a configuration `c` whose headline values, declared field names and
rendered field values have no `=` and no blank character, with declared names and key
aliases that are not bracketed: `Str2Map` reads the text of `ToString` without a fatal
error into a map whose keys all start with `[` or end with `]`, so that no other key is
bound, and the build from that text has the outcome of the build from the empty text,
whatever `c` holds. -/
theorem toString_builds_as_empty_text (env : Collaborators) (level : LogLevel) (c : Config)
    (hb : TokenSafe c.boosting) (ho : TokenSafe c.objective)
    (hm : ∀ m, m ∈ c.metric → TokenSafe m) (ht : TokenSafe c.tree_learner)
    (hd : TokenSafe c.device_type)
    (hf : ∀ field, field ∈ env.fields →
      TokenSafe field.name ∧ TokenSafe (field.render c) ∧ ¬ Bracketed field.name)
    (ha : ∀ key, Bracketed key → env.keyAliases.lookup key = none) :
    (∃ log params,
      Config.Str2Map env.AtoiAndCheck env.keyAliases level (Config.ToString env.fields c)
        = some ⟨log, Except.ok (level, params)⟩ ∧
      (∀ entry, entry ∈ params → Bracketed entry.1) ∧
      ∀ name, ¬ Bracketed name → params.lookup name = none) ∧
    ∃ rebuilt empty,
      Config.build env level (Config.ToString env.fields c) = some rebuilt ∧
      Config.build env level "" = some empty ∧
      rebuilt.res = empty.res := by
  obtain ⟨log, params, hparams, hmap⟩ :=
    Str2Map_ToString env.AtoiAndCheck env.keyAliases level env.fields c hb ho hm ht hd
      (fun f hfm => ⟨(hf f hfm).1, (hf f hfm).2.1⟩) ha
  have hnone : ∀ name, ¬ Bracketed name → params.lookup name = none :=
    fun name hn => lookup_dumpParams params name hparams hn
  refine ⟨⟨log, params, hmap, hparams, hnone⟩, ?_⟩
  refine ⟨Run.andThen (⟨log, Except.ok (level, params)⟩ : Run (LogLevel × Params))
      (fun result => Config.Set env.AtoiAndCheck env.ParseObjectiveAlias
        env.ParseMetricAlias env.kEpsilon env.fields result.2 env.defaults),
    Config.Set env.AtoiAndCheck env.ParseObjectiveAlias env.ParseMetricAlias env.kEpsilon
      env.fields [] env.defaults, ?_, ?_, ?_⟩
  · unfold Config.build
    rw [hmap]
    rfl
  · rfl
  · rw [Run.andThen_res]
    show (Config.Set env.AtoiAndCheck env.ParseObjectiveAlias env.ParseMetricAlias
      env.kEpsilon env.fields params env.defaults).res = _
    rw [Set_unbound _ _ _ _ _ params env.defaults hnone (fun f hfm => (hf f hfm).2.2)]

/-- C18 (amended), witness: the dump of `dartOnTrain` is built as the empty text is. -/
theorem toString_builds_as_empty_text_witness :
    ∃ rebuilt empty,
      Config.build exampleCollaborators LogLevel.Info
        (Config.ToString exampleCollaborators.fields dartOnTrain) = some rebuilt ∧
      Config.build exampleCollaborators LogLevel.Info "" = some empty ∧
      rebuilt.res = empty.res ∧ empty = pure builtFromNothing :=
  have h := (toString_builds_as_empty_text exampleCollaborators LogLevel.Info dartOnTrain
    (by decide) (by decide) (by decide) (by decide) (by decide) (by decide)
    (by
      intro key hk
      have h1 : (key == "boosting_type") = false := by
        rw [beq_eq_false_iff_ne]
        intro he
        subst he
        exact absurd hk (by decide)
      have h2 : (key == "boost") = false := by
        rw [beq_eq_false_iff_ne]
        intro he
        subst he
        exact absurd hk (by decide)
      show List.lookup key [("boosting_type", "boosting"), ("boost", "boosting")] = none
      rw [List.lookup_cons, h1, List.lookup_cons, h2]
      rfl)).2
  match h with
  | ⟨rebuilt, empty, h1, h2, h3⟩ => ⟨rebuilt, empty, h1, h2, h3, Option.some.inj (h2.symm.trans rfl)⟩

/-! ## Query-aware bagging -/

theorem resetBaggingByQuery_result (c c1 : Config)
    (h : (resetBaggingByQuery c).res = Except.ok c1) :
    (c1.bagging_by_query = true → c1.data_sample_strategy = "bagging") ∧
      (c.data_sample_strategy ≠ "bagging" → c1.bagging_by_query = false) ∧
      (c.data_sample_strategy = "bagging" → c1.bagging_by_query = c.bagging_by_query) ∧
      c1.data_sample_strategy = c.data_sample_strategy := by
  unfold resetBaggingByQuery at h
  simp only [Run.andThen_res, apply_ite Run.res, Run.res_pure, Log.Warning_res,
    Run.resBind_ok] at h
  split_ifs at h with hc <;> cases h
  · simp only [Bool.and_eq_true, bne_iff_ne, ne_eq] at hc
    exact ⟨fun hh => Bool.noConfusion hh, fun _ => rfl, fun hs => absurd hs hc.2, rfl⟩
  · simp only [Bool.and_eq_true, bne_iff_ne, ne_eq, not_and, not_not] at hc
    refine ⟨fun hh => hc hh, fun hs => ?_, fun _ => rfl, rfl⟩
    cases hq : c.bagging_by_query
    · rfl
    · exact absurd (hc hq) hs

/-- C21: after a run of `CheckParamConflict` that returns, `bagging_by_query = true`
implies `data_sample_strategy = "bagging"`; and a configuration with `boosting = "goss"`
ends with `bagging_by_query = false`, whatever its sampling strategy was, because the
`goss` rewrite has set the strategy to `goss` before the rule is reached. -/
theorem checkParamConflict_bagging_by_query (kEpsilon : Double) (params : Params)
    (c c' : Config) (h : (Config.CheckParamConflict kEpsilon params c).res = Except.ok c') :
    (c'.bagging_by_query = true → c'.data_sample_strategy = "bagging") ∧
      (c.boosting = "goss" → c'.bagging_by_query = false) := by
  obtain ⟨c1, c3, c4, c5, c6, c7, c8, c10, c11, tr⟩ :=
    CheckParamConflict_trace kEpsilon params c c' h
  obtain ⟨r1, r2, _, _⟩ := resetBaggingByQuery_result c11 c' tr.bagging
  refine ⟨r1, fun hb => r2 ?_⟩
  obtain ⟨_, g2, _⟩ := rewriteGoss_goss _ _ tr.goss (tr.boosting10.trans hb)
  rw [g2]
  decide

/-- C21, witness: `boosting=goss` with the strategy `bagging` and query-aware bagging
ends without query-aware bagging; with `boosting=gbdt` it is kept. -/
theorem checkParamConflict_bagging_by_query_witness :
    (gossBaggingByQuery.boosting = "goss" ∧
      gossBaggingByQuery.data_sample_strategy = "bagging" ∧
      gossBaggingByQuery.bagging_by_query = true) ∧
    (Config.CheckParamConflict exampleEpsilon [] gossBaggingByQuery).res
      = Except.ok gossBaggingByQueryResult ∧
    ((gossBaggingByQueryResult.bagging_by_query = true →
        gossBaggingByQueryResult.data_sample_strategy = "bagging") ∧
      (gossBaggingByQuery.boosting = "goss" →
        gossBaggingByQueryResult.bagging_by_query = false)) ∧
    gossBaggingByQueryResult.bagging_by_query = false ∧
    (Config.CheckParamConflict exampleEpsilon [] baggingByQuery).res
      = Except.ok baggingByQuery :=
  ⟨⟨rfl, rfl, rfl⟩, rfl,
    checkParamConflict_bagging_by_query exampleEpsilon [] gossBaggingByQuery
      gossBaggingByQueryResult rfl,
    rfl, rfl⟩

/-! ## The raw map of `Str2Map` -/

theorem appendValue_wellFormed (params : RawParams) (key value : String)
    (h : WellFormedRaw params) (hk : key ≠ "") :
    WellFormedRaw (appendValue params key value) := by
  induction params with
  | nil =>
    intro k values he
    simp only [appendValue, List.mem_singleton, Prod.mk.injEq] at he
    obtain ⟨h1, h2⟩ := he
    subst h1 h2
    exact ⟨hk, by simp⟩
  | cons head rest ih =>
    obtain ⟨k0, values0⟩ := head
    have hrest : WellFormedRaw rest := fun k v he => h k v (List.mem_cons_of_mem _ he)
    have hhead := h k0 values0 (List.mem_cons_self _ _)
    rw [appendValue]
    by_cases hkk : k0 = key
    · rw [if_pos hkk]
      intro k values he
      rcases List.mem_cons.1 he with he | he
      · simp only [Prod.mk.injEq] at he
        obtain ⟨h1, h2⟩ := he
        subst h1 h2
        exact ⟨hhead.1, by simp⟩
      · exact hrest k values he
    · rw [if_neg hkk]
      intro k values he
      rcases List.mem_cons.1 he with he | he
      · simp only [Prod.mk.injEq] at he
        obtain ⟨h1, h2⟩ := he
        subst h1 h2
        exact hhead
      · exact ih hrest k values he

theorem storeKeyValue_wellFormed (params : RawParams) (rawKey : String)
    (rawValue : Option String) (h : WellFormedRaw params) :
    WellFormedRaw (storeKeyValue params rawKey rawValue) := by
  unfold storeKeyValue
  dsimp only
  split_ifs with hk
  · exact appendValue_wellFormed params _ _ h hk
  · exact h

/-- One call of `KV2Map` returns and keeps the raw map well formed. -/
theorem KV2Map_wellFormed (params : RawParams) (kv : String) (h : WellFormedRaw params) :
    ∃ out, (Config.KV2Map params kv).res = Except.ok out ∧ WellFormedRaw out := by
  unfold Config.KV2Map
  split
  · exact ⟨_, rfl, storeKeyValue_wellFormed params _ none h⟩
  · exact ⟨_, rfl, storeKeyValue_wellFormed params _ _ h⟩
  · exact ⟨params, rfl, h⟩

theorem KV2MapCalls_wellFormed (kvs : List String) (params : RawParams)
    (h : WellFormedRaw params) :
    ∃ out, (KV2MapCalls kvs params).res = Except.ok out ∧ WellFormedRaw out := by
  induction kvs generalizing params with
  | nil => exact ⟨params, rfl, h⟩
  | cons kv rest ih =>
    obtain ⟨mid, hmid, hwf⟩ := KV2Map_wellFormed params kv h
    obtain ⟨out, hout, hwo⟩ := ih mid hwf
    refine ⟨out, ?_, hwo⟩
    rw [KV2MapCalls, Run.andThen_res, hmid]
    exact hout

theorem Str2MapLoop_eq_calls (tokens : List String) (params : RawParams) :
    Str2MapLoop tokens params = KV2MapCalls (tokens.map Common.Trim) params := by
  induction tokens generalizing params with
  | nil => rfl
  | cons token rest ih =>
    rw [Str2MapLoop, List.map_cons, KV2MapCalls]
    congr 1
    funext mid
    exact ih mid

theorem mem_of_lookup_raw (params : RawParams) (key : String) (values : List String)
    (h : params.lookup key = some values) : (key, values) ∈ params := by
  induction params with
  | nil => cases h
  | cons head rest ih =>
    obtain ⟨k, v⟩ := head
    rw [List.lookup_cons] at h
    by_cases hk : (key == k) = true
    · rw [hk] at h
      have hv : v = values := by simpa using h
      have hkk : key = k := by simpa using hk
      subst hv hkk
      exact List.mem_cons_self _ _
    · have hk' : (key == k) = false := by simpa using hk
      rw [hk'] at h
      exact List.mem_cons_of_mem _ (ih h)

/-- On a well-formed raw map the read `pair->second[0]` of `GetFirstValueAsInt` is in
bounds. -/
theorem GetFirstValueAsInt_in_bounds (AtoiAndCheck : String → Option Int)
    (params : RawParams) (key : String) (out : Int) (h : WellFormedRaw params) :
    ∃ run, GetFirstValueAsInt AtoiAndCheck params key out = some run := by
  unfold GetFirstValueAsInt
  cases hl : params.lookup key with
  | none => exact ⟨_, rfl⟩
  | some values =>
    have hv := (h key values (mem_of_lookup_raw params key values hl)).2
    cases values with
    | nil => exact absurd rfl hv
    | cons candidate more =>
      dsimp only
      cases AtoiAndCheck candidate with
      | none => exact ⟨_, rfl⟩
      | some parsed => exact ⟨_, rfl⟩

theorem SetVerbosity_in_bounds (AtoiAndCheck : String → Option Int) (params : RawParams)
    (level : LogLevel) (h : WellFormedRaw params) :
    ∃ run, Config.SetVerbosity AtoiAndCheck params level = some run := by
  obtain ⟨r1, h1⟩ := GetFirstValueAsInt_in_bounds AtoiAndCheck params "verbosity" 1 h
  obtain ⟨r2, h2⟩ := GetFirstValueAsInt_in_bounds AtoiAndCheck params "verbose" 1 h
  unfold Config.SetVerbosity
  dsimp only
  rw [h1, h2]
  cases params.lookup "verbosity" with
  | some _ => exact ⟨_, rfl⟩
  | none =>
    cases params.lookup "verbose" with
    | some _ => exact ⟨_, rfl⟩
    | none => exact ⟨_, rfl⟩

/-- On a well-formed raw map the reads `values[0]` of `KeepFirstValues` are in bounds. -/
theorem KeepFirstValues_in_bounds (params : RawParams) (out : Params)
    (h : WellFormedRaw params) :
    ∃ result, Config.KeepFirstValues params out = some result := by
  induction params generalizing out with
  | nil => exact ⟨_, rfl⟩
  | cons head rest ih =>
    obtain ⟨name, values⟩ := head
    have hv := (h name values (List.mem_cons_self _ _)).2
    cases values with
    | nil => exact absurd rfl hv
    | cons first later =>
      obtain ⟨result, hres⟩ := ih (emplace out name first)
        (fun k v he => h k v (List.mem_cons_of_mem _ he))
      rw [Config.KeepFirstValues]
      simp only [hres]
      exact ⟨_, rfl⟩

/-- C22: starting from the empty map, every sequence of `KV2Map` calls returns a raw map
in which every key is a non-empty string and has a non-empty list of values, so that on
it the reads `values[0]` of `KeepFirstValues` and `pair->second[0]` of
`GetFirstValueAsInt` (also through `SetVerbosity`) are in bounds; the loop of `Str2Map`
is such a sequence, and `Str2Map` is defined on every text. -/
theorem kv2map_raw_map_well_formed (AtoiAndCheck : String → Option Int)
    (aliases : List (String × String)) (level : LogLevel) (kvs : List String)
    (text : String) :
    (∃ raw, (KV2MapCalls kvs []).res = Except.ok raw ∧
      (∀ key values, (key, values) ∈ raw → key ≠ "" ∧ values ≠ []) ∧
      (∀ out, ∃ result, Config.KeepFirstValues raw out = some result) ∧
      (∀ key out, ∃ run, GetFirstValueAsInt AtoiAndCheck raw key out = some run) ∧
      ∃ run, Config.SetVerbosity AtoiAndCheck raw level = some run) ∧
    Str2MapLoop (Common.SplitDelimiters text " \t\n\r") []
      = KV2MapCalls ((Common.SplitDelimiters text " \t\n\r").map Common.Trim) [] ∧
    ∃ run, Config.Str2Map AtoiAndCheck aliases level text = some run := by
  have hempty : WellFormedRaw [] := fun k v he => absurd he (List.not_mem_nil _)
  refine ⟨?_, Str2MapLoop_eq_calls _ [], ?_⟩
  · obtain ⟨raw, hraw, hwf⟩ := KV2MapCalls_wellFormed kvs [] hempty
    exact ⟨raw, hraw, hwf, fun out => KeepFirstValues_in_bounds raw out hwf,
      fun key out => GetFirstValueAsInt_in_bounds AtoiAndCheck raw key out hwf,
      SetVerbosity_in_bounds AtoiAndCheck raw level hwf⟩
  · obtain ⟨raw, hraw, hwf⟩ := KV2MapCalls_wellFormed
      ((Common.SplitDelimiters text " \t\n\r").map Common.Trim) [] hempty
    rw [← Str2MapLoop_eq_calls] at hraw
    obtain ⟨verbosity, hv⟩ := SetVerbosity_in_bounds AtoiAndCheck raw level hwf
    obtain ⟨kept, hk⟩ := KeepFirstValues_in_bounds raw [] hwf
    unfold Config.Str2Map
    simp only [hraw, hv, hk]
    cases verbosity.res with
    | error e => exact ⟨_, rfl⟩
    | ok level1 => exact ⟨_, rfl⟩

/-- C22, witness: two values for `a`, a quoted empty key, a flag and a malformed token
give a map with the keys `a` and `b`, on which `KeepFirstValues` and `SetVerbosity` are
defined. -/
theorem kv2map_raw_map_well_formed_witness :
    (KV2MapCalls ["a=1", "a=2", "\x27\x27=1", "b", "c=d=e"] []).res
      = Except.ok [("a", ["1", "2"]), ("b", [""])] ∧
    (∃ raw, (KV2MapCalls ["a=1", "a=2", "\x27\x27=1", "b", "c=d=e"] []).res = Except.ok raw ∧
      (∀ key values, (key, values) ∈ raw → key ≠ "" ∧ values ≠ []) ∧
      (∀ out, ∃ result, Config.KeepFirstValues raw out = some result) ∧
      (∀ key out, ∃ run, GetFirstValueAsInt exampleAtoi raw key out = some run) ∧
      ∃ run, Config.SetVerbosity exampleAtoi raw LogLevel.Info = some run) ∧
    ∃ run, Config.Str2Map exampleAtoi [] LogLevel.Info "a=1 a=2 \x27\x27=1 b c=d=e"
      = some run :=
  ⟨rfl,
    (kv2map_raw_map_well_formed exampleAtoi [] LogLevel.Info
      ["a=1", "a=2", "\x27\x27=1", "b", "c=d=e"] "a=1 a=2 \x27\x27=1 b c=d=e").1,
    (kv2map_raw_map_well_formed exampleAtoi [] LogLevel.Info
      ["a=1", "a=2", "\x27\x27=1", "b", "c=d=e"] "a=1 a=2 \x27\x27=1 b c=d=e").2.2⟩

end LightGBM
